import Mathlib

/-!
# Filter binding of the miniob query core

A shallow embedding of `src/observer/sql/stmt/filter_stmt.cpp`
(`function_calc`, `get_table_and_field`, `FilterStmt::create_filter_unit`,
`FilterStmt::create`) and of `yyerror` and semantic actions of the generated
parser `src/observer/sql/parser/yacc_sql.cpp`, together with the data
declarations those functions use.

Conventions of the embedding:

* a nullable pointer `T *` is an `Option T`;
* a reference out-parameter (`Value &value`, `Table *&table`, ...) is passed in
  and returned next to the return code;
* `std::string` is `String`, and `size()` is the number of bytes;
* `std::unordered_map<std::string, Table *>` is an association list searched
  with `List.lookup`;
* C `int` is an `Int`; a narrowing conversion to `int` is written explicitly;
* `std::vector` is a `List`, `push_back` and `emplace_back` append at the end,
  and `a.swap(b)` on an empty `a` leaves the content of `b` in `a`;
* a grammar action is a function of the semantic values of its rule, and an
  action that calls through a null pointer, or that reads element 0 of an
  empty vector in a rule of `expression` or `expression_list`, has no result
  (`none` of an outer `Option`); the `condition` actions read element 0
  through `vec0`, as stated there.
-/

set_option autoImplicit false

namespace Miniob

/-! ## Return codes and enumerations -/

/-- Modelled from the spec: the `RC` enumeration (`common/rc.h` is missing).
The constructors are the symbolic names of spec section 7 together with the
names `filter_stmt.cpp` returns. -/
inductive RC where
  | SUCCESS
  | RECORD_EOF
  | INVALID_ARGUMENT
  | UNIMPLENMENT
  | SCHEMA_TABLE_NOT_EXIST
  | SCHEMA_FIELD_NOT_EXIST
  | AMBIGUOUS_REFERENCE
  | TYPE_MISMATCH
  | AGGREGATE_OUTSIDE_SELECT
  | GROUP_BY_MISSING
  | SUBQUERY_ARITY_MISMATCH
  | SUBQUERY_MULTI_ROW
  | VARIABLE_NOT_VALID
  | UNIQUE_CONSTRAINT_VIOLATION
  | NOT_NULL_VIOLATION
  | DIV_BY_ZERO
  | DEADLOCK
  | INTERNAL
  deriving DecidableEq, Repr, Inhabited

/-- Modelled from the spec: the `AttrType` tag of a value (`value.h` is
missing). `CHARS`, `INTS`, `FLOATS` and `DATES` are the names the source tests;
the others are the remaining alternatives of the tagged union of spec
section 3 and the tag of a default-constructed value. -/
inductive AttrType where
  | UNDEFINED
  | CHARS
  | INTS
  | FLOATS
  | DATES
  | TEXTS
  | NULLS
  | BOOLEANS
  deriving DecidableEq, Repr, Inhabited

/-- Scalar function tag of an attribute reference (`parse_defs.h` is missing).
The four named tags are the ones the source uses; `OTHER_FUNC` stands for any
further enumerator, which the `default:` branches of the source receive. -/
inductive FuncOp where
  | NO_FUNC
  | LENGTH_FUNC
  | ROUND_FUNC
  | FORMAT_FUNC
  | OTHER_FUNC (code : Nat)
  deriving DecidableEq, Repr, Inhabited

/-- A comparison operator is the integer value of the C++ enumerator `CompOp`;
a C++ enumeration object can hold integers that name no enumerator. -/
abbrev CompOp := Int

/-- Modelled from the spec: the enumerators of `CompOp` (`parse_defs.h` is
missing): the operators of spec section 4.4, which are the ones the grammar
actions assign, between `EQUAL_TO` and the end marker `NO_OP`. The source
relies on `EQUAL_TO` being the least enumerator and `NO_OP` the greatest; the
order of the others is of no consequence. -/
def EQUAL_TO : CompOp := 0

/-- Enumerator of `CompOp`; see `EQUAL_TO`. -/
def LESS_EQUAL : CompOp := 1

/-- Enumerator of `CompOp`; see `EQUAL_TO`. -/
def NOT_EQUAL : CompOp := 2

/-- Enumerator of `CompOp`; see `EQUAL_TO`. -/
def LESS_THAN : CompOp := 3

/-- Enumerator of `CompOp`; see `EQUAL_TO`. -/
def GREAT_EQUAL : CompOp := 4

/-- Enumerator of `CompOp`; see `EQUAL_TO`. -/
def GREAT_THAN : CompOp := 5

/-- Enumerator of `CompOp`; see `EQUAL_TO`. -/
def LIKE : CompOp := 6

/-- Enumerator of `CompOp`; see `EQUAL_TO`. -/
def NOT_LIKE : CompOp := 7

/-- Enumerator of `CompOp`; see `EQUAL_TO`. -/
def IS_NULL : CompOp := 8

/-- Enumerator of `CompOp`; see `EQUAL_TO`. -/
def IS_NOT_NULL : CompOp := 9

/-- Enumerator of `CompOp`; see `EQUAL_TO`. -/
def IN_OP : CompOp := 10

/-- Enumerator of `CompOp`; see `EQUAL_TO`. -/
def NOT_IN_OP : CompOp := 11

/-- Enumerator of `CompOp`; see `EQUAL_TO`. -/
def EXISTS_OP : CompOp := 12

/-- Enumerator of `CompOp`; see `EQUAL_TO`. -/
def NOT_EXISTS_OP : CompOp := 13

/-- Enumerator of `CompOp`; see `EQUAL_TO`. -/
def NO_OP : CompOp := 14

/-! ## Floating-point payloads -/

/-- A C `float` or `double` object: a finite value, an infinity or a NaN.
Every finite binary floating-point number is a rational, so `finite` covers
all of them (and further rationals that no float denotes). -/
inductive CFloat where
  | finite (q : ℚ)
  | inf (negative : Bool)
  | nan
  deriving DecidableEq, Repr, Inhabited

/-- The integer the C library function `round` returns for a finite argument:
the nearest integer, halfway cases going away from zero (C11 7.12.9.6). -/
def round_half_away (q : ℚ) : Int :=
  if 0 ≤ q then Int.floor (q + 1 / 2) else -Int.floor (-q + 1 / 2)

/-- The C library function `round` of `<cmath>`. Its result is an integer,
which the floating-point format of the argument always holds exactly;
infinities and NaN are returned unchanged. -/
def cround : CFloat → CFloat
  | CFloat.finite q => CFloat.finite (round_half_away q)
  | x => x

/-- Wrap-around of an integer into the range of a 32-bit `int`: the conversion
of a `size_t` to `int`. -/
def to_int32 (n : Int) : Int :=
  (n + 2 ^ 31) % 2 ^ 32 - 2 ^ 31

/-! ## Collaborators outside the translated file -/

/-- The helpers `filter_stmt.cpp` calls whose code is not part of the
translated source, and the arithmetic whose result depends on the binary
floating-point formats. They are parameters of the embedding: a theorem
stated for `env` holds for all of them, and `ieee_env` is the arithmetic of
IEEE 754.

* `is_blank` is `common::is_blank`, `is_valid_date` is `common::is_valid_date`
  and `formatDate` is `formatDate` of `utils.h`;
* `pow10 n` is `pow(10, n)`;
* `mul_float x p` is the `float` that `raw_data *= p` stores;
* `div_float x p` is the `float` that `set_float(x / p)` receives;
* `int_of_unrepresentable x` is what the conversion of a floating value to
  `int` yields when the value does not fit (undefined in C++). -/
structure Env where
  is_blank : String → Bool
  is_valid_date : String → Bool
  formatDate : String → String → String
  pow10 : Int → CFloat
  mul_float : CFloat → CFloat → CFloat
  div_float : CFloat → CFloat → CFloat
  int_of_unrepresentable : CFloat → Int

/-- Conversion of a floating value to `int` (the implicit conversion at the
call `set_int(round(raw_data))`): truncation toward zero when the truncated
value is in the range of a 32-bit `int`. -/
def float_to_int (env : Env) (x : CFloat) : Int :=
  match x with
  | CFloat.finite q =>
    let t : Int := if 0 ≤ q then Int.floor q else Int.ceil q
    if -(2 : Int) ^ 31 ≤ t ∧ t < (2 : Int) ^ 31 then t else env.int_of_unrepresentable x
  | _ => env.int_of_unrepresentable x

/-! ## Values -/

/-- Modelled from the spec: class `Value` (`value.h` is missing): a type tag,
a length, the payload of each alternative and a null flag. A
default-constructed value has tag `UNDEFINED`, length 0 and a clear null
flag. -/
structure Value where
  attr_type_ : AttrType := AttrType.UNDEFINED
  length_ : Nat := 0
  int_value_ : Int := 0
  float_value_ : CFloat := CFloat.finite 0
  str_value_ : String := ""
  is_null_ : Bool := false
  deriving DecidableEq, Repr, Inhabited

namespace Value

/-- Accessor `Value::attr_type()`. -/
def attr_type (v : Value) : AttrType := v.attr_type_

/-- Accessor `Value::length()`. -/
def length (v : Value) : Nat := v.length_

/-- Accessor `Value::get_int()` of a value tagged `INTS`. -/
def get_int (v : Value) : Int := v.int_value_

/-- Accessor `Value::get_float()` of a value tagged `FLOATS`. -/
def get_float (v : Value) : CFloat := v.float_value_

/-- Accessor `Value::get_string()` of a value tagged `CHARS` or `DATES`. -/
def get_string (v : Value) : String := v.str_value_

/-- Accessor `Value::data()` of a value tagged `CHARS` or `DATES`. -/
def data (v : Value) : String := v.str_value_

/-- Modelled from the spec: `Value::set_int(int)` stores the integer and tags
the value `INTS`; its length is `sizeof(int)`. -/
def set_int (v : Value) (val : Int) : Value :=
  { v with attr_type_ := AttrType.INTS, int_value_ := val, length_ := 4 }

/-- Modelled from the spec: `Value::set_float(float)` stores the number and
tags the value `FLOATS`; its length is `sizeof(float)`. -/
def set_float (v : Value) (val : CFloat) : Value :=
  { v with attr_type_ := AttrType.FLOATS, float_value_ := val, length_ := 4 }

/-- Modelled from the spec: `Value::set_date(const char *)` (class `Value` is
missing, and the spec has no description of the setter itself). Its one call
is the last statement of the `DATE_FORMAT` branch of `function_calc`, on the
text `formatDate` returned, and the spec gives the result of `DATE_FORMAT` as
a `CHARS` value holding the formatted text: the setter stores the text and
tags the value `CHARS`. -/
def set_date (v : Value) (s : String) : Value :=
  { v with attr_type_ := AttrType.CHARS, str_value_ := s, length_ := s.utf8ByteSize }

/-- Modelled from the spec: `Value::set_null()` raises the null flag and tags
the value with the `NULL` alternative of the tagged union. -/
def set_null (v : Value) : Value :=
  { v with attr_type_ := AttrType.NULLS, is_null_ := true }

/-- Accessor `Value::is_null()`: the null flag. -/
def is_null (v : Value) : Bool := v.is_null_

/-- The constructor `Value(int)`. -/
def of_int (val : Int) : Value := set_int {} val

/-- The constructor `Value(float)`. -/
def of_float (val : CFloat) : Value := set_float {} val

/-- The constructor `Value(const char *, AttrType)` of the grammar actions:
the text with the given tag. -/
def of_string (s : String) (t : AttrType) : Value :=
  { attr_type_ := t, str_value_ := s, length_ := s.utf8ByteSize }

end Value

/-! ## Parse-tree nodes -/

/-- Parameter record of `LENGTH` (`parse_defs.h` is missing; the fields are
the ones the grammar actions and `function_calc` use). -/
structure LengthParam where
  relation_name : String := ""
  attribute_name : String := ""
  raw_data : Value := {}
  deriving DecidableEq, Repr, Inhabited

/-- Parameter record of `ROUND`; `bits` is default-constructed when the call
has one argument. -/
structure RoundParam where
  relation_name : String := ""
  attribute_name : String := ""
  raw_data : Value := {}
  bits : Value := {}
  deriving DecidableEq, Repr, Inhabited

/-- Parameter record of `DATE_FORMAT`. -/
structure FormatParam where
  relation_name : String := ""
  attribute_name : String := ""
  raw_data : Value := {}
  format : Value := {}
  deriving DecidableEq, Repr, Inhabited

/-- Aggregate tag of an attribute reference (`parse_defs.h` is missing; the
enumerators are the ones the grammar actions assign). -/
inductive AggOp where
  | NO_AGG
  | MAX_AGG
  | MIN_AGG
  | AVG_AGG
  | COUNT_AGG
  | SUM_AGG
  deriving DecidableEq, Repr, Inhabited

/-- An attribute reference of the parse tree, with the fields
`filter_stmt.cpp` reads and the fields the grammar actions assign. The
defaults stand for the state of a node made by `new RelAttrSqlNode`. -/
structure RelAttrSqlNode where
  relation_name : String := ""
  attribute_name : String := ""
  func : FuncOp := FuncOp.NO_FUNC
  lengthparam : LengthParam := {}
  roundparam : RoundParam := {}
  formatparam : FormatParam := {}
  agg : AggOp := AggOp.NO_AGG
  is_right : Bool := true
  alias_name : String := ""
  sqlString : String := ""
  deriving DecidableEq, Repr, Inhabited

/-- The operator of an arithmetic expression, `ArithmeticExpr::Type`
(`expression.h` is missing; the enumerators are the ones the grammar actions
pass). -/
inductive ArithmeticType where
  | ADD
  | SUB
  | MUL
  | DIV
  | NEGATIVE
  deriving DecidableEq, Repr, Inhabited

/-- Modelled from the spec: the expression objects the translated grammar
actions allocate (`expression.h` is missing): a `ValueExpr` holding a value, a
`FieldExpr`, an `ArithmeticExpr` holding its operator and operands, and a
`StringSqlExpr`, each with the name `set_name` gives it. An `ArithmeticExpr`
whose right operand is a null pointer is the constructor
`ArithmeticExprUnary`. -/
inductive Expression where
  | ValueExpr (value : Value) (name : String)
  | FieldExpr (name : String)
  | ArithmeticExpr (type : ArithmeticType) (left right : Expression) (name : String)
  | ArithmeticExprUnary (type : ArithmeticType) (left : Expression) (name : String)
  | StringSqlExpr (name : String)
  deriving DecidableEq, Repr, Inhabited

/-- Accessor `ValueExpr::get_value()`, reached through the cast
`(ValueExpr *)`; on another expression object the cast is undefined, and the
model yields a default-constructed value. -/
def Expression.get_value : Expression → Value
  | Expression.ValueExpr v _ => v
  | _ => {}

/-- Setter `Expression::set_name`. -/
def Expression.set_name : Expression → String → Expression
  | Expression.ValueExpr v _, n => Expression.ValueExpr v n
  | Expression.FieldExpr _, n => Expression.FieldExpr n
  | Expression.ArithmeticExpr t l r _, n => Expression.ArithmeticExpr t l r n
  | Expression.ArithmeticExprUnary t l _, n => Expression.ArithmeticExprUnary t l n
  | Expression.StringSqlExpr _, n => Expression.StringSqlExpr n

/-- Accessor `Expression::name()`. -/
def Expression.name : Expression → String
  | Expression.ValueExpr _ n => n
  | Expression.FieldExpr n => n
  | Expression.ArithmeticExpr _ _ _ n => n
  | Expression.ArithmeticExprUnary _ _ n => n
  | Expression.StringSqlExpr n => n

/-- Kind of a side of a comparison, as the grammar actions record it
(`parse_defs.h` is missing; the enumerators are the ones the actions
assign). -/
inductive OperandType where
  | VALUE_TYPE
  | ATTR_TYPE
  | EXPR_TYPE
  | SUB_SELECT_TYPE
  | VALUE_LIST_TYPE
  deriving DecidableEq, Repr, Inhabited

/-- One comparison of the parse tree. `filter_stmt.cpp` reads
`left_is_attr`, `left_value`, `left_attr`, `comp`, `right_is_attr`,
`right_attr` and `right_value`; the grammar actions assign the kind of each
side (`left_type`, `right_type`), its value, reference or expression, the
operator, `is_conjunction_or` and, for a parenthesised list of literals on the
right, `right_value_list`. The defaults stand for the state of a node made by
`new ConditionSqlNode`. -/
structure ConditionSqlNode where
  left_is_attr : Bool := false
  left_value : Value := {}
  left_attr : RelAttrSqlNode := {}
  comp : CompOp := NO_OP
  right_is_attr : Bool := false
  right_attr : RelAttrSqlNode := {}
  right_value : Value := {}
  is_conjunction_or : Bool := false
  left_type : OperandType := OperandType.VALUE_TYPE
  right_type : OperandType := OperandType.VALUE_TYPE
  left_expr : Option Expression := none
  right_expr : Option Expression := none
  left_relAttrSqlNodes : List RelAttrSqlNode := []
  right_relAttrSqlNodes : List RelAttrSqlNode := []
  left_fieldExprs : List Expression := []
  right_fieldExprs : List Expression := []
  right_value_list : List Value := []
  deriving DecidableEq, Repr, Inhabited

/-! ## `function_calc` -/

/-- The function `function_calc` of `filter_stmt.cpp`: evaluates a scalar
function whose arguments are literals. The result is the return code and the
final state of the out-parameter `value`. -/
def function_calc (env : Env) (attr : RelAttrSqlNode) (value : Value) : RC × Value :=
  match attr.func with
  | FuncOp.LENGTH_FUNC =>
    let param := attr.lengthparam
    if param.raw_data.attr_type ≠ AttrType.CHARS then
      (RC.VARIABLE_NOT_VALID, value)
    else
      (RC.SUCCESS, value.set_int (to_int32 param.raw_data.get_string.utf8ByteSize))
  | FuncOp.ROUND_FUNC =>
    let param := attr.roundparam
    if param.raw_data.attr_type ≠ AttrType.FLOATS then
      (RC.VARIABLE_NOT_VALID, value)
    else
      let raw_data := param.raw_data.get_float
      if param.bits.length = 0 then
        (RC.SUCCESS, value.set_int (float_to_int env (cround raw_data)))
      else if param.bits.attr_type ≠ AttrType.INTS then
        (RC.VARIABLE_NOT_VALID, value)
      else
        let raw_data := env.mul_float raw_data (env.pow10 param.bits.get_int)
        (RC.SUCCESS,
          value.set_float (env.div_float (cround raw_data) (env.pow10 param.bits.get_int)))
  | FuncOp.FORMAT_FUNC =>
    let param := attr.formatparam
    if param.raw_data.attr_type ≠ AttrType.DATES ∨ param.format.attr_type ≠ AttrType.CHARS then
      (RC.VARIABLE_NOT_VALID, value)
    else
      let raw_data := param.raw_data.get_string
      let format := param.format.get_string
      (RC.SUCCESS, value.set_date (env.formatDate raw_data format))
  | _ => (RC.UNIMPLENMENT, value)

/-! ## Catalog objects -/

/-- Modelled from the spec: the metadata of one column, with the components
spec section 3 lists (`field_meta.h` is missing). -/
structure FieldMeta where
  name : String
  type : AttrType
  offset : Nat
  len : Nat
  nullable : Bool
  deriving DecidableEq, Repr, Inhabited

/-- Modelled from the spec: the schema of a table, its ordered list of
columns (`table_meta.h` is missing). -/
structure TableMeta where
  fields : List FieldMeta
  deriving DecidableEq, Repr, Inhabited

/-- Modelled from the spec: `TableMeta::field(const char *)`, the column of
the given name, or null when the schema has none. -/
def TableMeta.field (m : TableMeta) (name : String) : Option FieldMeta :=
  m.fields.find? (fun f => f.name == name)

/-- Modelled from the spec: a table as the binder sees it, its name and its
schema (`table.h` is missing). -/
structure Table where
  name : String
  table_meta : TableMeta
  deriving DecidableEq, Repr, Inhabited

/-- Modelled from the spec: a database as the binder sees it, the tables it
has opened, by name (`db.h` is missing). -/
structure Db where
  opened_tables : List (String × Table)
  deriving DecidableEq, Repr, Inhabited

/-- Modelled from the spec: `Db::find_table(const char *)`, the table of the
given name, or null. -/
def Db.find_table (db : Db) (name : String) : Option Table :=
  db.opened_tables.lookup name

/-- The class `Field` (`field.h` is missing): a table pointer and a column
pointer, as the constructor call `Field(table, field)` stores them. -/
structure Field where
  table : Option Table
  field : Option FieldMeta
  deriving DecidableEq, Repr, Inhabited

/-! ## Compiled predicate -/

/-- The parameter record handed to `FilterObj::init_func`, which the source
overloads on the three record types. -/
inductive FuncParam where
  | length (p : LengthParam)
  | round (p : RoundParam)
  | format (p : FormatParam)
  deriving DecidableEq, Repr, Inhabited

/-- Modelled from the spec: an operand of a compiled comparison
(`filter_stmt.h` is missing). Of the alternatives of spec section 4.4 the
source builds three: `init_attr` gives `attr`, `init_value` gives `value` and
`init_func` gives `func`. -/
inductive FilterObj where
  | attr (field : Field)
  | value (value : Value)
  | func (field : Field) (func : FuncOp) (param : FuncParam)
  deriving DecidableEq, Repr, Inhabited

/-- Modelled from the spec: a compiled comparison (`filter_stmt.h` is
missing). A freshly constructed unit has no operand set and the operator
`NO_OP`. -/
structure FilterUnit where
  comp : CompOp := NO_OP
  left : Option FilterObj := none
  right : Option FilterObj := none
  deriving DecidableEq, Repr, Inhabited

namespace FilterUnit

/-- Setter `FilterUnit::set_left`. -/
def set_left (u : FilterUnit) (obj : FilterObj) : FilterUnit := { u with left := some obj }

/-- Setter `FilterUnit::set_right`. -/
def set_right (u : FilterUnit) (obj : FilterObj) : FilterUnit := { u with right := some obj }

/-- Setter `FilterUnit::set_comp`. -/
def set_comp (u : FilterUnit) (comp : CompOp) : FilterUnit := { u with comp := comp }

end FilterUnit

/-! ## `get_table_and_field` -/

/-- The first statement of `get_table_and_field` (the `if` / `else if` /
`else` chain): the value of the in-out parameter `table` after it. A name
that the scope map does not hold leaves `table` as the caller passed it. -/
def get_table_and_field_table (env : Env) (db : Db) (default_table : Option Table)
    (tables : Option (List (String × Table))) (attr : RelAttrSqlNode)
    (table : Option Table) : Option Table :=
  if env.is_blank attr.relation_name then
    default_table
  else
    match tables with
    | some m =>
      match m.lookup attr.relation_name with
      | some t => some t
      | none => table
    | none => db.find_table attr.relation_name

/-- The function `get_table_and_field` of `filter_stmt.cpp`. The result is
the return code and the final state of the in-out parameters `table` and
`field`. -/
def get_table_and_field (env : Env) (db : Db) (default_table : Option Table)
    (tables : Option (List (String × Table))) (attr : RelAttrSqlNode)
    (table : Option Table) (field : Option FieldMeta) :
    RC × Option Table × Option FieldMeta :=
  match get_table_and_field_table env db default_table tables attr table with
  | none => (RC.SCHEMA_TABLE_NOT_EXIST, none, field)
  | some t =>
    match t.table_meta.field attr.attribute_name with
    | none => (RC.SCHEMA_FIELD_NOT_EXIST, none, none)
    | some f => (RC.SUCCESS, some t, some f)

/-! ## `FilterStmt::create_filter_unit` -/

/-- The left-hand block of `FilterStmt::create_filter_unit` (the first
`if (condition.left_is_attr) ... else ...` statement). `Except.error rc` is a
`return rc` inside the block; `Except.ok (rc, unit)` is the local `rc` and the
unit when control leaves the block. -/
def create_filter_unit_left (env : Env) (db : Db) (default_table : Option Table)
    (tables : Option (List (String × Table))) (condition : ConditionSqlNode)
    (rc : RC) (filter_unit : FilterUnit) : Except RC (RC × FilterUnit) :=
  if condition.left_is_attr then
    if condition.left_attr.func ≠ FuncOp.NO_FUNC ∧ condition.left_attr.attribute_name.isEmpty then
      let r := function_calc env condition.left_attr {}
      if r.1 ≠ RC.SUCCESS then
        Except.error r.1
      else
        Except.ok (r.1, filter_unit.set_left (FilterObj.value r.2))
    else
      let r := get_table_and_field env db default_table tables condition.left_attr none none
      if r.1 ≠ RC.SUCCESS then
        Except.error r.1
      else if condition.left_attr.func ≠ FuncOp.NO_FUNC then
        match condition.left_attr.func with
        | FuncOp.LENGTH_FUNC =>
          Except.ok (r.1, filter_unit.set_left (FilterObj.func (Field.mk r.2.1 r.2.2)
            condition.left_attr.func (FuncParam.length condition.left_attr.lengthparam)))
        | FuncOp.ROUND_FUNC =>
          Except.ok (r.1, filter_unit.set_left (FilterObj.func (Field.mk r.2.1 r.2.2)
            condition.left_attr.func (FuncParam.round condition.left_attr.roundparam)))
        | FuncOp.FORMAT_FUNC =>
          Except.ok (r.1, filter_unit.set_left (FilterObj.func (Field.mk r.2.1 r.2.2)
            condition.left_attr.func (FuncParam.format condition.left_attr.formatparam)))
        | _ => Except.error RC.UNIMPLENMENT
      else
        Except.ok (r.1, filter_unit.set_left (FilterObj.attr (Field.mk r.2.1 r.2.2)))
  else
    if condition.left_value.attr_type = AttrType.DATES
        ∧ ¬ env.is_valid_date condition.left_value.data then
      Except.error RC.INVALID_ARGUMENT
    else
      Except.ok (rc, filter_unit.set_left (FilterObj.value condition.left_value))

/-- The right-hand block of `FilterStmt::create_filter_unit` (the second
`if (condition.right_is_attr) ... else ...` statement), read as
`create_filter_unit_left`. -/
def create_filter_unit_right (env : Env) (db : Db) (default_table : Option Table)
    (tables : Option (List (String × Table))) (condition : ConditionSqlNode)
    (rc : RC) (filter_unit : FilterUnit) : Except RC (RC × FilterUnit) :=
  if condition.right_is_attr then
    if condition.right_attr.func ≠ FuncOp.NO_FUNC
        ∧ condition.right_attr.attribute_name.isEmpty then
      let r := function_calc env condition.right_attr {}
      if r.1 ≠ RC.SUCCESS then
        Except.error r.1
      else
        Except.ok (r.1, filter_unit.set_right (FilterObj.value r.2))
    else
      let r := get_table_and_field env db default_table tables condition.right_attr none none
      if r.1 ≠ RC.SUCCESS then
        Except.error r.1
      else if condition.right_attr.func ≠ FuncOp.NO_FUNC then
        match condition.right_attr.func with
        | FuncOp.LENGTH_FUNC =>
          Except.ok (r.1, filter_unit.set_right (FilterObj.func (Field.mk r.2.1 r.2.2)
            condition.right_attr.func (FuncParam.length condition.right_attr.lengthparam)))
        | FuncOp.ROUND_FUNC =>
          Except.ok (r.1, filter_unit.set_right (FilterObj.func (Field.mk r.2.1 r.2.2)
            condition.right_attr.func (FuncParam.round condition.right_attr.roundparam)))
        | FuncOp.FORMAT_FUNC =>
          Except.ok (r.1, filter_unit.set_right (FilterObj.func (Field.mk r.2.1 r.2.2)
            condition.right_attr.func (FuncParam.format condition.right_attr.formatparam)))
        | _ => Except.error RC.UNIMPLENMENT
      else
        Except.ok (r.1, filter_unit.set_right (FilterObj.attr (Field.mk r.2.1 r.2.2)))
  else
    if condition.right_value.attr_type = AttrType.DATES
        ∧ ¬ env.is_valid_date condition.right_value.data then
      Except.error RC.INVALID_ARGUMENT
    else
      Except.ok (rc, filter_unit.set_right (FilterObj.value condition.right_value))

/-- The function `FilterStmt::create_filter_unit` of `filter_stmt.cpp`. The
result is the return code and the final state of the out-parameter
`filter_unit`: the pointer the caller passed when the operator is rejected,
and otherwise the unit allocated by `new FilterUnit` in the state it has when
the function returns. -/
def create_filter_unit (env : Env) (db : Db) (default_table : Option Table)
    (tables : Option (List (String × Table))) (condition : ConditionSqlNode)
    (filter_unit : Option FilterUnit) : RC × Option FilterUnit :=
  let rc := RC.SUCCESS
  let comp := condition.comp
  if comp < EQUAL_TO ∨ comp ≥ NO_OP then
    (RC.INVALID_ARGUMENT, filter_unit)
  else
    let unit0 : FilterUnit := {}
    match create_filter_unit_left env db default_table tables condition rc unit0 with
    | Except.error e => (e, some unit0)
    | Except.ok (rc1, unit1) =>
      match create_filter_unit_right env db default_table tables condition rc1 unit1 with
      | Except.error e => (e, some unit1)
      | Except.ok (rc2, unit2) => (rc2, some (unit2.set_comp comp))

/-! ## A concrete environment and catalog for worked instances -/

/-- A date check for worked instances: the texts `YYYY-MM-DD` of ten
characters whose month is 1 to 12 and whose day exists in that month (29 days
for February). -/
def sample_is_valid_date (s : String) : Bool :=
  match s.data with
  | [y1, y2, y3, y4, s1, m1, m2, s2, d1, d2] =>
    let month := (m1.toNat - 48) * 10 + (m2.toNat - 48)
    let day := (d1.toNat - 48) * 10 + (d2.toNat - 48)
    [y1, y2, y3, y4, m1, m2, d1, d2].all Char.isDigit && s1 == '-' && s2 == '-' &&
      decide (1 ≤ month) && decide (month ≤ 12) && decide (1 ≤ day) &&
      decide (day ≤ [31, 29, 31, 30, 31, 30, 31, 31, 30, 31, 30, 31].getD (month - 1) 0)
  | _ => false

/-- An environment for worked instances: `is_blank` accepts the strings of
white space only, `is_valid_date` is `sample_is_valid_date`, `formatDate`
returns the format text, and the arithmetic is exact. -/
def sample_env : Env where
  is_blank := fun s => s.data.all Char.isWhitespace
  is_valid_date := sample_is_valid_date
  formatDate := fun _ fmt => fmt
  pow10 := fun n => CFloat.finite ((10 : ℚ) ^ n)
  mul_float := fun x p =>
    match x, p with
    | CFloat.finite a, CFloat.finite b => CFloat.finite (a * b)
    | _, _ => CFloat.nan
  div_float := fun x p =>
    match x, p with
    | CFloat.finite a, CFloat.finite b => CFloat.finite (a / b)
    | _, _ => CFloat.nan
  int_of_unrepresentable := fun _ => -(2 : Int) ^ 31

/-- A table `t(a INT, b CHARS(8))`. -/
def sample_table : Table where
  name := "t"
  table_meta :=
    { fields := [
        { name := "a", type := AttrType.INTS, offset := 0, len := 4, nullable := false },
        { name := "b", type := AttrType.CHARS, offset := 4, len := 8, nullable := false }] }

/-- A table `u(id INT, n CHARS(4))`. -/
def sample_table_u : Table where
  name := "u"
  table_meta :=
    { fields := [
        { name := "id", type := AttrType.INTS, offset := 0, len := 4, nullable := false },
        { name := "n", type := AttrType.CHARS, offset := 4, len := 4, nullable := false }] }

/-- A database holding `t` and `u`. -/
def sample_db : Db where
  opened_tables := [("t", sample_table), ("u", sample_table_u)]

/-- A call `LENGTH('abc')`. -/
def sample_length_abc : RelAttrSqlNode where
  func := FuncOp.LENGTH_FUNC
  lengthparam := { raw_data := Value.of_string "abc" AttrType.CHARS }

/-- A call `LENGTH('')`. -/
def sample_length_empty : RelAttrSqlNode where
  func := FuncOp.LENGTH_FUNC
  lengthparam := { raw_data := Value.of_string "" AttrType.CHARS }

/-- A call of `LENGTH` on the integer literal 7. -/
def sample_length_int : RelAttrSqlNode where
  func := FuncOp.LENGTH_FUNC
  lengthparam := { raw_data := Value.of_int 7 }

/-- A call `ROUND(2.5)`. -/
def sample_round_pos : RelAttrSqlNode where
  func := FuncOp.ROUND_FUNC
  roundparam := { raw_data := Value.of_float (CFloat.finite (5 / 2)) }

/-- A call `ROUND(-2.5)`. -/
def sample_round_neg : RelAttrSqlNode where
  func := FuncOp.ROUND_FUNC
  roundparam := { raw_data := Value.of_float (CFloat.finite (-5 / 2)) }

/-- The `Field` an operand carries: the one of an `attr` or `func` operand.
A `value` operand carries none. -/
def FilterObj.field? : FilterObj → Option Field
  | FilterObj.attr f => some f
  | FilterObj.func f _ _ => some f
  | FilterObj.value _ => none

/-- The scope map of a query over `t` and `u`, under their own names. -/
def sample_tables : List (String × Table) :=
  [("t", sample_table), ("u", sample_table_u)]

/-- The condition `LENGTH('abc') = 3`. -/
def sample_cond_fold : ConditionSqlNode where
  left_is_attr := true
  left_attr := sample_length_abc
  comp := EQUAL_TO
  right_is_attr := false
  right_value := Value.of_int 3

/-- The condition `3 = LENGTH('abc')`. -/
def sample_cond_fold_right : ConditionSqlNode where
  left_is_attr := false
  left_value := Value.of_int 3
  comp := EQUAL_TO
  right_is_attr := true
  right_attr := sample_length_abc

/-- The condition `LENGTH(7) = 3`, the function applied to an integer. -/
def sample_cond_fold_bad : ConditionSqlNode where
  left_is_attr := true
  left_attr := sample_length_int
  comp := EQUAL_TO
  right_is_attr := false
  right_value := Value.of_int 3

/-- The condition `a = 3`, the column unqualified. -/
def sample_cond_unqualified : ConditionSqlNode where
  left_is_attr := true
  left_attr := { attribute_name := "a" }
  comp := EQUAL_TO
  right_is_attr := false
  right_value := Value.of_int 3

/-- The condition `t.a = u.id`. -/
def sample_cond_qualified : ConditionSqlNode where
  left_is_attr := true
  left_attr := { relation_name := "t", attribute_name := "a" }
  comp := EQUAL_TO
  right_is_attr := true
  right_attr := { relation_name := "u", attribute_name := "id" }

/-- The condition `t.a = 3`. -/
def sample_cond_t_a : ConditionSqlNode where
  left_is_attr := true
  left_attr := { relation_name := "t", attribute_name := "a" }
  comp := EQUAL_TO
  right_is_attr := false
  right_value := Value.of_int 3

/-- The reference `t.a`. -/
def sample_attr_t_a : RelAttrSqlNode where
  relation_name := "t"
  attribute_name := "a"

/-- The reference `t.zz`, a column `t` does not have. -/
def sample_attr_t_zz : RelAttrSqlNode where
  relation_name := "t"
  attribute_name := "zz"

/-- The operand a block of `create_filter_unit` stores for a reference `attr`
to a column resolved to the field `f`: an `attr` operand when the reference has
no function, and otherwise a `func` operand holding the function tag and the
parameter record of that function. -/
def column_operand (attr : RelAttrSqlNode) (f : Field) (obj : FilterObj) : Prop :=
  (attr.func = FuncOp.NO_FUNC ∧ obj = FilterObj.attr f) ∨
  (attr.func = FuncOp.LENGTH_FUNC ∧
    obj = FilterObj.func f FuncOp.LENGTH_FUNC (FuncParam.length attr.lengthparam)) ∨
  (attr.func = FuncOp.ROUND_FUNC ∧
    obj = FilterObj.func f FuncOp.ROUND_FUNC (FuncParam.round attr.roundparam)) ∨
  (attr.func = FuncOp.FORMAT_FUNC ∧
    obj = FilterObj.func f FuncOp.FORMAT_FUNC (FuncParam.format attr.formatparam))

instance (attr : RelAttrSqlNode) (f : Field) (obj : FilterObj) :
    Decidable (column_operand attr f obj) := by
  unfold column_operand
  exact inferInstance

/-- The condition `u.id = 3`. -/
def sample_cond_u_id : ConditionSqlNode where
  left_is_attr := true
  left_attr := { relation_name := "u", attribute_name := "id" }
  comp := EQUAL_TO
  right_is_attr := false
  right_value := Value.of_int 3

/-- The condition `3 = a`, the column unqualified. -/
def sample_cond_unqualified_right : ConditionSqlNode where
  left_is_attr := false
  left_value := Value.of_int 3
  comp := EQUAL_TO
  right_is_attr := true
  right_attr := { attribute_name := "a" }

/-- A scope map that holds `t` only. -/
def sample_tables_t : List (String × Table) :=
  [("t", sample_table)]

/-! ## `FilterStmt::create` -/

/-- Modelled from the spec: class `FilterStmt` (`filter_stmt.h` is missing):
the sequence of units it owns, the vector of pointers `filter_units_`, empty
in a new statement. -/
structure FilterStmt where
  filter_units_ : List (Option FilterUnit) := []
  deriving DecidableEq, Repr, Inhabited

/-- The `for` loop of `FilterStmt::create`. The pointer `conditions` and the
count `condition_num` are the list of the `condition_num` nodes the loop
reads, from the index the loop has reached on. `Except.error rc` is the
`return rc` inside the loop, after `delete tmp_stmt`; `Except.ok (rc,
tmp_stmt)` is the local `rc` and the statement when the loop ends. -/
def FilterStmt.create_loop (env : Env) (db : Db) (default_table : Option Table)
    (tables : Option (List (String × Table))) :
    List ConditionSqlNode → RC → FilterStmt → Except RC (RC × FilterStmt)
  | [], rc, tmp_stmt => Except.ok (rc, tmp_stmt)
  | condition :: rest, _, tmp_stmt =>
    let r := create_filter_unit env db default_table tables condition none
    if r.1 ≠ RC.SUCCESS then
      Except.error r.1
    else
      FilterStmt.create_loop env db default_table tables rest r.1
        { tmp_stmt with filter_units_ := tmp_stmt.filter_units_ ++ [r.2] }

/-- The function `FilterStmt::create` of `filter_stmt.cpp`. The result is the
return code and the final state of the out-parameter `stmt`. -/
def FilterStmt.create (env : Env) (db : Db) (default_table : Option Table)
    (tables : Option (List (String × Table))) (conditions : List ConditionSqlNode)
    (_stmt : Option FilterStmt) : RC × Option FilterStmt :=
  let rc := RC.SUCCESS
  let stmt : Option FilterStmt := none
  let tmp_stmt : FilterStmt := {}
  match FilterStmt.create_loop env db default_table tables conditions rc tmp_stmt with
  | Except.error e => (e, stmt)
  | Except.ok (rc1, tmp_stmt1) => (rc1, some tmp_stmt1)

/-- The condition `1 = 'abc'`: an integer literal against a text that is no
number. -/
def sample_cond_int_chars : ConditionSqlNode where
  left_is_attr := false
  left_value := Value.of_int 1
  comp := EQUAL_TO
  right_is_attr := false
  right_value := Value.of_string "abc" AttrType.CHARS

/-- The condition `a = '2020-01-02'`: the integer column `a` of `t` against a
date literal. -/
def sample_cond_int_date : ConditionSqlNode where
  left_is_attr := true
  left_attr := { attribute_name := "a" }
  comp := EQUAL_TO
  right_is_attr := false
  right_value := Value.of_string "2020-01-02" AttrType.DATES

/-- The condition `a = 3` followed by `OR`. -/
def sample_cond_or : ConditionSqlNode where
  left_is_attr := true
  left_attr := { attribute_name := "a" }
  comp := EQUAL_TO
  right_is_attr := false
  right_value := Value.of_int 3
  is_conjunction_or := true

/-- The condition `a = 3` followed by `AND`, or the last of its list. -/
def sample_cond_and : ConditionSqlNode where
  left_is_attr := true
  left_attr := { attribute_name := "a" }
  comp := EQUAL_TO
  right_is_attr := false
  right_value := Value.of_int 3
  is_conjunction_or := false

/-- The condition `b = 'x'`. -/
def sample_cond_b : ConditionSqlNode where
  left_is_attr := true
  left_attr := { attribute_name := "b" }
  comp := EQUAL_TO
  right_is_attr := false
  right_value := Value.of_string "x" AttrType.CHARS

/-- The condition `zz = 3`, on a column `t` does not have. -/
def sample_cond_zz : ConditionSqlNode where
  left_is_attr := true
  left_attr := { attribute_name := "zz" }
  comp := EQUAL_TO
  right_is_attr := false
  right_value := Value.of_int 3

/-- The condition `'2021-02-30' = 3`: a date literal that is no date. -/
def sample_cond_bad_date_left : ConditionSqlNode where
  left_is_attr := false
  left_value := Value.of_string "2021-02-30" AttrType.DATES
  comp := EQUAL_TO
  right_is_attr := false
  right_value := Value.of_int 3

/-- The condition `a = '2021-02-30'`: a date literal that is no date. -/
def sample_cond_bad_date_right : ConditionSqlNode where
  left_is_attr := true
  left_attr := { attribute_name := "a" }
  comp := EQUAL_TO
  right_is_attr := false
  right_value := Value.of_string "2021-02-30" AttrType.DATES

/-- The condition `zz = '2021-02-30'`: a column `t` does not have against a
date literal that is no date. -/
def sample_cond_zz_bad_date : ConditionSqlNode where
  left_is_attr := true
  left_attr := { attribute_name := "zz" }
  comp := EQUAL_TO
  right_is_attr := false
  right_value := Value.of_string "2021-02-30" AttrType.DATES

/-- The condition `'2020-01-02' = '2020-01-03'` between two date literals. -/
def sample_cond_dates : ConditionSqlNode where
  left_is_attr := false
  left_value := Value.of_string "2020-01-02" AttrType.DATES
  comp := EQUAL_TO
  right_is_attr := false
  right_value := Value.of_string "2020-01-03" AttrType.DATES

/-- The reference `a` carrying a function tag that is none of `LENGTH`,
`ROUND` and `DATE_FORMAT`. -/
def sample_attr_other_func : RelAttrSqlNode where
  attribute_name := "a"
  func := FuncOp.OTHER_FUNC 7

/-- The condition `f(a) = 3` for a function tag `f` that is not wired. -/
def sample_cond_other_func : ConditionSqlNode where
  left_is_attr := true
  left_attr := sample_attr_other_func
  comp := EQUAL_TO
  right_is_attr := false
  right_value := Value.of_int 3

/-- The condition `f(zz) = 3` for a function tag `f` that is not wired, on a
column `t` does not have. -/
def sample_cond_other_func_zz : ConditionSqlNode where
  left_is_attr := true
  left_attr := { attribute_name := "zz", func := FuncOp.OTHER_FUNC 7 }
  comp := EQUAL_TO
  right_is_attr := false
  right_value := Value.of_int 3

/-- The condition `'2021-02-30' = f(a)`: a date literal that is no date
against a column with a function tag `f` that is not wired. -/
def sample_cond_bad_date_other_func : ConditionSqlNode where
  left_is_attr := false
  left_value := Value.of_string "2021-02-30" AttrType.DATES
  comp := EQUAL_TO
  right_is_attr := true
  right_attr := sample_attr_other_func

/-- The codes `create_filter_unit` has a `return` for. -/
def create_filter_unit_code (rc : RC) : Prop :=
  rc = RC.SUCCESS ∨ rc = RC.INVALID_ARGUMENT ∨ rc = RC.UNIMPLENMENT ∨
    rc = RC.VARIABLE_NOT_VALID ∨ rc = RC.SCHEMA_TABLE_NOT_EXIST ∨
    rc = RC.SCHEMA_FIELD_NOT_EXIST

instance (rc : RC) : Decidable (create_filter_unit_code rc) := by
  unfold create_filter_unit_code
  exact inferInstance

/-! ## Grammar actions of `yacc_sql.cpp`

The semantic actions of the generated parser, each as a function of the
semantic values of the right-hand side of its rule (`$1`, `$2`, ...), and the
derivations of the recursive non-terminals as inductive types whose
constructors are the rules. -/

/-- Element 0 of a vector, `v[0]`. Reading an empty vector is undefined; the
model yields a default object. -/
def vec0 {α : Type} [Inhabited α] (v : List α) : α := v.headD default

/-- A `std::map` from strings to strings (`alias_map`): an association list
with one pair for each key. The order of the list is not the iteration order
of the map; membership and `List.lookup` are what the model means.
`map_find m k` is `m.find(k)`, `none` standing for `m.end()`. -/
def map_find (m : List (String × String)) (k : String) : Option String := m.lookup k

/-- The assignment `m[k] = v` of a `std::map`: the value of a present key is
overwritten, an absent key is added. -/
def map_assign (m : List (String × String)) (k v : String) : List (String × String) :=
  if (m.lookup k).isSome then m.map (fun p => if p.1 == k then (k, v) else p) else (k, v) :: m

/-- The call `m.insert(pair)` of a `std::map`: a present key keeps its value,
an absent key is added. -/
def map_insert (m : List (String × String)) (k v : String) : List (String × String) :=
  if (m.lookup k).isSome then m else (k, v) :: m

/-- The call `m.insert(first, last)` of a `std::map` over the pairs of another
map. -/
def map_insert_range (m src : List (String × String)) : List (String × String) :=
  src.foldl (fun acc p => map_insert acc p.1 p.2) m

/-- The join list of a `FROM` clause (`parse_defs.h` is missing; the members
are the ones the grammar actions use). The member `is_alias_right` has no
default here: what `new InnerJoinSqlNode` leaves in it is a parameter of
`rel_list_action`. -/
structure InnerJoinSqlNode where
  relations : List String := []
  conditions : List ConditionSqlNode := []
  alias_map : List (String × String) := []
  is_alias_right : Bool
  deriving DecidableEq, Repr, Inhabited

/-- Direction of a sort key (`parse_defs.h` is missing; the enumerators are
the ones the `order` actions assign). -/
inductive OrderBySequence where
  | ASC_ORDER_BY
  | DESC_ORDER_BY
  deriving DecidableEq, Repr, Inhabited

/-- One sort key of an `ORDER BY` clause (`parse_defs.h` is missing): the
reference and the direction, in the member order of the aggregate
initialisation `{*$3, DESC_ORDER_BY}` of the grammar. -/
structure OrderBySqlNode where
  attrs : RelAttrSqlNode
  orderBySequence : OrderBySequence
  deriving DecidableEq, Repr, Inhabited

/-- The members of `SelectSqlNode` that the `FROM`, `WHERE` and `ORDER BY`
statements of the `select_stmt` action assign (`parse_defs.h` is missing). -/
structure SelectSqlNode where
  relations : List String := []
  conditions : List ConditionSqlNode := []
  alias_map : List (String × String) := []
  is_alias_right : Bool := true
  order_by : List OrderBySqlNode := []
  deriving DecidableEq, Repr, Inhabited

/-- The rules of the non-terminal `as`: `%empty`, `AS ID`, `ID` and
`AS SUM_agg`. -/
inductive AsRule where
  | empty
  | AS_ID (id : String)
  | ID (id : String)
  | AS_SUM_agg
  deriving DecidableEq, Repr, Inhabited

/-- The actions of the rules of `as`: a null pointer for no alias, and the
alias text otherwise. -/
def as_action : AsRule → Option String
  | AsRule.empty => none
  | AsRule.AS_ID id => some id
  | AsRule.ID id => some id
  | AsRule.AS_SUM_agg => some "sum"

/-- The derivations of the non-terminal `rel_list`, by its rules `%empty`,
`COMMA ID as rel_list` and `INNER JOIN ID as on rel_list`; `on_list` is the
semantic value of `on` (null without an `ON` clause). -/
inductive RelList where
  | empty
  | comma (id : String) (as_rule : AsRule) (rest : RelList)
  | inner_join (id : String) (as_rule : AsRule) (on_list : Option (List ConditionSqlNode))
      (rest : RelList)
  deriving Repr, Inhabited

/-- The actions of the rules of `rel_list`, applied bottom-up along a
derivation. `new_is_alias_right` is the content of the member `is_alias_right`
of an object made by `new InnerJoinSqlNode`. -/
def rel_list_action (new_is_alias_right : Bool) : RelList → Option InnerJoinSqlNode
  | RelList.empty => none
  | RelList.comma id as_rule rest =>
    let node : InnerJoinSqlNode :=
      match rel_list_action new_is_alias_right rest with
      | some n => n
      | none => { is_alias_right := new_is_alias_right }
    let node : InnerJoinSqlNode :=
      match as_action as_rule with
      | some a =>
        if map_find node.alias_map a = none then
          { node with alias_map := map_assign node.alias_map a id }
        else
          { node with is_alias_right := false }
      | none => node
    some { node with relations := node.relations ++ [id] }
  | RelList.inner_join id as_rule on_list rest =>
    let node : InnerJoinSqlNode :=
      match rel_list_action new_is_alias_right rest with
      | some n => n
      | none => { is_alias_right := new_is_alias_right }
    let node : InnerJoinSqlNode := { node with relations := node.relations ++ [id] }
    let node : InnerJoinSqlNode :=
      match on_list with
      | some conds => { node with conditions := node.conditions ++ conds }
      | none => node
    let node : InnerJoinSqlNode :=
      match as_action as_rule with
      | some a =>
        if map_find node.alias_map a = none then
          { node with alias_map := map_assign node.alias_map a id }
        else
          { node with is_alias_right := false }
      | none => node
    some node

/-- The statements of the action of
`select_stmt: SELECT expression_list FROM ID as rel_list where order group`
that assign `relations`, `conditions`, `alias_map` and `is_alias_right` of the
new `selection`; `id` is `$4`, `as_name` is `$5`, `rel_list` is `$6` and
`where_list` is `$7`. The other statements of the action assign other
members. -/
def select_stmt_from_action (id : String) (as_name : Option String)
    (rel_list : Option InnerJoinSqlNode) (where_list : Option (List ConditionSqlNode)) :
    SelectSqlNode :=
  let selection : SelectSqlNode := {}
  let selection : SelectSqlNode := { selection with is_alias_right := true }
  let selection : SelectSqlNode :=
    match rel_list with
    | some l =>
      { selection with
        relations := l.relations,
        conditions := l.conditions,
        alias_map := map_insert_range selection.alias_map l.alias_map,
        is_alias_right := l.is_alias_right }
    | none => selection
  let selection : SelectSqlNode := { selection with relations := selection.relations ++ [id] }
  let selection : SelectSqlNode := { selection with relations := selection.relations.reverse }
  let selection : SelectSqlNode :=
    match as_name with
    | some a =>
      if map_find selection.alias_map a = none then
        { selection with alias_map := map_insert selection.alias_map a id }
      else
        { selection with is_alias_right := false }
    | none => selection
  let selection : SelectSqlNode :=
    match where_list with
    | some w => { selection with conditions := (w ++ selection.conditions).reverse }
    | none => selection
  selection

/-- The `selection` of a statement `SELECT ... FROM id as_rule rel_list where`:
the `select_stmt` action on the values its right-hand side has. -/
def parse_select_from (new_is_alias_right : Bool) (id : String) (as_rule : AsRule)
    (rel_list : RelList) (where_list : Option (List ConditionSqlNode)) : SelectSqlNode :=
  select_stmt_from_action id (as_action as_rule) (rel_list_action new_is_alias_right rel_list)
    where_list

/-- The table entries a derivation of `rel_list` was written with, left to
right: the table name and the alias, if one was written. -/
def RelList.entries : RelList → List (String × Option String)
  | RelList.empty => []
  | RelList.comma id as_rule rest => (id, as_action as_rule) :: rest.entries
  | RelList.inner_join id as_rule _ rest => (id, as_action as_rule) :: rest.entries

/-- The table entries of a `FROM` list, left to right: the first table with
its alias, then the entries of the `rel_list`. -/
def from_entries (id : String) (as_rule : AsRule) (rel_list : RelList) :
    List (String × Option String) :=
  (id, as_action as_rule) :: rel_list.entries

/-- The aliases a `FROM` list was written with, left to right, one for each
table entry that has one. -/
def from_aliases (id : String) (as_rule : AsRule) (rel_list : RelList) : List String :=
  (from_entries id as_rule rel_list).filterMap Prod.snd

/-- The statement `SELECT * FROM u AS x INNER JOIN v y, w`: the `rel_list`
after the first table. -/
def sample_rel_list : RelList :=
  RelList.inner_join "v" (AsRule.ID "y") none (RelList.comma "w" AsRule.empty RelList.empty)

/-- The `rel_list` of `SELECT * FROM u AS x INNER JOIN v x, w y`, where the
alias `x` is written twice. -/
def sample_rel_list_collision : RelList :=
  RelList.inner_join "v" (AsRule.ID "x") none
    (RelList.comma "w" (AsRule.ID "y") RelList.empty)

/-- The node the actions of `rel_list` leave for a derivation: the node of the
semantic value, or a new node when the value is a null pointer, as the actions
of the two recursive rules take it. -/
def rel_list_node (new_is_alias_right : Bool) (rel_list : RelList) : InnerJoinSqlNode :=
  match rel_list_action new_is_alias_right rel_list with
  | some n => n
  | none => { is_alias_right := new_is_alias_right }

/-- An alias map and a flag `is_alias_right` agree with a sequence of table
entries: the map has one pair for each alias written, every pair is an alias
with the table of an entry written with it, every entry written with an alias
has its pair when no alias is written twice, and the flag is false when an
alias is written twice. -/
def alias_map_agrees (m : List (String × String)) (flag : Bool)
    (entries : List (String × Option String)) : Prop :=
  (m.map Prod.fst).Nodup ∧
  (∀ a, a ∈ m.map Prod.fst ↔ a ∈ entries.filterMap Prod.snd) ∧
  (∀ a t, (a, t) ∈ m → (t, some a) ∈ entries) ∧
  ((entries.filterMap Prod.snd).Nodup → ∀ a t, (t, some a) ∈ entries → (a, t) ∈ m) ∧
  (¬ (entries.filterMap Prod.snd).Nodup → flag = false)

/-- The semantic value of the non-terminals `expression` and
`expression_list` (`parse_defs.h` is missing), with the members the translated
actions use: the expression objects, the attribute references, the field
expressions and the aggregate expressions collected, the two flags and the map
from the text of an expression to its alias. -/
structure ExpressionSqlNode where
  is_expression : Bool := false
  is_value : Bool := false
  expression : List Expression := []
  relAttrSqlNodes : List RelAttrSqlNode := []
  fieldExprs : List Expression := []
  stringsqlExprs : List Expression := []
  expr_alias_map : List (String × String) := []
  deriving DecidableEq, Repr, Inhabited

/-- The action of `value: NUMBER`. -/
def value_number_action (number : Int) : Value := Value.of_int number

/-- The action of `value: NULLABLE`: a default-constructed value on which
`set_null()` is called, the NULL value literal. -/
def value_nullable_action : Value := Value.set_null {}

/-- The action of `expression: value`; `name` is the text `token_name` returns
for the location of the rule. -/
def expression_value_action (value : Value) (name : String) : ExpressionSqlNode :=
  let e : ExpressionSqlNode := {}
  let e : ExpressionSqlNode :=
    { e with expression := e.expression ++ [Expression.ValueExpr value ""] }
  let e : ExpressionSqlNode :=
    { e with expression := e.expression.modifyHead (fun x => x.set_name name) }
  { e with is_expression := false, is_value := true }

/-- The action of `expression: ID`; `name` is the text `token_name` returns for
the location of the rule. -/
def expression_id_action (id : String) (name : String) : ExpressionSqlNode :=
  let e : ExpressionSqlNode := {}
  let relAttrSqlNode : RelAttrSqlNode := {}
  let relAttrSqlNode : RelAttrSqlNode :=
    { relAttrSqlNode with
      attribute_name := id, agg := AggOp.NO_AGG, func := FuncOp.NO_FUNC, is_right := true }
  let relAttrSqlNode : RelAttrSqlNode := { relAttrSqlNode with sqlString := name }
  let e : ExpressionSqlNode :=
    { e with relAttrSqlNodes := e.relAttrSqlNodes ++ [relAttrSqlNode] }
  let fieldExpr : Expression := Expression.set_name (Expression.FieldExpr "") name
  let e : ExpressionSqlNode := { e with expression := e.expression ++ [fieldExpr] }
  let e : ExpressionSqlNode := { e with fieldExprs := e.fieldExprs ++ [fieldExpr] }
  { e with is_expression := false, is_value := false }

/-- The rules of the non-terminal `comp_op`: `EQ`, `LT`, `GT`, `LE`, `GE`, `NE`,
`LK`, `NOT LK`, `IS`, `IS NOT`, `IN` and `NOT IN`. -/
inductive CompOpRule where
  | EQ
  | LT
  | GT
  | LE
  | GE
  | NE
  | LK
  | NOT_LK
  | IS
  | IS_NOT
  | IN
  | NOT_IN
  deriving DecidableEq, Repr, Inhabited

/-- The actions of the rules of `comp_op`. -/
def comp_op_action : CompOpRule → CompOp
  | CompOpRule.EQ => EQUAL_TO
  | CompOpRule.LT => LESS_THAN
  | CompOpRule.GT => GREAT_THAN
  | CompOpRule.LE => LESS_EQUAL
  | CompOpRule.GE => GREAT_EQUAL
  | CompOpRule.NE => NOT_EQUAL
  | CompOpRule.LK => LIKE
  | CompOpRule.NOT_LK => NOT_LIKE
  | CompOpRule.IS => IS_NULL
  | CompOpRule.IS_NOT => IS_NOT_NULL
  | CompOpRule.IN => IN_OP
  | CompOpRule.NOT_IN => NOT_IN_OP

/-- The action of `condition: expression comp_op expression`; `l` is `$1`,
`comp` is `$2` and `r` is `$3`. -/
def condition_action (l : ExpressionSqlNode) (comp : CompOp) (r : ExpressionSqlNode) :
    ConditionSqlNode :=
  let c : ConditionSqlNode := {}
  let c : ConditionSqlNode :=
    if l.is_expression = false then
      if l.is_value = true then
        { c with
          left_type := OperandType.VALUE_TYPE,
          left_value := (vec0 l.expression).get_value }
      else
        { c with left_type := OperandType.ATTR_TYPE, left_attr := vec0 l.relAttrSqlNodes }
    else
      { c with
        left_type := OperandType.EXPR_TYPE,
        left_expr := some (vec0 l.expression),
        left_relAttrSqlNodes := c.left_relAttrSqlNodes ++ l.relAttrSqlNodes,
        left_fieldExprs := c.left_fieldExprs ++ l.fieldExprs }
  let c : ConditionSqlNode :=
    if r.is_expression = false then
      if r.is_value = true then
        { c with
          right_type := OperandType.VALUE_TYPE,
          right_value := (vec0 r.expression).get_value }
      else
        { c with right_type := OperandType.ATTR_TYPE, right_attr := vec0 r.relAttrSqlNodes }
    else
      { c with
        right_type := OperandType.EXPR_TYPE,
        right_expr := some (vec0 r.expression),
        right_relAttrSqlNodes := c.right_relAttrSqlNodes ++ r.relAttrSqlNodes,
        right_fieldExprs := c.right_fieldExprs ++ r.fieldExprs }
  { c with comp := comp }

/-- A condition of the grammar as `filter_stmt.cpp` reads it. The two
translated files are of different revisions: the grammar records the kind of
each side in `left_type` and `right_type`, `create_filter_unit` reads the flags
`left_is_attr` and `right_is_attr`. A side is read as an attribute exactly when
its kind is `ATTR_TYPE`. -/
def filter_reading (c : ConditionSqlNode) : ConditionSqlNode :=
  { c with
    left_is_attr := decide (c.left_type = OperandType.ATTR_TYPE),
    right_is_attr := decide (c.right_type = OperandType.ATTR_TYPE) }

/-- The condition the grammar builds for `a IS 3`. -/
def sample_cond_is_3 : ConditionSqlNode :=
  condition_action (expression_id_action "a" "a") (comp_op_action CompOpRule.IS)
    (expression_value_action (value_number_action 3) "3")

/-- The condition the grammar builds for `a IS NULL`. -/
def sample_cond_is_null : ConditionSqlNode :=
  condition_action (expression_id_action "a" "a") (comp_op_action CompOpRule.IS)
    (expression_value_action value_nullable_action "NULL")

/-- The condition `LENGTH(b) = a`: a function call on a column on the left, a
plain column on the right. -/
def sample_cond_length_b : ConditionSqlNode where
  left_is_attr := true
  left_attr :=
    { attribute_name := "b", func := FuncOp.LENGTH_FUNC,
      lengthparam := { attribute_name := "b" } }
  comp := EQUAL_TO
  right_is_attr := true
  right_attr := { attribute_name := "a" }

/-- The condition `ROUND(t.a, 2) = DATE_FORMAT(u.n, '%Y')`, a function call on
a column on both sides. -/
def sample_cond_round_format : ConditionSqlNode where
  left_is_attr := true
  left_attr :=
    { relation_name := "t", attribute_name := "a", func := FuncOp.ROUND_FUNC,
      roundparam := { relation_name := "t", attribute_name := "a", bits := Value.of_int 2 } }
  comp := EQUAL_TO
  right_is_attr := true
  right_attr :=
    { relation_name := "u", attribute_name := "n", func := FuncOp.FORMAT_FUNC,
      formatparam :=
        { relation_name := "u", attribute_name := "n",
          format := Value.of_string "%Y" AttrType.CHARS } }

/-! ## `yyerror` -/

/-- Tag of a parsed statement (`parse_defs.h` is missing; the enumerators are
the ones `yacc_sql.cpp` passes to `ParsedSqlNode`). -/
inductive SqlCommandFlag where
  | SCF_ERROR
  | SCF_CALC
  | SCF_SELECT
  | SCF_INSERT
  | SCF_UPDATE
  | SCF_DELETE
  | SCF_CREATE_TABLE
  | SCF_DROP_TABLE
  | SCF_CREATE_INDEX
  | SCF_DROP_INDEX
  | SCF_SYNC
  | SCF_SHOW_TABLES
  | SCF_DESC_TABLE
  | SCF_BEGIN
  | SCF_COMMIT
  | SCF_ROLLBACK
  | SCF_LOAD_DATA
  | SCF_HELP
  | SCF_EXIT
  | SCF_EXPLAIN
  | SCF_SET_VARIABLE
  deriving DecidableEq, Repr, Inhabited

/-- The location record `YYLTYPE` of the generated parser. -/
structure YYLTYPE where
  first_line : Int := 0
  first_column : Int := 0
  last_line : Int := 0
  last_column : Int := 0
  deriving DecidableEq, Repr, Inhabited

/-- The member `error` of a parsed node (`parse_defs.h` is missing; the fields
are the ones `yyerror` assigns). -/
structure ErrorSqlNode where
  error_msg : String := ""
  line : Int := 0
  column : Int := 0
  deriving DecidableEq, Repr, Inhabited

/-- A parsed node, with its tag and the member `yyerror` fills
(`parse_defs.h` is missing). The members of the statements are modelled with
the actions that fill them. `ParsedSqlNode.mk flag` with the default `error`
stands for `ParsedSqlNode(flag)`. -/
structure ParsedSqlNode where
  flag : SqlCommandFlag
  error : ErrorSqlNode := {}
  deriving DecidableEq, Repr, Inhabited

/-- Modelled from the spec: the class `ParsedSqlResult` (`parse_defs.h` is
missing), a result "containing one or more `ParsedSqlNode`s", held in the
order they were added. -/
structure ParsedSqlResult where
  sql_nodes_ : List ParsedSqlNode := []
  deriving DecidableEq, Repr, Inhabited

/-- Modelled from the spec: `ParsedSqlResult::add_sql_node` (`parse_defs.h`
and its implementation are missing) puts the node after the nodes the result
already contains. -/
def ParsedSqlResult.add_sql_node (r : ParsedSqlResult) (sql_node : ParsedSqlNode) :
    ParsedSqlResult :=
  { r with sql_nodes_ := r.sql_nodes_ ++ [sql_node] }

/-- The function `yyerror` of `yacc_sql.cpp`. The result is the returned
integer and the final state of `*sql_result`. The parameter `scanner` is not
used by the body and is left out. -/
def yyerror (llocp : YYLTYPE) (_sql_string : String) (sql_result : ParsedSqlResult)
    (msg : String) : Int × ParsedSqlResult :=
  let error_sql_node : ParsedSqlNode := { flag := SqlCommandFlag.SCF_ERROR }
  let error_sql_node : ParsedSqlNode :=
    { error_sql_node with error := { error_sql_node.error with error_msg := msg } }
  let error_sql_node : ParsedSqlNode :=
    { error_sql_node with error := { error_sql_node.error with line := llocp.first_line } }
  let error_sql_node : ParsedSqlNode :=
    { error_sql_node with error := { error_sql_node.error with column := llocp.first_column } }
  (0, sql_result.add_sql_node error_sql_node)

/-- A result that holds the node of one `SELECT` statement. -/
def sample_result : ParsedSqlResult where
  sql_nodes_ := [{ flag := SqlCommandFlag.SCF_SELECT }]

/-! ## Condition lists of the grammar -/

/-- The derivations of the non-terminal `condition_list`, by its rules
`%empty`, `condition`, `condition AND condition_list` and
`condition OR condition_list`; the conditions are the semantic values of
`condition`. -/
inductive ConditionList where
  | empty
  | single (c : ConditionSqlNode)
  | and_list (c : ConditionSqlNode) (rest : ConditionList)
  | or_list (c : ConditionSqlNode) (rest : ConditionList)
  deriving DecidableEq, Repr, Inhabited

/-- The actions of the rules of `condition_list`, applied bottom-up along a
derivation. The inner `Option` is the pointer `$$` (`none` is `nullptr`). The
two recursive rules call `$$->emplace_back` on `$3` without a test: for a null
`$3` (a list that stops after `AND` or `OR`) the call is undefined, and the
result is the outer `none`. -/
def condition_list_action : ConditionList → Option (Option (List ConditionSqlNode))
  | ConditionList.empty => some none
  | ConditionList.single c =>
    let list : List ConditionSqlNode := []
    let c : ConditionSqlNode := { c with is_conjunction_or := false }
    some (some (list ++ [c]))
  | ConditionList.and_list c rest =>
    match condition_list_action rest with
    | none => none
    | some none => none
    | some (some list) =>
      let c : ConditionSqlNode := { c with is_conjunction_or := false }
      some (some (list ++ [c]))
  | ConditionList.or_list c rest =>
    match condition_list_action rest with
    | none => none
    | some none => none
    | some (some list) =>
      let c : ConditionSqlNode := { c with is_conjunction_or := true }
      some (some (list ++ [c]))

/-- The derivation of a written list `c1 op1 c2 ... op(n-1) cn`: `init` holds
`c1 ... c(n-1)`, each with whether the connective written after it is `OR`,
and `last` is `cn`. -/
def ConditionList.of_written : List (ConditionSqlNode × Bool) → ConditionSqlNode → ConditionList
  | [], last => ConditionList.single last
  | (c, true) :: rest, last => ConditionList.or_list c (ConditionList.of_written rest last)
  | (c, false) :: rest, last => ConditionList.and_list c (ConditionList.of_written rest last)

/-- A condition with the flag `is_conjunction_or` given and every other member
kept. -/
def ConditionSqlNode.with_flag (c : ConditionSqlNode) (is_or : Bool) : ConditionSqlNode :=
  { c with is_conjunction_or := is_or }

/-- The conditions of a derivation in the order written, each with
`is_conjunction_or` telling whether the connective written after it is `OR`;
the last one, which has no connective after it, with the flag false. -/
def ConditionList.entries : ConditionList → List ConditionSqlNode
  | ConditionList.empty => []
  | ConditionList.single c => [c.with_flag false]
  | ConditionList.and_list c rest => c.with_flag false :: rest.entries
  | ConditionList.or_list c rest => c.with_flag true :: rest.entries

/-- A derivation in which no list stops after `AND` or `OR`: every recursive
rule is followed by at least one more condition. -/
def ConditionList.closed : ConditionList → Bool
  | ConditionList.empty => true
  | ConditionList.single _ => true
  | ConditionList.and_list _ rest => decide (rest ≠ ConditionList.empty) && rest.closed
  | ConditionList.or_list _ rest => decide (rest ≠ ConditionList.empty) && rest.closed

/-- The condition `a = 1` as the grammar builds it. -/
def sample_parsed_a_1 : ConditionSqlNode :=
  condition_action (expression_id_action "a" "a") (comp_op_action CompOpRule.EQ)
    (expression_value_action (value_number_action 1) "1")

/-- The condition `b = 2` as the grammar builds it. -/
def sample_parsed_b_2 : ConditionSqlNode :=
  condition_action (expression_id_action "b" "b") (comp_op_action CompOpRule.EQ)
    (expression_value_action (value_number_action 2) "2")

/-- The condition `a = 3` as the grammar builds it. -/
def sample_parsed_a_3 : ConditionSqlNode :=
  condition_action (expression_id_action "a" "a") (comp_op_action CompOpRule.EQ)
    (expression_value_action (value_number_action 3) "3")

/-- The derivation of the list `a = 1 OR b = 2`. -/
def sample_list_or : ConditionList :=
  ConditionList.or_list sample_parsed_a_1 (ConditionList.single sample_parsed_b_2)

/-- The derivation of the list `a = 1 OR b = 2 AND a = 3`. -/
def sample_list_or_and : ConditionList :=
  ConditionList.or_list sample_parsed_a_1
    (ConditionList.and_list sample_parsed_b_2 (ConditionList.single sample_parsed_a_3))

/-- The rules of the non-terminal `where`: `%empty` and
`WHERE condition_list`. -/
inductive WhereRule where
  | empty
  | WHERE (list : ConditionList)
  deriving DecidableEq, Repr, Inhabited

/-- The actions of the rules of `where`: a null pointer, and the value of the
condition list. -/
def where_action : WhereRule → Option (Option (List ConditionSqlNode))
  | WhereRule.empty => some none
  | WhereRule.WHERE list => condition_list_action list

/-- The rules of the non-terminal `on`: `%empty` and `ON condition_list`. -/
inductive OnRule where
  | empty
  | ON (list : ConditionList)
  deriving DecidableEq, Repr, Inhabited

/-- The actions of the rules of `on`: a null pointer, and the value of the
condition list. -/
def on_action : OnRule → Option (Option (List ConditionSqlNode))
  | OnRule.empty => some none
  | OnRule.ON list => condition_list_action list

/-- The derivations of `rel_list` down to the condition lists of the `ON`
clauses: `RelList` with the derivation of each `on` in place of its value. -/
inductive RelListRule where
  | empty
  | comma (id : String) (as_rule : AsRule) (rest : RelListRule)
  | inner_join (id : String) (as_rule : AsRule) (on_rule : OnRule) (rest : RelListRule)
  deriving Repr, Inhabited

/-- The derivation of `rel_list` with the value of every `on` computed by its
actions; `none` when one of these actions is undefined. -/
def RelListRule.values : RelListRule → Option RelList
  | RelListRule.empty => some RelList.empty
  | RelListRule.comma id as_rule rest =>
    match rest.values with
    | none => none
    | some r => some (RelList.comma id as_rule r)
  | RelListRule.inner_join id as_rule on_rule rest =>
    match on_action on_rule, rest.values with
    | some on_list, some r => some (RelList.inner_join id as_rule on_list r)
    | _, _ => none

/-- The action of
`select_stmt: SELECT expression_list FROM ID as rel_list where order group`,
for the members `relations`, `conditions`, `alias_map`, `is_alias_right` and
`order_by` of the new `selection`: the statements of
`select_stmt_from_action`, then the statement on `order` (`$8`). -/
def select_stmt_action (id : String) (as_name : Option String)
    (rel_list : Option InnerJoinSqlNode) (where_list : Option (List ConditionSqlNode))
    (order : Option (List OrderBySqlNode)) : SelectSqlNode :=
  let selection : SelectSqlNode := select_stmt_from_action id as_name rel_list where_list
  let selection : SelectSqlNode :=
    match order with
    | some o => { selection with order_by := (o ++ selection.order_by).reverse }
    | none => selection
  selection

/-- The action of `select_stmt: SELECT expression_list where`, for the same
members. -/
def select_stmt_no_from_action (where_list : Option (List ConditionSqlNode)) : SelectSqlNode :=
  let selection : SelectSqlNode := {}
  let selection : SelectSqlNode := { selection with is_alias_right := true }
  let selection : SelectSqlNode :=
    match where_list with
    | some w => { selection with conditions := (w ++ selection.conditions).reverse }
    | none => selection
  selection

/-- The `selection` of a statement
`SELECT ... FROM id as_rule rel_list where order`, from the derivations of its
parts: the actions of the condition lists, of `rel_list` and of
`select_stmt`. The value of `order` is a parameter; `none` when an action of a
condition list is undefined. -/
def parse_select (new_is_alias_right : Bool) (id : String) (as_rule : AsRule)
    (rel_list : RelListRule) (where_rule : WhereRule) (order : Option (List OrderBySqlNode)) :
    Option SelectSqlNode :=
  match rel_list.values, where_action where_rule with
  | some r, some w =>
    some (select_stmt_action id (as_action as_rule) (rel_list_action new_is_alias_right r) w
      order)
  | _, _ => none

/-- The `selection` of a statement `SELECT ... where` without `FROM`. -/
def parse_select_no_from (where_rule : WhereRule) : Option SelectSqlNode :=
  match where_action where_rule with
  | some w => some (select_stmt_no_from_action w)
  | none => none

/-- A derivation of `on` in which no condition list stops after `AND` or
`OR`. -/
def OnRule.closed : OnRule → Bool
  | OnRule.empty => true
  | OnRule.ON list => list.closed

/-- The conditions of an `ON` clause in the order written, flagged as
written. -/
def OnRule.entries : OnRule → List ConditionSqlNode
  | OnRule.empty => []
  | OnRule.ON list => list.entries

/-- A derivation of `rel_list` in which no `ON` list stops after `AND` or
`OR`. -/
def RelListRule.closed : RelListRule → Bool
  | RelListRule.empty => true
  | RelListRule.comma _ _ rest => rest.closed
  | RelListRule.inner_join _ _ on_rule rest => on_rule.closed && rest.closed

/-- The conditions of the `ON` clauses of a join list, the joins left to right
and the conditions of each in the order written, flagged as written. -/
def RelListRule.on_entries : RelListRule → List ConditionSqlNode
  | RelListRule.empty => []
  | RelListRule.comma _ _ rest => rest.on_entries
  | RelListRule.inner_join _ _ on_rule rest => on_rule.entries ++ rest.on_entries

/-- The join list of `SELECT * FROM t INNER JOIN u ON a = 1 OR b = 2`. -/
def sample_join_or : RelListRule :=
  RelListRule.inner_join "u" AsRule.empty (OnRule.ON sample_list_or) RelListRule.empty

/-- The join list of
`SELECT * FROM t INNER JOIN u ON a = 1 INNER JOIN v ON b = 2`. -/
def sample_join_two : RelListRule :=
  RelListRule.inner_join "u" AsRule.empty (OnRule.ON (ConditionList.single sample_parsed_a_1))
    (RelListRule.inner_join "v" AsRule.empty
      (OnRule.ON (ConditionList.single sample_parsed_b_2)) RelListRule.empty)

/-! ## `DELETE` and `UPDATE` statements of the grammar -/

/-- The member `deletion` of a parsed node (`parse_defs.h` is missing; the
fields are the ones the `delete_stmt` action assigns). -/
structure DeleteSqlNode where
  relation_name : String := ""
  conditions : List ConditionSqlNode := []
  deriving DecidableEq, Repr, Inhabited

/-- The action of `delete_stmt: DELETE FROM ID where`; `id` is `$3` and
`where_list` is `$4`. -/
def delete_stmt_action (id : String) (where_list : Option (List ConditionSqlNode)) :
    DeleteSqlNode :=
  let deletion : DeleteSqlNode := {}
  let deletion : DeleteSqlNode := { deletion with relation_name := id }
  match where_list with
  | some w => { deletion with conditions := w }
  | none => deletion

/-- One assignment of an `UPDATE` statement (`parse_defs.h` is missing; the
fields are the ones the `update_list` actions assign). Every rule assigns
`is_select` and `attribute_name`. -/
structure UpdateValue where
  is_select : Bool := false
  value : Value := {}
  attribute_name : String := ""
  selectSqlNode : SelectSqlNode := {}
  deriving DecidableEq, Repr, Inhabited

/-- The member `update` of a parsed node (`parse_defs.h` is missing; the
fields are the ones the `update_stmt` action assigns). -/
structure UpdateSqlNode where
  relation_name : String := ""
  updateValue_list : List UpdateValue := []
  conditions : List ConditionSqlNode := []
  deriving DecidableEq, Repr, Inhabited

/-- The derivations of the non-terminal `update_list`, by its rules `%empty`,
`ID EQ value`, `ID EQ value COMMA update_list`,
`ID EQ LBRACE select_stmt RBRACE` and
`ID EQ LBRACE select_stmt RBRACE COMMA update_list`; `selection` is the member
`selection` of the node of the `select_stmt`. -/
inductive UpdateList where
  | empty
  | value (id : String) (value : Value)
  | value_comma (id : String) (value : Value) (rest : UpdateList)
  | select (id : String) (selection : SelectSqlNode)
  | select_comma (id : String) (selection : SelectSqlNode) (rest : UpdateList)
  deriving Repr, Inhabited

/-- The actions of the rules of `update_list`, applied bottom-up along a
derivation; `none` is a null pointer. -/
def update_list_action : UpdateList → Option (List UpdateValue)
  | UpdateList.empty => none
  | UpdateList.value id v =>
    let list : List UpdateValue := []
    let value : UpdateValue := {}
    let value : UpdateValue := { value with is_select := false }
    let value : UpdateValue := { value with value := v }
    let value : UpdateValue := { value with attribute_name := id }
    some (list ++ [value])
  | UpdateList.value_comma id v rest =>
    let list : List UpdateValue :=
      match update_list_action rest with
      | none => []
      | some l => l
    let value : UpdateValue := {}
    let value : UpdateValue := { value with is_select := false }
    let value : UpdateValue := { value with value := v }
    let value : UpdateValue := { value with attribute_name := id }
    some (list ++ [value])
  | UpdateList.select id s =>
    let list : List UpdateValue := []
    let value : UpdateValue := {}
    let value : UpdateValue := { value with is_select := true }
    let value : UpdateValue := { value with selectSqlNode := s }
    let value : UpdateValue := { value with attribute_name := id }
    some (list ++ [value])
  | UpdateList.select_comma id s rest =>
    let list : List UpdateValue :=
      match update_list_action rest with
      | none => []
      | some l => l
    let value : UpdateValue := {}
    let value : UpdateValue := { value with is_select := true }
    let value : UpdateValue := { value with selectSqlNode := s }
    let value : UpdateValue := { value with attribute_name := id }
    some (list ++ [value])

/-- The action of `update_stmt: UPDATE ID SET update_list where`; `id` is `$2`,
`update_list` is `$4` and `where_list` is `$5`. The action swaps with
`*$4` without a test: for a null `$4` (no assignment written) it is undefined,
and the result is `none`. -/
def update_stmt_action (id : String) (update_list : Option (List UpdateValue))
    (where_list : Option (List ConditionSqlNode)) : Option UpdateSqlNode :=
  let update : UpdateSqlNode := {}
  let update : UpdateSqlNode := { update with relation_name := id }
  match update_list with
  | none => none
  | some l =>
    let update : UpdateSqlNode := { update with updateValue_list := l }
    match where_list with
    | some w => some { update with conditions := w }
    | none => some update

/-- The `deletion` of a statement `DELETE FROM id where`, from the derivation
of `where`; `none` when an action of the condition list is undefined. -/
def parse_delete (id : String) (where_rule : WhereRule) : Option DeleteSqlNode :=
  match where_action where_rule with
  | some w => some (delete_stmt_action id w)
  | none => none

/-- The `update` of a statement `UPDATE id SET update_list where`, from the
derivations of its parts; `none` when an action is undefined. -/
def parse_update (id : String) (update_list : UpdateList) (where_rule : WhereRule) :
    Option UpdateSqlNode :=
  match where_action where_rule with
  | some w => update_stmt_action id (update_list_action update_list) w
  | none => none

/-- A derivation of `where` in which the condition list does not stop after
`AND` or `OR`. -/
def WhereRule.closed : WhereRule → Bool
  | WhereRule.empty => true
  | WhereRule.WHERE list => list.closed

/-- The conditions of a `WHERE` clause in the order written, flagged as
written. -/
def WhereRule.entries : WhereRule → List ConditionSqlNode
  | WhereRule.empty => []
  | WhereRule.WHERE list => list.entries

/-! ## Value lists, `INSERT` and `CREATE TABLE` statements of the grammar -/

/-- The derivations of the non-terminal `value_list`, by its rules `%empty`
and `COMMA value value_list`. -/
inductive ValueList where
  | empty
  | comma (value : Value) (rest : ValueList)
  deriving DecidableEq, Repr, Inhabited

/-- The actions of the rules of `value_list`, applied bottom-up along a
derivation; `none` is a null pointer. -/
def value_list_action : ValueList → Option (List Value)
  | ValueList.empty => none
  | ValueList.comma value rest =>
    let list : List Value :=
      match value_list_action rest with
      | some l => l
      | none => []
    some (list ++ [value])

/-- The values of a derivation of `value_list` in the order written. -/
def ValueList.values : ValueList → List Value
  | ValueList.empty => []
  | ValueList.comma value rest => value :: rest.values

/-- The action of
`condition: expression comp_op LBRACE value COMMA value value_list RBRACE`;
`l` is `$1`, `comp` is `$2`, `value1` is `$4`, `value2` is `$6` and
`value_list` is `$7`. -/
def condition_value_list_action (l : ExpressionSqlNode) (comp : CompOp)
    (value1 value2 : Value) (value_list : Option (List Value)) : ConditionSqlNode :=
  let c : ConditionSqlNode := {}
  let c : ConditionSqlNode :=
    if l.is_expression = false then
      if l.is_value = true then
        { c with
          left_type := OperandType.VALUE_TYPE,
          left_value := (vec0 l.expression).get_value }
      else
        { c with left_type := OperandType.ATTR_TYPE, left_attr := vec0 l.relAttrSqlNodes }
    else
      { c with
        left_type := OperandType.EXPR_TYPE,
        left_expr := some (vec0 l.expression),
        left_relAttrSqlNodes := c.left_relAttrSqlNodes ++ l.relAttrSqlNodes,
        left_fieldExprs := c.left_fieldExprs ++ l.fieldExprs }
  let c : ConditionSqlNode := { c with right_type := OperandType.VALUE_LIST_TYPE }
  let c : ConditionSqlNode :=
    match value_list with
    | some list => { c with right_value_list := c.right_value_list ++ list }
    | none => c
  let c : ConditionSqlNode := { c with right_value_list := c.right_value_list ++ [value2] }
  let c : ConditionSqlNode := { c with right_value_list := c.right_value_list ++ [value1] }
  let c : ConditionSqlNode := { c with right_value_list := c.right_value_list.reverse }
  { c with comp := comp }

/-- The derivation of `insert_value: LBRACE value value_list RBRACE`, one
parenthesised row. -/
structure InsertValueRule where
  value : Value
  value_list : ValueList
  deriving DecidableEq, Repr, Inhabited

/-- The action of `insert_value: LBRACE value value_list RBRACE`; `value` is
`$2` and `value_list` is `$3`. The result is never a null pointer. -/
def insert_value_action (value : Value) (value_list : Option (List Value)) : List Value :=
  let list : List Value :=
    match value_list with
    | some l => l
    | none => []
  list ++ [value]

/-- The value of a derivation of `insert_value`. -/
def InsertValueRule.action (r : InsertValueRule) : List Value :=
  insert_value_action r.value (value_list_action r.value_list)

/-- The values of a row in the order written. -/
def InsertValueRule.row (r : InsertValueRule) : List Value := r.value :: r.value_list.values

/-- The derivations of the non-terminal `insert_values`, by its rules `%empty`
and `COMMA insert_value insert_values`. -/
inductive InsertValues where
  | empty
  | comma (insert_value : InsertValueRule) (rest : InsertValues)
  deriving DecidableEq, Repr, Inhabited

/-- The actions of the rules of `insert_values`, applied bottom-up along a
derivation; `none` is a null pointer. -/
def insert_values_action : InsertValues → Option (List Value)
  | InsertValues.empty => none
  | InsertValues.comma insert_value rest =>
    let list : List Value :=
      match insert_values_action rest with
      | some l => l
      | none => []
    some (list ++ insert_value.action)

/-- The rows of a derivation of `insert_values` in the order written. -/
def InsertValues.rows : InsertValues → List (List Value)
  | InsertValues.empty => []
  | InsertValues.comma insert_value rest => insert_value.row :: rest.rows

/-- The member `insertion` of a parsed node (`parse_defs.h` is missing; the
fields are the ones the `insert_stmt` action assigns). -/
structure InsertSqlNode where
  relation_name : String := ""
  values : List Value := []
  deriving DecidableEq, Repr, Inhabited

/-- The action of
`insert_stmt: INSERT INTO ID VALUES insert_value insert_values`; `id` is `$3`,
`insert_value` is `$5` and `insert_values` is `$6`. -/
def insert_stmt_action (id : String) (insert_value : List Value)
    (insert_values : Option (List Value)) : InsertSqlNode :=
  let insertion : InsertSqlNode := {}
  let insertion : InsertSqlNode := { insertion with relation_name := id }
  let insertion : InsertSqlNode :=
    match insert_values with
    | some l => { insertion with values := l }
    | none => insertion
  let insertion : InsertSqlNode := { insertion with values := insertion.values ++ insert_value }
  { insertion with values := insertion.values.reverse }

/-- The `insertion` of a statement `INSERT INTO id VALUES first rest`, from the
derivations of its rows. -/
def parse_insert (id : String) (first : InsertValueRule) (rest : InsertValues) : InsertSqlNode :=
  insert_stmt_action id first.action (insert_values_action rest)

/-- The rows `(2,'y')` written after the first row of
`INSERT INTO t VALUES (1,'x'), (2,'y')`. -/
def sample_insert_rest : InsertValues :=
  InsertValues.comma
    { value := Value.of_int 2,
      value_list := ValueList.comma (Value.of_string "y" AttrType.CHARS) ValueList.empty }
    InsertValues.empty

/-- The first row `(1,'x')` of `INSERT INTO t VALUES (1,'x'), (2,'y')`. -/
def sample_insert_first : InsertValueRule where
  value := Value.of_int 1
  value_list := ValueList.comma (Value.of_string "x" AttrType.CHARS) ValueList.empty

/-- The rules of the non-terminal `type`: `INT_T`, `STRING_T`, `FLOAT_T`,
`DATE_T` and `TEXT_T`. -/
inductive TypeRule where
  | INT_T
  | STRING_T
  | FLOAT_T
  | DATE_T
  | TEXT_T
  deriving DecidableEq, Repr, Inhabited

/-- The actions of the rules of `type`: the enumerator the rule stores in
`$$`, which the `attr_def` actions cast back to `AttrType`. -/
def type_action : TypeRule → AttrType
  | TypeRule.INT_T => AttrType.INTS
  | TypeRule.STRING_T => AttrType.CHARS
  | TypeRule.FLOAT_T => AttrType.FLOATS
  | TypeRule.DATE_T => AttrType.DATES
  | TypeRule.TEXT_T => AttrType.TEXTS

/-- The rules of the non-terminal `nullable`: `%empty`, `NULLABLE` and
`NOT NULLABLE`. -/
inductive NullableRule where
  | empty
  | NULLABLE
  | NOT_NULLABLE
  deriving DecidableEq, Repr, Inhabited

/-- The actions of the rules of `nullable`. -/
def nullable_action : NullableRule → Bool
  | NullableRule.empty => true
  | NullableRule.NULLABLE => true
  | NullableRule.NOT_NULLABLE => false

/-- One column definition of the parse tree (`parse_defs.h` is missing; the
fields are the ones the `attr_def` actions assign, and `length` holds the
`int` of the rule as assigned). -/
structure AttrInfoSqlNode where
  type : AttrType := AttrType.UNDEFINED
  name : String := ""
  length : Int := 0
  is_null : Bool := false
  deriving DecidableEq, Repr, Inhabited

/-- The derivations of the non-terminal `attr_def`, by its rules
`ID type LBRACE number RBRACE nullable` and `ID type nullable`. -/
inductive AttrDef where
  | sized (id : String) (type : TypeRule) (number : Int) (nullable : NullableRule)
  | plain (id : String) (type : TypeRule) (nullable : NullableRule)
  deriving DecidableEq, Repr, Inhabited

/-- The actions of the rules of `attr_def`. -/
def attr_def_action : AttrDef → AttrInfoSqlNode
  | AttrDef.sized id type number nullable =>
    let attr_info : AttrInfoSqlNode := {}
    let attr_info : AttrInfoSqlNode := { attr_info with type := type_action type }
    let attr_info : AttrInfoSqlNode := { attr_info with name := id }
    let attr_info : AttrInfoSqlNode := { attr_info with length := number }
    { attr_info with is_null := nullable_action nullable }
  | AttrDef.plain id type nullable =>
    if type_action type = AttrType.DATES then
      let attr_info : AttrInfoSqlNode := {}
      let attr_info : AttrInfoSqlNode := { attr_info with type := type_action type }
      let attr_info : AttrInfoSqlNode := { attr_info with name := id }
      let attr_info : AttrInfoSqlNode := { attr_info with length := 10 }
      { attr_info with is_null := nullable_action nullable }
    else if type_action type = AttrType.TEXTS then
      let attr_info : AttrInfoSqlNode := {}
      let attr_info : AttrInfoSqlNode := { attr_info with type := type_action type }
      let attr_info : AttrInfoSqlNode := { attr_info with name := id }
      let attr_info : AttrInfoSqlNode := { attr_info with length := 8 }
      { attr_info with is_null := nullable_action nullable }
    else
      let attr_info : AttrInfoSqlNode := {}
      let attr_info : AttrInfoSqlNode := { attr_info with type := type_action type }
      let attr_info : AttrInfoSqlNode := { attr_info with name := id }
      let attr_info : AttrInfoSqlNode := { attr_info with length := 4 }
      { attr_info with is_null := nullable_action nullable }

/-- The derivations of the non-terminal `attr_def_list`, by its rules `%empty`
and `COMMA attr_def attr_def_list`. -/
inductive AttrDefList where
  | empty
  | comma (attr_def : AttrDef) (rest : AttrDefList)
  deriving DecidableEq, Repr, Inhabited

/-- The actions of the rules of `attr_def_list`, applied bottom-up along a
derivation; `none` is a null pointer. -/
def attr_def_list_action : AttrDefList → Option (List AttrInfoSqlNode)
  | AttrDefList.empty => none
  | AttrDefList.comma attr_def rest =>
    let list : List AttrInfoSqlNode :=
      match attr_def_list_action rest with
      | some l => l
      | none => []
    some (list ++ [attr_def_action attr_def])

/-- The column definitions of a derivation of `attr_def_list` in the order
written. -/
def AttrDefList.defs : AttrDefList → List AttrDef
  | AttrDefList.empty => []
  | AttrDefList.comma attr_def rest => attr_def :: rest.defs

/-- The member `create_table` of a parsed node (`parse_defs.h` is missing; the
fields are the ones the action of the rule without `create_as` assigns). The
member `has_select` has no default here: what `new ParsedSqlNode` leaves in it
is a parameter of `create_table_stmt_action`. -/
structure CreateTableSqlNode where
  relation_name : String := ""
  attr_infos : List AttrInfoSqlNode := []
  has_select : Bool
  deriving DecidableEq, Repr, Inhabited

/-- The action of
`create_table_stmt: CREATE TABLE ID LBRACE attr_def attr_def_list RBRACE`;
`id` is `$3`, `attr_def` is `$5` and `attr_def_list` is `$6`.
`new_has_select` is the content of the member `has_select` of a node made by
`new ParsedSqlNode`. -/
def create_table_stmt_action (new_has_select : Bool) (id : String) (attr_def : AttrInfoSqlNode)
    (attr_def_list : Option (List AttrInfoSqlNode)) : CreateTableSqlNode :=
  let create_table : CreateTableSqlNode := { has_select := new_has_select }
  let create_table : CreateTableSqlNode := { create_table with relation_name := id }
  let create_table : CreateTableSqlNode :=
    match attr_def_list with
    | some src_attrs => { create_table with attr_infos := src_attrs }
    | none => create_table
  let create_table : CreateTableSqlNode :=
    { create_table with attr_infos := create_table.attr_infos ++ [attr_def] }
  let create_table : CreateTableSqlNode :=
    { create_table with attr_infos := create_table.attr_infos.reverse }
  { create_table with has_select := false }

/-- The `create_table` of a statement `CREATE TABLE id (first rest)`, from the
derivations of its column definitions. -/
def parse_create_table (new_has_select : Bool) (id : String) (first : AttrDef)
    (rest : AttrDefList) : CreateTableSqlNode :=
  create_table_stmt_action new_has_select id (attr_def_action first) (attr_def_list_action rest)

/-- The column name a definition was written with. -/
def AttrDef.id : AttrDef → String
  | AttrDef.sized id _ _ _ => id
  | AttrDef.plain id _ _ => id

/-- The type a definition was written with. -/
def AttrDef.type : AttrDef → TypeRule
  | AttrDef.sized _ type _ _ => type
  | AttrDef.plain _ type _ => type

/-- The nullability a definition was written with. -/
def AttrDef.nullable : AttrDef → NullableRule
  | AttrDef.sized _ _ _ nullable => nullable
  | AttrDef.plain _ _ nullable => nullable

/-! ## `ORDER BY` clauses of the grammar -/

/-- The derivations of the non-terminal `order_by_list`, by its rules
`%empty`, `COMMA rel_attr ASC order_by_list`, `COMMA rel_attr order_by_list`
and `COMMA rel_attr DESC order_by_list`; the keys are the semantic values of
`rel_attr`. -/
inductive OrderByList where
  | empty
  | asc (rel_attr : RelAttrSqlNode) (rest : OrderByList)
  | plain (rel_attr : RelAttrSqlNode) (rest : OrderByList)
  | desc (rel_attr : RelAttrSqlNode) (rest : OrderByList)
  deriving DecidableEq, Repr, Inhabited

/-- The actions of the rules of `order_by_list`, applied bottom-up along a
derivation; `none` is a null pointer. -/
def order_by_list_action : OrderByList → Option (List OrderBySqlNode)
  | OrderByList.empty => none
  | OrderByList.asc rel_attr rest =>
    let list : List OrderBySqlNode :=
      match order_by_list_action rest with
      | some l => l
      | none => []
    some (list ++ [OrderBySqlNode.mk rel_attr OrderBySequence.ASC_ORDER_BY])
  | OrderByList.plain rel_attr rest =>
    let list : List OrderBySqlNode :=
      match order_by_list_action rest with
      | some l => l
      | none => []
    some (list ++ [OrderBySqlNode.mk rel_attr OrderBySequence.ASC_ORDER_BY])
  | OrderByList.desc rel_attr rest =>
    let list : List OrderBySqlNode :=
      match order_by_list_action rest with
      | some l => l
      | none => []
    some (list ++ [OrderBySqlNode.mk rel_attr OrderBySequence.DESC_ORDER_BY])

/-- The derivations of the non-terminal `order`, by its rules `%empty`,
`ORDER BY rel_attr ASC order_by_list`, `ORDER BY rel_attr order_by_list` and
`ORDER BY rel_attr DESC order_by_list`. -/
inductive OrderRule where
  | empty
  | asc (rel_attr : RelAttrSqlNode) (rest : OrderByList)
  | plain (rel_attr : RelAttrSqlNode) (rest : OrderByList)
  | desc (rel_attr : RelAttrSqlNode) (rest : OrderByList)
  deriving DecidableEq, Repr, Inhabited

/-- The actions of the rules of `order`; `none` is a null pointer. -/
def order_action : OrderRule → Option (List OrderBySqlNode)
  | OrderRule.empty => none
  | OrderRule.asc rel_attr rest =>
    let list : List OrderBySqlNode :=
      match order_by_list_action rest with
      | some l => l
      | none => []
    let orderBySqlNode : OrderBySqlNode :=
      { attrs := rel_attr, orderBySequence := OrderBySequence.ASC_ORDER_BY }
    let list : List OrderBySqlNode := list ++ [orderBySqlNode]
    some list.reverse
  | OrderRule.plain rel_attr rest =>
    let list : List OrderBySqlNode :=
      match order_by_list_action rest with
      | some l => l
      | none => []
    let orderBySqlNode : OrderBySqlNode :=
      { attrs := rel_attr, orderBySequence := OrderBySequence.ASC_ORDER_BY }
    let list : List OrderBySqlNode := list ++ [orderBySqlNode]
    some list.reverse
  | OrderRule.desc rel_attr rest =>
    let list : List OrderBySqlNode :=
      match order_by_list_action rest with
      | some l => l
      | none => []
    let list : List OrderBySqlNode :=
      list ++ [OrderBySqlNode.mk rel_attr OrderBySequence.DESC_ORDER_BY]
    some list.reverse

/-- What is written after a sort key: `ASC`, nothing, or `DESC`. -/
inductive WrittenDirection where
  | ASC
  | unwritten
  | DESC
  deriving DecidableEq, Repr, Inhabited

/-- The keys of a derivation of `order_by_list` in the order written, each
with the direction written after it. -/
def OrderByList.written : OrderByList → List (RelAttrSqlNode × WrittenDirection)
  | OrderByList.empty => []
  | OrderByList.asc rel_attr rest => (rel_attr, WrittenDirection.ASC) :: rest.written
  | OrderByList.plain rel_attr rest => (rel_attr, WrittenDirection.unwritten) :: rest.written
  | OrderByList.desc rel_attr rest => (rel_attr, WrittenDirection.DESC) :: rest.written

/-- The keys of an `ORDER BY` clause in the order written, each with the
direction written after it. -/
def OrderRule.written : OrderRule → List (RelAttrSqlNode × WrittenDirection)
  | OrderRule.empty => []
  | OrderRule.asc rel_attr rest => (rel_attr, WrittenDirection.ASC) :: rest.written
  | OrderRule.plain rel_attr rest => (rel_attr, WrittenDirection.unwritten) :: rest.written
  | OrderRule.desc rel_attr rest => (rel_attr, WrittenDirection.DESC) :: rest.written

/-- The entry the specification gives a written key: the key with
`DESC_ORDER_BY` when `DESC` is written after it, and with `ASC_ORDER_BY` when
`ASC` or nothing is. -/
def order_by_entry (k : RelAttrSqlNode × WrittenDirection) : OrderBySqlNode :=
  { attrs := k.1,
    orderBySequence :=
      match k.2 with
      | WrittenDirection.DESC => OrderBySequence.DESC_ORDER_BY
      | WrittenDirection.ASC => OrderBySequence.ASC_ORDER_BY
      | WrittenDirection.unwritten => OrderBySequence.ASC_ORDER_BY }

/-- The clause `ORDER BY a DESC, b, c ASC`, the keys as the grammar builds the
references. -/
def sample_order : OrderRule :=
  OrderRule.desc { attribute_name := "a" }
    (OrderByList.plain { attribute_name := "b" }
      (OrderByList.asc { attribute_name := "c" } OrderByList.empty))

/-- The condition with its two sides exchanged: the attribute flag, the
attribute reference and the literal value of each side go to the other side,
and every other member, the operator among them, is kept. -/
def ConditionSqlNode.swap_sides (c : ConditionSqlNode) : ConditionSqlNode :=
  { c with
    left_is_attr := c.right_is_attr,
    left_attr := c.right_attr,
    left_value := c.right_value,
    right_is_attr := c.left_is_attr,
    right_attr := c.left_attr,
    right_value := c.left_value }

/-- What either block of `create_filter_unit` computes from the flag, the
reference and the literal of its side, before the setter of the block stores
it: the operand, or the code of the `return` inside the block. The two blocks
are compared with it. -/
def bind_operand (env : Env) (db : Db) (default_table : Option Table)
    (tables : Option (List (String × Table))) (is_attr : Bool) (attr : RelAttrSqlNode)
    (value : Value) (rc : RC) : Except RC (RC × FilterObj) :=
  if is_attr then
    if attr.func ≠ FuncOp.NO_FUNC ∧ attr.attribute_name.isEmpty then
      let r := function_calc env attr {}
      if r.1 ≠ RC.SUCCESS then Except.error r.1 else Except.ok (r.1, FilterObj.value r.2)
    else
      let r := get_table_and_field env db default_table tables attr none none
      if r.1 ≠ RC.SUCCESS then
        Except.error r.1
      else if attr.func ≠ FuncOp.NO_FUNC then
        match attr.func with
        | FuncOp.LENGTH_FUNC =>
          Except.ok (r.1, FilterObj.func (Field.mk r.2.1 r.2.2) attr.func
            (FuncParam.length attr.lengthparam))
        | FuncOp.ROUND_FUNC =>
          Except.ok (r.1, FilterObj.func (Field.mk r.2.1 r.2.2) attr.func
            (FuncParam.round attr.roundparam))
        | FuncOp.FORMAT_FUNC =>
          Except.ok (r.1, FilterObj.func (Field.mk r.2.1 r.2.2) attr.func
            (FuncParam.format attr.formatparam))
        | _ => Except.error RC.UNIMPLENMENT
      else
        Except.ok (r.1, FilterObj.attr (Field.mk r.2.1 r.2.2))
  else
    if value.attr_type = AttrType.DATES ∧ ¬ env.is_valid_date value.data then
      Except.error RC.INVALID_ARGUMENT
    else
      Except.ok (rc, FilterObj.value value)

/-- The condition `zz = 3` with the operator `NO_OP`, which no rule of the
grammar for comparisons assigns. -/
def sample_cond_no_op : ConditionSqlNode where
  left_is_attr := true
  left_attr := { attribute_name := "zz" }
  comp := NO_OP
  right_is_attr := false
  right_value := Value.of_int 3

/-- The condition `a = 3` with an operator code below `EQUAL_TO`. -/
def sample_cond_negative_op : ConditionSqlNode where
  left_is_attr := true
  left_attr := { attribute_name := "a" }
  comp := -1
  right_is_attr := false
  right_value := Value.of_int 3

/-- The rows `(1,2),(3,4)`: the first row and the rows after it. -/
def sample_rows_two : InsertValueRule × InsertValues :=
  ({ value := Value.of_int 1, value_list := ValueList.comma (Value.of_int 2) ValueList.empty },
   InsertValues.comma
     { value := Value.of_int 3,
       value_list := ValueList.comma (Value.of_int 4) ValueList.empty }
     InsertValues.empty)

/-- The single row `(1,2,3,4)`. -/
def sample_rows_one : InsertValueRule × InsertValues :=
  ({ value := Value.of_int 1,
     value_list := ValueList.comma (Value.of_int 2)
       (ValueList.comma (Value.of_int 3) (ValueList.comma (Value.of_int 4) ValueList.empty)) },
   InsertValues.empty)

/-- The assignment list `a = 5, b = 6`. -/
def sample_update_list : UpdateList :=
  UpdateList.value_comma "a" (Value.of_int 5) (UpdateList.value "b" (Value.of_int 6))

/-! ## `CREATE INDEX` statements of the grammar -/

/-- The derivations of the non-terminal `id_list`, by its rules `%empty` and
`COMMA ID id_list`. -/
inductive IdList where
  | empty
  | comma (id : String) (rest : IdList)
  deriving DecidableEq, Repr, Inhabited

/-- The actions of the rules of `id_list`, applied bottom-up along a
derivation; `none` is a null pointer. -/
def id_list_action : IdList → Option (List String)
  | IdList.empty => none
  | IdList.comma id rest =>
    let list : List String :=
      match id_list_action rest with
      | some l => l
      | none => []
    some (list ++ [id])

/-- The names of a derivation of `id_list` in the order written. -/
def IdList.ids : IdList → List String
  | IdList.empty => []
  | IdList.comma id rest => id :: rest.ids

/-- The member `create_index` of a parsed node (`parse_defs.h` is missing; the
fields are the ones the `create_index_stmt` actions assign). The member
`is_unique` has no default here: both actions assign it. -/
structure CreateIndexSqlNode where
  index_name : String := ""
  relation_name : String := ""
  is_unique : Bool
  attribute_name : List String := []
  deriving DecidableEq, Repr, Inhabited

/-- The action of
`create_index_stmt: CREATE INDEX ID ON ID LBRACE ID id_list RBRACE`;
`index` is `$3`, `relation` is `$5`, `id` is `$7` and `id_list` is `$8`.
`new_is_unique` is the content of the member `is_unique` of a node made by
`new ParsedSqlNode`. -/
def create_index_stmt_action (new_is_unique : Bool) (index relation id : String)
    (id_list : Option (List String)) : CreateIndexSqlNode :=
  let create_index : CreateIndexSqlNode := { is_unique := new_is_unique }
  let create_index : CreateIndexSqlNode := { create_index with index_name := index }
  let create_index : CreateIndexSqlNode := { create_index with relation_name := relation }
  let create_index : CreateIndexSqlNode := { create_index with is_unique := false }
  let create_index : CreateIndexSqlNode :=
    match id_list with
    | none => { create_index with attribute_name := create_index.attribute_name ++ [id] }
    | some l =>
      let l : List String := l ++ [id]
      { create_index with attribute_name := l }
  { create_index with attribute_name := create_index.attribute_name.reverse }

/-- The action of
`create_index_stmt: CREATE UNIQUE INDEX ID ON ID LBRACE ID id_list RBRACE`;
`index` is `$4`, `relation` is `$6`, `id` is `$8` and `id_list` is `$9`. -/
def create_unique_index_stmt_action (new_is_unique : Bool) (index relation id : String)
    (id_list : Option (List String)) : CreateIndexSqlNode :=
  let create_index : CreateIndexSqlNode := { is_unique := new_is_unique }
  let create_index : CreateIndexSqlNode := { create_index with index_name := index }
  let create_index : CreateIndexSqlNode := { create_index with relation_name := relation }
  let create_index : CreateIndexSqlNode := { create_index with is_unique := true }
  let create_index : CreateIndexSqlNode :=
    match id_list with
    | none => { create_index with attribute_name := create_index.attribute_name ++ [id] }
    | some l =>
      let l : List String := l ++ [id]
      { create_index with attribute_name := l }
  { create_index with attribute_name := create_index.attribute_name.reverse }

/-- The `create_index` of a statement
`CREATE [UNIQUE] INDEX index ON relation (id rest)`, from the derivation of
its column names; `unique` tells whether `UNIQUE` is written, that is, which
of the two rules the statement is reduced by. -/
def parse_create_index (new_is_unique : Bool) (unique : Bool) (index relation id : String)
    (rest : IdList) : CreateIndexSqlNode :=
  if unique then
    create_unique_index_stmt_action new_is_unique index relation id (id_list_action rest)
  else
    create_index_stmt_action new_is_unique index relation id (id_list_action rest)

/-! ## Expressions and select items of the grammar -/

/-- The function `create_arithmetic_expression` of `yacc_sql.cpp`; `name` is
the text `token_name` returns for the location passed. -/
def create_arithmetic_expression (type : ArithmeticType) (left : Expression)
    (right : Option Expression) (name : String) : Expression :=
  let expr : Expression :=
    match right with
    | some r => Expression.ArithmeticExpr type left r ""
    | none => Expression.ArithmeticExprUnary type left ""
  expr.set_name name

/-- The rules of the non-terminal `agg`: `MAX_agg`, `MIN_agg`, `AVG_agg`,
`COUNT_agg` and `SUM_agg`. -/
inductive AggRule where
  | MAX_agg
  | MIN_agg
  | AVG_agg
  | COUNT_agg
  | SUM_agg
  deriving DecidableEq, Repr, Inhabited

/-- The actions of the rules of `agg`. -/
def agg_action : AggRule → AggOp
  | AggRule.MAX_agg => AggOp.MAX_AGG
  | AggRule.MIN_agg => AggOp.MIN_AGG
  | AggRule.AVG_agg => AggOp.AVG_AGG
  | AggRule.COUNT_agg => AggOp.COUNT_AGG
  | AggRule.SUM_agg => AggOp.SUM_AGG

/-- The derivations of the non-terminal `arg_list`, by its rules `%empty`,
`'*'`, `'*' COMMA arg_list`, `ID` and `ID COMMA arg_list`. -/
inductive ArgList where
  | empty
  | star
  | star_comma (rest : ArgList)
  | ID (arg : String)
  | ID_comma (arg : String) (rest : ArgList)
  deriving DecidableEq, Repr, Inhabited

/-- The actions of the rules of `arg_list`, applied bottom-up along a
derivation; `none` is a null pointer. -/
def arg_list_action : ArgList → Option (List String)
  | ArgList.empty => none
  | ArgList.star =>
    let list : List String := []
    some (list ++ ["*"])
  | ArgList.star_comma rest =>
    let list : List String :=
      match arg_list_action rest with
      | some l => l
      | none => []
    some (list ++ ["*"])
  | ArgList.ID arg =>
    let list : List String := []
    some (list ++ [arg])
  | ArgList.ID_comma arg rest =>
    let list : List String :=
      match arg_list_action rest with
      | some l => l
      | none => []
    some (list ++ [arg])

/-- The arguments of a derivation of `arg_list` in the order written, `*`
standing for itself. -/
def ArgList.elements : ArgList → List String
  | ArgList.empty => []
  | ArgList.star => ["*"]
  | ArgList.star_comma rest => "*" :: rest.elements
  | ArgList.ID arg => [arg]
  | ArgList.ID_comma arg rest => arg :: rest.elements

/-- The actions of the four rules `expression: expression '+' expression`,
`'-'`, `'*'` and `'/'`, which differ in the `ArithmeticExpr::Type` they pass
(`type`) only; `l` is `$1`, `r` is `$3` and `name` is the text `token_name`
returns for the location of the rule. The actions read `expression[0]` of both
operands without a test: for an empty vector the access is undefined, and the
result is `none`. -/
def expression_arithmetic_action (type : ArithmeticType) (l r : ExpressionSqlNode)
    (name : String) : Option ExpressionSqlNode :=
  match l.expression.head?, r.expression.head? with
  | some l0, some r0 =>
    let e : ExpressionSqlNode := {}
    let e : ExpressionSqlNode :=
      { e with
        expression := e.expression ++ [create_arithmetic_expression type l0 (some r0) name] }
    let e : ExpressionSqlNode :=
      { e with relAttrSqlNodes := e.relAttrSqlNodes ++ l.relAttrSqlNodes }
    let e : ExpressionSqlNode :=
      { e with relAttrSqlNodes := e.relAttrSqlNodes ++ r.relAttrSqlNodes }
    let e : ExpressionSqlNode := { e with stringsqlExprs := e.stringsqlExprs ++ l.stringsqlExprs }
    let e : ExpressionSqlNode := { e with stringsqlExprs := e.stringsqlExprs ++ r.stringsqlExprs }
    let e : ExpressionSqlNode := { e with fieldExprs := e.fieldExprs ++ l.fieldExprs }
    let e : ExpressionSqlNode := { e with fieldExprs := e.fieldExprs ++ r.fieldExprs }
    some { e with is_expression := true }
  | _, _ => none

/-- The action of `expression: LBRACE expression RBRACE`; `inner` is `$2` and
`name` is the text `token_name` returns for the location of the rule. The
action calls `expression[0]->set_name` without a test: for an empty vector the
access is undefined, and the result is `none`. The vectors hold pointers: a
`FieldExpr` or `StringSqlExpr` at `expression[0]` is the object a leaf rule
also pushed as the one element of `fieldExprs` or `stringsqlExprs`, so the new
name shows there too. -/
def expression_paren_action (inner : ExpressionSqlNode) (name : String) :
    Option ExpressionSqlNode :=
  match inner.expression with
  | [] => none
  | e0 :: rest =>
    let e : ExpressionSqlNode := inner
    let fieldExprs : List Expression :=
      match e0 with
      | Expression.FieldExpr _ => e.fieldExprs.modifyHead (fun x => x.set_name name)
      | _ => e.fieldExprs
    let stringsqlExprs : List Expression :=
      match e0 with
      | Expression.StringSqlExpr _ => e.stringsqlExprs.modifyHead (fun x => x.set_name name)
      | _ => e.stringsqlExprs
    let e : ExpressionSqlNode :=
      { e with
        expression := e0.set_name name :: rest,
        fieldExprs := fieldExprs,
        stringsqlExprs := stringsqlExprs }
    some { e with is_expression := true }

/-- The action of `expression: '-' expression`; `operand` is `$2` and `name`
is the text `token_name` returns for the location of the rule. The action reads
`expression[0]` of the operand without a test: for an empty vector the access
is undefined, and the result is `none`. -/
def expression_negative_action (operand : ExpressionSqlNode) (name : String) :
    Option ExpressionSqlNode :=
  match operand.expression.head? with
  | some e0 =>
    let e : ExpressionSqlNode := {}
    let e : ExpressionSqlNode :=
      { e with
        expression :=
          e.expression ++ [create_arithmetic_expression ArithmeticType.NEGATIVE e0 none name] }
    let e : ExpressionSqlNode :=
      { e with relAttrSqlNodes := e.relAttrSqlNodes ++ operand.relAttrSqlNodes }
    let e : ExpressionSqlNode :=
      { e with stringsqlExprs := e.stringsqlExprs ++ operand.stringsqlExprs }
    let e : ExpressionSqlNode := { e with fieldExprs := e.fieldExprs ++ operand.fieldExprs }
    some { e with is_expression := true }
  | none => none

/-- The action of `expression: agg LBRACE arg_list RBRACE`; `agg` is `$1`,
`arg_list` is `$3` and `name` is the text `token_name` returns for the
location of the rule. -/
def expression_agg_action (agg : AggOp) (arg_list : Option (List String)) (name : String) :
    ExpressionSqlNode :=
  let e : ExpressionSqlNode := {}
  let relAttrSqlNode : RelAttrSqlNode := {}
  let relAttrSqlNode : RelAttrSqlNode :=
    match arg_list with
    | none => { relAttrSqlNode with is_right := false }
    | some list =>
      if list.length ≠ 1 then
        { relAttrSqlNode with is_right := false }
      else
        { relAttrSqlNode with
          attribute_name := vec0 list, is_right := true, agg := agg, func := FuncOp.NO_FUNC }
  let relAttrSqlNode : RelAttrSqlNode := { relAttrSqlNode with sqlString := name }
  let e : ExpressionSqlNode :=
    { e with relAttrSqlNodes := e.relAttrSqlNodes ++ [relAttrSqlNode] }
  let stringSqlExpr : Expression := Expression.set_name (Expression.StringSqlExpr "") name
  let e : ExpressionSqlNode := { e with expression := e.expression ++ [stringSqlExpr] }
  let e : ExpressionSqlNode := { e with stringsqlExprs := e.stringsqlExprs ++ [stringSqlExpr] }
  { e with is_expression := false, is_value := false }

/-- The action of `expression: ID DOT ID`; `relation` is `$1`, `attr_name` is
`$3` and `name` is the text `token_name` returns for the location of the
rule. -/
def expression_id_dot_id_action (relation attr_name : String) (name : String) :
    ExpressionSqlNode :=
  let e : ExpressionSqlNode := {}
  let relAttrSqlNode : RelAttrSqlNode := {}
  let relAttrSqlNode : RelAttrSqlNode :=
    { relAttrSqlNode with
      relation_name := relation, attribute_name := attr_name, agg := AggOp.NO_AGG,
      func := FuncOp.NO_FUNC, is_right := true }
  let relAttrSqlNode : RelAttrSqlNode := { relAttrSqlNode with sqlString := name }
  let e : ExpressionSqlNode :=
    { e with relAttrSqlNodes := e.relAttrSqlNodes ++ [relAttrSqlNode] }
  let fieldExpr : Expression := Expression.set_name (Expression.FieldExpr "") name
  let e : ExpressionSqlNode := { e with expression := e.expression ++ [fieldExpr] }
  let e : ExpressionSqlNode := { e with fieldExprs := e.fieldExprs ++ [fieldExpr] }
  { e with is_expression := false, is_value := false }

/-- The action of `expression: agg LBRACE ID DOT ID RBRACE`; `agg` is `$1`,
`relation` is `$3`, `attr_name` is `$5` and `name` is the text `token_name`
returns for the location of the rule. -/
def expression_agg_id_dot_id_action (agg : AggOp) (relation attr_name : String)
    (name : String) : ExpressionSqlNode :=
  let e : ExpressionSqlNode := {}
  let relAttrSqlNode : RelAttrSqlNode := {}
  let relAttrSqlNode : RelAttrSqlNode :=
    { relAttrSqlNode with
      relation_name := relation, attribute_name := attr_name, is_right := true, agg := agg,
      func := FuncOp.NO_FUNC }
  let relAttrSqlNode : RelAttrSqlNode := { relAttrSqlNode with sqlString := name }
  let e : ExpressionSqlNode :=
    { e with relAttrSqlNodes := e.relAttrSqlNodes ++ [relAttrSqlNode] }
  let stringSqlExpr : Expression := Expression.set_name (Expression.StringSqlExpr "") name
  let e : ExpressionSqlNode := { e with expression := e.expression ++ [stringSqlExpr] }
  let e : ExpressionSqlNode := { e with stringsqlExprs := e.stringsqlExprs ++ [stringSqlExpr] }
  { e with is_expression := false, is_value := false }

/-- The action of `expression: '*'`; `name` is the text `token_name` returns
for the location of the rule. The action does not assign `is_right`:
`new_is_right` is the content of that member in a node made by
`new RelAttrSqlNode`. -/
def expression_star_action (new_is_right : Bool) (name : String) : ExpressionSqlNode :=
  let e : ExpressionSqlNode := {}
  let relAttrSqlNode : RelAttrSqlNode := { is_right := new_is_right }
  let relAttrSqlNode : RelAttrSqlNode :=
    { relAttrSqlNode with
      relation_name := "", attribute_name := "*", agg := AggOp.NO_AGG, func := FuncOp.NO_FUNC }
  let relAttrSqlNode : RelAttrSqlNode := { relAttrSqlNode with sqlString := name }
  let e : ExpressionSqlNode :=
    { e with relAttrSqlNodes := e.relAttrSqlNodes ++ [relAttrSqlNode] }
  let fieldExpr : Expression := Expression.set_name (Expression.FieldExpr "") name
  let e : ExpressionSqlNode := { e with expression := e.expression ++ [fieldExpr] }
  let e : ExpressionSqlNode := { e with fieldExprs := e.fieldExprs ++ [fieldExpr] }
  { e with is_expression := false, is_value := false }

/-- The action of `expression: ID DOT '*'`; `relation` is `$1` and `name` is
the text `token_name` returns for the location of the rule. The action does
not assign `is_right`, as the action of `'*'`. -/
def expression_id_dot_star_action (new_is_right : Bool) (relation : String) (name : String) :
    ExpressionSqlNode :=
  let e : ExpressionSqlNode := {}
  let relAttrSqlNode : RelAttrSqlNode := { is_right := new_is_right }
  let relAttrSqlNode : RelAttrSqlNode :=
    { relAttrSqlNode with
      relation_name := relation, attribute_name := "*", agg := AggOp.NO_AGG,
      func := FuncOp.NO_FUNC }
  let relAttrSqlNode : RelAttrSqlNode := { relAttrSqlNode with sqlString := name }
  let e : ExpressionSqlNode :=
    { e with relAttrSqlNodes := e.relAttrSqlNodes ++ [relAttrSqlNode] }
  let fieldExpr : Expression := Expression.set_name (Expression.FieldExpr "") name
  let e : ExpressionSqlNode := { e with expression := e.expression ++ [fieldExpr] }
  let e : ExpressionSqlNode := { e with fieldExprs := e.fieldExprs ++ [fieldExpr] }
  { e with is_expression := false, is_value := false }

/-- The action of
`expression: LENGTH_func LBRACE length_func_param RBRACE`; `param` is `$3` and
`name` is the text `token_name` returns for the location of the rule. The
action pushes nothing into `expression`. -/
def expression_length_action (param : LengthParam) (name : String) : ExpressionSqlNode :=
  let e : ExpressionSqlNode := {}
  let relAttrSqlNode : RelAttrSqlNode := {}
  let relAttrSqlNode : RelAttrSqlNode :=
    { relAttrSqlNode with
      relation_name := param.relation_name, attribute_name := param.attribute_name,
      is_right := true, agg := AggOp.NO_AGG, func := FuncOp.LENGTH_FUNC, lengthparam := param }
  let relAttrSqlNode : RelAttrSqlNode := { relAttrSqlNode with sqlString := name }
  let e : ExpressionSqlNode :=
    { e with relAttrSqlNodes := e.relAttrSqlNodes ++ [relAttrSqlNode] }
  { e with is_expression := false, is_value := false }

/-- The action of `expression: ROUND_func LBRACE round_func_param RBRACE`;
`param` is `$3` and `name` is the text `token_name` returns for the location
of the rule. The action pushes nothing into `expression`. -/
def expression_round_action (param : RoundParam) (name : String) : ExpressionSqlNode :=
  let e : ExpressionSqlNode := {}
  let relAttrSqlNode : RelAttrSqlNode := {}
  let relAttrSqlNode : RelAttrSqlNode :=
    { relAttrSqlNode with
      relation_name := param.relation_name, attribute_name := param.attribute_name,
      is_right := true, agg := AggOp.NO_AGG, func := FuncOp.ROUND_FUNC, roundparam := param }
  let relAttrSqlNode : RelAttrSqlNode := { relAttrSqlNode with sqlString := name }
  let e : ExpressionSqlNode :=
    { e with relAttrSqlNodes := e.relAttrSqlNodes ++ [relAttrSqlNode] }
  { e with is_expression := false, is_value := false }

/-- The action of
`expression: FORMAT_func LBRACE format_func_param RBRACE`; `param` is `$3` and
`name` is the text `token_name` returns for the location of the rule. The
action pushes nothing into `expression`. -/
def expression_format_action (param : FormatParam) (name : String) : ExpressionSqlNode :=
  let e : ExpressionSqlNode := {}
  let relAttrSqlNode : RelAttrSqlNode := {}
  let relAttrSqlNode : RelAttrSqlNode :=
    { relAttrSqlNode with
      relation_name := param.relation_name, attribute_name := param.attribute_name,
      is_right := true, agg := AggOp.NO_AGG, func := FuncOp.FORMAT_FUNC, formatparam := param }
  let relAttrSqlNode : RelAttrSqlNode := { relAttrSqlNode with sqlString := name }
  let e : ExpressionSqlNode :=
    { e with relAttrSqlNodes := e.relAttrSqlNodes ++ [relAttrSqlNode] }
  { e with is_expression := false, is_value := false }

/-- The derivations of the non-terminal `expression`, by its rules; `name` is
the text `token_name` returns for the location of the rule, and the values of
`value` and of the function parameters are the semantic values of these
non-terminals. -/
inductive ExpressionRule where
  | add (l r : ExpressionRule) (name : String)
  | sub (l r : ExpressionRule) (name : String)
  | mul (l r : ExpressionRule) (name : String)
  | div (l r : ExpressionRule) (name : String)
  | paren (inner : ExpressionRule) (name : String)
  | negative (operand : ExpressionRule) (name : String)
  | value (value : Value) (name : String)
  | ID (id : String) (name : String)
  | agg (agg : AggRule) (arg_list : ArgList) (name : String)
  | ID_DOT_ID (relation attr_name : String) (name : String)
  | agg_ID_DOT_ID (agg : AggRule) (relation attr_name : String) (name : String)
  | star (name : String)
  | ID_DOT_star (relation : String) (name : String)
  | LENGTH_func (param : LengthParam) (name : String)
  | ROUND_func (param : RoundParam) (name : String)
  | FORMAT_func (param : FormatParam) (name : String)
  deriving DecidableEq, Repr, Inhabited

/-- The actions of the rules of `expression`, applied bottom-up along a
derivation; `none` when an action on the way reads element 0 of an empty
vector. -/
def expression_action (new_is_right : Bool) : ExpressionRule → Option ExpressionSqlNode
  | ExpressionRule.add l r name =>
    match expression_action new_is_right l, expression_action new_is_right r with
    | some a, some b => expression_arithmetic_action ArithmeticType.ADD a b name
    | _, _ => none
  | ExpressionRule.sub l r name =>
    match expression_action new_is_right l, expression_action new_is_right r with
    | some a, some b => expression_arithmetic_action ArithmeticType.SUB a b name
    | _, _ => none
  | ExpressionRule.mul l r name =>
    match expression_action new_is_right l, expression_action new_is_right r with
    | some a, some b => expression_arithmetic_action ArithmeticType.MUL a b name
    | _, _ => none
  | ExpressionRule.div l r name =>
    match expression_action new_is_right l, expression_action new_is_right r with
    | some a, some b => expression_arithmetic_action ArithmeticType.DIV a b name
    | _, _ => none
  | ExpressionRule.paren inner name =>
    match expression_action new_is_right inner with
    | some a => expression_paren_action a name
    | none => none
  | ExpressionRule.negative operand name =>
    match expression_action new_is_right operand with
    | some a => expression_negative_action a name
    | none => none
  | ExpressionRule.value value name => some (expression_value_action value name)
  | ExpressionRule.ID id name => some (expression_id_action id name)
  | ExpressionRule.agg agg arg_list name =>
    some (expression_agg_action (agg_action agg) (arg_list_action arg_list) name)
  | ExpressionRule.ID_DOT_ID relation attr_name name =>
    some (expression_id_dot_id_action relation attr_name name)
  | ExpressionRule.agg_ID_DOT_ID agg relation attr_name name =>
    some (expression_agg_id_dot_id_action (agg_action agg) relation attr_name name)
  | ExpressionRule.star name => some (expression_star_action new_is_right name)
  | ExpressionRule.ID_DOT_star relation name =>
    some (expression_id_dot_star_action new_is_right relation name)
  | ExpressionRule.LENGTH_func param name => some (expression_length_action param name)
  | ExpressionRule.ROUND_func param name => some (expression_round_action param name)
  | ExpressionRule.FORMAT_func param name => some (expression_format_action param name)

/-- A derivation of `expression` without a call of `LENGTH`, `ROUND` or
`DATE_FORMAT` in it. -/
def ExpressionRule.function_free : ExpressionRule → Bool
  | ExpressionRule.add l r _ => l.function_free && r.function_free
  | ExpressionRule.sub l r _ => l.function_free && r.function_free
  | ExpressionRule.mul l r _ => l.function_free && r.function_free
  | ExpressionRule.div l r _ => l.function_free && r.function_free
  | ExpressionRule.paren inner _ => inner.function_free
  | ExpressionRule.negative operand _ => operand.function_free
  | ExpressionRule.LENGTH_func _ _ => false
  | ExpressionRule.ROUND_func _ _ => false
  | ExpressionRule.FORMAT_func _ _ => false
  | _ => true

/-- The statement on `$1` and `as` that opens both `expression_list` actions,
the same text in both; `e` is `$1` and `as_name` is `$2`. With an alias on a
compound expression the statement reads `expression[0]` without a test: for an
empty vector the access is undefined, and the result is `none`. The call
`fieldExprs[0]->set_alias_name` changes the alias of an expression object,
which the model of the expression objects does not hold. -/
def expression_list_as_block (e : ExpressionSqlNode) (as_name : Option String) :
    Option ExpressionSqlNode :=
  match as_name with
  | some a =>
    if e.is_expression = false then
      let e : ExpressionSqlNode :=
        if e.relAttrSqlNodes.length = 1 then
          let e : ExpressionSqlNode :=
            if (vec0 e.relAttrSqlNodes).attribute_name = "*"
                ∧ (vec0 e.relAttrSqlNodes).agg = AggOp.NO_AGG then
              { e with
                relAttrSqlNodes :=
                  e.relAttrSqlNodes.modifyHead (fun n => { n with is_right := false }) }
            else e
          { e with
            relAttrSqlNodes :=
              e.relAttrSqlNodes.modifyHead (fun n => { n with alias_name := a }) }
        else e
      some e
    else
      match e.expression.head? with
      | some e0 => some { e with expr_alias_map := map_assign e.expr_alias_map e0.name a }
      | none => none
  | none =>
    if e.relAttrSqlNodes.length ≠ 0 ∧ (vec0 e.relAttrSqlNodes).attribute_name = "*" then
      some
        { e with
          relAttrSqlNodes :=
            e.relAttrSqlNodes.modifyHead (fun n => { n with is_right := true }) }
    else some e

/-- The action of `expression_list: expression as`; `e` is `$1` and `as_name`
is `$2`. -/
def expression_list_single_action (e : ExpressionSqlNode) (as_name : Option String) :
    Option ExpressionSqlNode :=
  expression_list_as_block e as_name

/-- The action of `expression_list: expression as COMMA expression_list`; `e`
is `$1`, `as_name` is `$2` and `rest` is `$4`. -/
def expression_list_comma_action (e : ExpressionSqlNode) (as_name : Option String)
    (rest : Option ExpressionSqlNode) : Option ExpressionSqlNode :=
  let list : ExpressionSqlNode :=
    match rest with
    | some l => l
    | none => {}
  match expression_list_as_block e as_name with
  | none => none
  | some e =>
    let list : ExpressionSqlNode :=
      { list with relAttrSqlNodes := list.relAttrSqlNodes ++ e.relAttrSqlNodes }
    let list : ExpressionSqlNode :=
      { list with stringsqlExprs := list.stringsqlExprs ++ e.stringsqlExprs }
    let list : ExpressionSqlNode := { list with fieldExprs := list.fieldExprs ++ e.fieldExprs }
    let list : ExpressionSqlNode := { list with expression := list.expression ++ e.expression }
    let list : ExpressionSqlNode :=
      if e.is_expression then { list with is_expression := true } else list
    some { list with expr_alias_map := map_insert_range list.expr_alias_map e.expr_alias_map }

/-- The derivations of the non-terminal `expression_list`, by its rules
`expression as` and `expression as COMMA expression_list`. -/
inductive ExpressionList where
  | single (e : ExpressionRule) (as_rule : AsRule)
  | comma (e : ExpressionRule) (as_rule : AsRule) (rest : ExpressionList)
  deriving DecidableEq, Repr, Inhabited

/-- The actions of the rules of `expression_list`, applied bottom-up along a
derivation; `none` when an action on the way reads element 0 of an empty
vector. -/
def expression_list_action (new_is_right : Bool) : ExpressionList → Option ExpressionSqlNode
  | ExpressionList.single e as_rule =>
    match expression_action new_is_right e with
    | some a => expression_list_single_action a (as_action as_rule)
    | none => none
  | ExpressionList.comma e as_rule rest =>
    match expression_action new_is_right e, expression_list_action new_is_right rest with
    | some a, some l => expression_list_comma_action a (as_action as_rule) (some l)
    | _, _ => none

/-- The action of `rel_attr: agg LBRACE arg_list RBRACE as`; `agg` is `$1`,
`arg_list` is `$3` and `as_name` is `$5`. -/
def rel_attr_agg_action (agg : AggOp) (arg_list : Option (List String))
    (as_name : Option String) : RelAttrSqlNode :=
  let rel_attr : RelAttrSqlNode := {}
  let rel_attr : RelAttrSqlNode :=
    match arg_list with
    | none => { rel_attr with is_right := false }
    | some list =>
      if list.length ≠ 1 then
        { rel_attr with is_right := false }
      else
        { rel_attr with attribute_name := vec0 list, is_right := true, agg := agg }
  match as_name with
  | some a => { rel_attr with alias_name := a }
  | none => rel_attr

/-- The expression `LENGTH(name) + 1`. -/
def sample_expr_length_plus : ExpressionRule :=
  ExpressionRule.add
    (ExpressionRule.LENGTH_func { attribute_name := "name" } "LENGTH(name)")
    (ExpressionRule.value (Value.of_int 1) "1") "LENGTH(name) + 1"

/-- The expression `(ROUND(a))`. -/
def sample_expr_paren_round : ExpressionRule :=
  ExpressionRule.paren (ExpressionRule.ROUND_func { attribute_name := "a" } "ROUND(a)")
    "(ROUND(a))"

/-- The expression `-(a + 1) * COUNT(b)`. -/
def sample_expr_compound : ExpressionRule :=
  ExpressionRule.mul
    (ExpressionRule.negative
      (ExpressionRule.paren
        (ExpressionRule.add (ExpressionRule.ID "a" "a")
          (ExpressionRule.value (Value.of_int 1) "1") "a + 1")
        "(a + 1)")
      "-(a + 1)")
    (ExpressionRule.agg AggRule.COUNT_agg (ArgList.ID "b") "COUNT(b)")
    "-(a + 1) * COUNT(b)"

/-- The select list `* x, COUNT(*) AS c`: a star with an alias, then an
aggregate over `*` with an alias. -/
def sample_select_list : ExpressionList :=
  ExpressionList.comma (ExpressionRule.star "*") (AsRule.ID "x")
    (ExpressionList.single (ExpressionRule.agg AggRule.COUNT_agg ArgList.star "COUNT(*)")
      (AsRule.AS_ID "c"))

/-- The attribute reference of a select item `*` (`relation` empty) or
`relation.*` after the opening statement of the `expression_list` actions:
marked not right and carrying the alias when one is written, marked right when
none is. -/
def star_item_node (relation name : String) (as_name : Option String) : RelAttrSqlNode :=
  match as_name with
  | some a =>
    { relation_name := relation, attribute_name := "*", agg := AggOp.NO_AGG,
      func := FuncOp.NO_FUNC, sqlString := name, is_right := false, alias_name := a }
  | none =>
    { relation_name := relation, attribute_name := "*", agg := AggOp.NO_AGG,
      func := FuncOp.NO_FUNC, sqlString := name, is_right := true }

/-! ## Binary floating-point arithmetic -/

/-- Rounding of a rational to the nearest integer, a tie going to the even
one: the rounding of a significand in the default rounding mode of IEEE 754
(round to nearest, ties to even). -/
def round_half_even (q : ℚ) : Int :=
  let f := Int.floor q
  if q - f < 1 / 2 then f
  else if 1 / 2 < q - f then f + 1
  else if f % 2 = 0 then f else f + 1

/-- A binary floating-point format of IEEE 754: the number of bits of the
significand and the exponents of the least and the greatest normal numbers. -/
structure FloatFormat where
  precision : Nat
  emin : Int
  emax : Int
  deriving DecidableEq, Repr, Inhabited

/-- The number of a format that stands for an exact result `q` in the default
rounding mode. With `e` the exponent of `q` (that of the least normal number
for a smaller `q`), the numbers of the format around `q` are the multiples of
`2 ^ (e - (precision - 1))` and `q` goes to the nearest of them, a tie to the
one with an even significand; a result past the greatest finite number goes to
the infinity of its sign. -/
def FloatFormat.round (f : FloatFormat) (q : ℚ) : CFloat :=
  let e : Int := max (Int.log 2 |q|) f.emin
  let ulp : ℚ := (2 : ℚ) ^ (e - ((f.precision : Int) - 1))
  let r : ℚ := (round_half_even (q / ulp) : ℚ) * ulp
  if |r| < (2 : ℚ) ^ (f.emax + 1) then CFloat.finite r else CFloat.inf (decide (q < 0))

/-- The product of two floating values in a format. The values of `CFloat`
carry no sign of zero. -/
def FloatFormat.mul (f : FloatFormat) : CFloat → CFloat → CFloat
  | CFloat.finite a, CFloat.finite b => f.round (a * b)
  | CFloat.inf s, CFloat.finite b =>
    if b = 0 then CFloat.nan else CFloat.inf (xor s (decide (b < 0)))
  | CFloat.finite a, CFloat.inf s =>
    if a = 0 then CFloat.nan else CFloat.inf (xor (decide (a < 0)) s)
  | CFloat.inf s, CFloat.inf t => CFloat.inf (xor s t)
  | _, _ => CFloat.nan

/-- The quotient of two floating values in a format. The values of `CFloat`
carry no sign of zero: a quotient by zero takes the sign of the dividend. -/
def FloatFormat.div (f : FloatFormat) : CFloat → CFloat → CFloat
  | CFloat.finite a, CFloat.finite b =>
    if b = 0 then (if a = 0 then CFloat.nan else CFloat.inf (decide (a < 0)))
    else f.round (a / b)
  | CFloat.finite _, CFloat.inf _ => CFloat.finite 0
  | CFloat.inf s, CFloat.finite b => CFloat.inf (xor s (decide (b < 0)))
  | _, _ => CFloat.nan

/-- The spec's words for one-argument `ROUND`: `r` is `q` rounded to the
nearest integer, a tie going away from zero. -/
def nearest_ties_away (q : ℚ) (r : Int) : Prop :=
  |(r : ℚ) - q| ≤ 1 / 2 ∧ (|(r : ℚ) - q| = 1 / 2 → |q| < |(r : ℚ)|)

instance (q : ℚ) (r : Int) : Decidable (nearest_ties_away q r) := by
  unfold nearest_ties_away
  exact inferInstance

/-! ## Theorems -/

/-- The integer `round` returns is a nearest integer, and at a tie the one away
from zero. -/
theorem round_half_away_nearest (q : ℚ) : nearest_ties_away q (round_half_away q) := by
  unfold nearest_ties_away round_half_away
  split
  · rename_i h
    have h1 := Int.floor_le (q + 1 / 2)
    have h2 := Int.lt_floor_add_one (q + 1 / 2)
    refine ⟨abs_le.mpr ⟨by linarith, by linarith⟩, fun he => ?_⟩
    have hr : (0 : ℚ) ≤ (Int.floor (q + 1 / 2) : ℚ) := by
      have : (0 : Int) ≤ Int.floor (q + 1 / 2) := Int.floor_nonneg.mpr (by linarith)
      exact_mod_cast this
    rw [abs_of_nonneg h, abs_of_nonneg hr]
    rcases abs_eq (by norm_num : (0 : ℚ) ≤ 1 / 2) |>.mp he with h3 | h3
    · linarith
    · linarith
  · rename_i h
    push_neg at h
    have h1 := Int.floor_le (-q + 1 / 2)
    have h2 := Int.lt_floor_add_one (-q + 1 / 2)
    push_cast
    refine ⟨abs_le.mpr ⟨by linarith, by linarith⟩, fun he => ?_⟩
    have hr : (0 : ℚ) ≤ (Int.floor (-q + 1 / 2) : ℚ) := by
      have : (0 : Int) ≤ Int.floor (-q + 1 / 2) := Int.floor_nonneg.mpr (by linarith)
      exact_mod_cast this
    rw [abs_of_neg h, abs_neg, abs_of_nonneg hr]
    rcases abs_eq (by norm_num : (0 : ℚ) ≤ 1 / 2) |>.mp he with h3 | h3
    · linarith
    · linarith

/-- Rounding to the nearest integer with ties away from zero determines the
integer: it is the one `round` returns. -/
theorem round_half_away_unique (q : ℚ) (r : Int) (h : nearest_ties_away q r) :
    round_half_away q = r := by
  obtain ⟨hle, htie⟩ := h
  have hb := abs_le.mp hle
  unfold round_half_away
  split
  · rename_i hq
    rw [Int.floor_eq_iff]
    refine ⟨by linarith, ?_⟩
    rcases lt_or_eq_of_le hb.1 with h1 | h1
    · linarith
    · exfalso
      have he : |(r : ℚ) - q| = 1 / 2 := by
        rw [← h1]; norm_num
      have hlt := htie he
      rw [abs_of_nonneg hq] at hlt
      rcases le_or_lt 0 r with hr | hr
      · have : (0 : ℚ) ≤ r := by exact_mod_cast hr
        rw [abs_of_nonneg this] at hlt
        linarith
      · have : (r : ℚ) ≤ -1 := by exact_mod_cast (show r ≤ -1 by omega)
        linarith
  · rename_i hq
    push_neg at hq
    rw [neg_eq_iff_eq_neg, Int.floor_eq_iff]
    push_cast
    refine ⟨by linarith, ?_⟩
    rcases lt_or_eq_of_le hb.2 with h1 | h1
    · linarith
    · exfalso
      have he : |(r : ℚ) - q| = 1 / 2 := by
        rw [h1]; norm_num
      have hlt := htie he
      rw [abs_of_neg hq] at hlt
      rcases le_or_lt r 0 with hr | hr
      · have : (r : ℚ) ≤ 0 := by exact_mod_cast hr
        rw [abs_of_nonpos this] at hlt
        linarith
      · have : (1 : ℚ) ≤ r := by exact_mod_cast (show 1 ≤ r by omega)
        linarith

/-- Converting an integer-valued floating value in the range of `int` gives
that integer. -/
theorem float_to_int_of_int (env : Env) (r : Int)
    (h : -(2 : Int) ^ 31 ≤ r ∧ r < (2 : Int) ^ 31) :
    float_to_int env (CFloat.finite (r : ℚ)) = r := by
  simp only [float_to_int, Int.floor_intCast, Int.ceil_intCast, ite_self]
  rw [if_pos h]

/-- C1: for `LENGTH`, `function_calc` returns `SUCCESS` exactly when the
argument is tagged `CHARS`; it then leaves an `INTS` value holding the number
of bytes of the string (a bounded string, fewer than `2^31` bytes). -/
theorem function_calc_length (env : Env) (attr : RelAttrSqlNode) (value : Value)
    (hfunc : attr.func = FuncOp.LENGTH_FUNC) :
    ((function_calc env attr value).1 = RC.SUCCESS ↔
        attr.lengthparam.raw_data.attr_type = AttrType.CHARS) ∧
      (attr.lengthparam.raw_data.attr_type = AttrType.CHARS →
        attr.lengthparam.raw_data.get_string.utf8ByteSize < 2 ^ 31 →
        (function_calc env attr value).2.attr_type = AttrType.INTS ∧
        (function_calc env attr value).2.get_int
          = attr.lengthparam.raw_data.get_string.utf8ByteSize) := by
  by_cases ht : attr.lengthparam.raw_data.attr_type = AttrType.CHARS
  · refine ⟨by simp [function_calc, hfunc, ht], fun _ hlen => ?_⟩
    have hwrap : to_int32 (attr.lengthparam.raw_data.get_string.utf8ByteSize : Int)
        = attr.lengthparam.raw_data.get_string.utf8ByteSize := by
      unfold to_int32
      omega
    have ht2 : attr.lengthparam.raw_data.attr_type_ = AttrType.CHARS := ht
    simp [function_calc, hfunc, ht2, Value.set_int, Value.attr_type, Value.get_int, hwrap]
  · refine ⟨by simp [function_calc, hfunc, ht], fun h => absurd h ht⟩

/-- Worked instance of C1: `LENGTH('abc')` is the `INTS` value 3 and
`LENGTH('')` is 0. -/
theorem function_calc_length_witness :
    sample_length_abc.func = FuncOp.LENGTH_FUNC ∧
      sample_length_abc.lengthparam.raw_data.attr_type = AttrType.CHARS ∧
      sample_length_abc.lengthparam.raw_data.get_string.utf8ByteSize < 2 ^ 31 ∧
      (function_calc sample_env sample_length_abc {}).1 = RC.SUCCESS ∧
      (function_calc sample_env sample_length_abc {}).2.attr_type = AttrType.INTS ∧
      (function_calc sample_env sample_length_abc {}).2.get_int = 3 ∧
      (function_calc sample_env sample_length_empty {}).2.get_int = 0 :=
  have h := function_calc_length sample_env sample_length_abc {} rfl
  have h0 := function_calc_length sample_env sample_length_empty {} rfl
  ⟨rfl, rfl, by decide, h.1.2 rfl, (h.2 rfl (by decide)).1,
    (h.2 rfl (by decide)).2.trans (by decide), (h0.2 rfl (by decide)).2.trans (by decide)⟩

/-- C2: `function_calc` rejects a bad argument with `VARIABLE_NOT_VALID` and
leaves the output value as it was: `LENGTH` of a value not tagged `CHARS`,
`ROUND` of a value not tagged `FLOATS` or with a second argument (of length
other than 0) not tagged `INTS`, `DATE_FORMAT` of a value not tagged `DATES` or
with a format not tagged `CHARS`. -/
theorem function_calc_rejects_bad_argument (env : Env) (attr : RelAttrSqlNode) (value : Value)
    (hbad :
      (attr.func = FuncOp.LENGTH_FUNC ∧
          attr.lengthparam.raw_data.attr_type ≠ AttrType.CHARS) ∨
      (attr.func = FuncOp.ROUND_FUNC ∧
          (attr.roundparam.raw_data.attr_type ≠ AttrType.FLOATS ∨
            (attr.roundparam.bits.length ≠ 0 ∧
              attr.roundparam.bits.attr_type ≠ AttrType.INTS))) ∨
      (attr.func = FuncOp.FORMAT_FUNC ∧
          (attr.formatparam.raw_data.attr_type ≠ AttrType.DATES ∨
            attr.formatparam.format.attr_type ≠ AttrType.CHARS))) :
    function_calc env attr value = (RC.VARIABLE_NOT_VALID, value) := by
  rcases hbad with ⟨hf, ht⟩ | ⟨hf, ht⟩ | ⟨hf, ht⟩
  · simp [function_calc, hf, ht]
  · rcases ht with ht | ⟨hl, ht⟩
    · simp [function_calc, hf, ht]
    · by_cases h1 : attr.roundparam.raw_data.attr_type = AttrType.FLOATS
      · simp [function_calc, hf, h1, hl, ht]
      · simp [function_calc, hf, h1]
  · simp only [function_calc, hf]
    rw [if_pos ht]

/-- Worked instance of C2: `LENGTH` of the integer 7 is rejected and the output
value keeps its content. -/
theorem function_calc_rejects_bad_argument_witness :
    ((sample_length_int.func = FuncOp.LENGTH_FUNC ∧
          sample_length_int.lengthparam.raw_data.attr_type ≠ AttrType.CHARS) ∨
      (sample_length_int.func = FuncOp.ROUND_FUNC ∧
          (sample_length_int.roundparam.raw_data.attr_type ≠ AttrType.FLOATS ∨
            (sample_length_int.roundparam.bits.length ≠ 0 ∧
              sample_length_int.roundparam.bits.attr_type ≠ AttrType.INTS))) ∨
      (sample_length_int.func = FuncOp.FORMAT_FUNC ∧
          (sample_length_int.formatparam.raw_data.attr_type ≠ AttrType.DATES ∨
            sample_length_int.formatparam.format.attr_type ≠ AttrType.CHARS))) ∧
      function_calc sample_env sample_length_int (Value.of_int 5)
        = (RC.VARIABLE_NOT_VALID, Value.of_int 5) :=
  ⟨Or.inl ⟨rfl, by decide⟩,
    function_calc_rejects_bad_argument sample_env sample_length_int (Value.of_int 5)
      (Or.inl ⟨rfl, by decide⟩)⟩

/-- C3: one-argument `ROUND` (`bits` of length 0) of a finite `FLOATS` value
`q` whose rounding `r` to the nearest integer, ties away from zero, fits in a
32-bit integer returns `SUCCESS` and leaves the `INTS` value `r`. -/
theorem function_calc_round_one_arg (env : Env) (attr : RelAttrSqlNode) (value : Value)
    (q : ℚ) (r : Int)
    (hfunc : attr.func = FuncOp.ROUND_FUNC)
    (htype : attr.roundparam.raw_data.attr_type = AttrType.FLOATS)
    (hx : attr.roundparam.raw_data.get_float = CFloat.finite q)
    (hbits : attr.roundparam.bits.length = 0)
    (hr : nearest_ties_away q r)
    (hfit : -(2 : Int) ^ 31 ≤ r ∧ r < (2 : Int) ^ 31) :
    (function_calc env attr value).1 = RC.SUCCESS ∧
      (function_calc env attr value).2.attr_type = AttrType.INTS ∧
      (function_calc env attr value).2.get_int = r := by
  have hround : round_half_away q = r := round_half_away_unique q r hr
  have hconv : float_to_int env (cround (CFloat.finite q)) = r := by
    simp only [cround, hround]
    exact float_to_int_of_int env r hfit
  have htype2 : attr.roundparam.raw_data.attr_type_ = AttrType.FLOATS := htype
  have hx2 : attr.roundparam.raw_data.float_value_ = CFloat.finite q := hx
  have hbits2 : attr.roundparam.bits.length_ = 0 := hbits
  simp [function_calc, hfunc, htype2, hx2, hbits2, hconv, Value.set_int, Value.attr_type,
    Value.get_int, Value.get_float, Value.length]

/-- Worked instance of C3: `ROUND(2.5)` is the `INTS` value 3 and `ROUND(-2.5)`
is the `INTS` value -3. -/
theorem function_calc_round_one_arg_witness :
    sample_round_pos.func = FuncOp.ROUND_FUNC ∧
      sample_round_pos.roundparam.raw_data.attr_type = AttrType.FLOATS ∧
      sample_round_pos.roundparam.raw_data.get_float = CFloat.finite (5 / 2) ∧
      sample_round_pos.roundparam.bits.length = 0 ∧
      nearest_ties_away (5 / 2) 3 ∧
      (-(2 : Int) ^ 31 ≤ 3 ∧ (3 : Int) < (2 : Int) ^ 31) ∧
      (function_calc sample_env sample_round_pos {}).1 = RC.SUCCESS ∧
      (function_calc sample_env sample_round_pos {}).2.attr_type = AttrType.INTS ∧
      (function_calc sample_env sample_round_pos {}).2.get_int = 3 ∧
      (function_calc sample_env sample_round_neg {}).2.get_int = -3 :=
  have hn : nearest_ties_away (5 / 2) 3 := by
    unfold nearest_ties_away
    norm_num [abs_of_nonneg]
  have hm : nearest_ties_away (-5 / 2) (-3) := by
    unfold nearest_ties_away
    norm_num [abs_of_nonneg, abs_of_nonpos]
  have hp := function_calc_round_one_arg sample_env sample_round_pos {} (5 / 2) 3 rfl rfl rfl
    rfl hn (by decide)
  ⟨rfl, rfl, rfl, rfl, hn, by decide, hp.1, hp.2.1, hp.2.2,
    (function_calc_round_one_arg sample_env sample_round_neg {} (-5 / 2) (-3) rfl rfl rfl rfl hm
      (by decide)).2.2⟩

/-- The three outcomes of `get_table_and_field`, by the table its first
statement selects and the column lookup in that table. -/
theorem get_table_and_field_cases (env : Env) (db : Db) (default_table : Option Table)
    (tables : Option (List (String × Table))) (attr : RelAttrSqlNode)
    (table : Option Table) (field : Option FieldMeta) :
    (get_table_and_field_table env db default_table tables attr table = none ∧
        get_table_and_field env db default_table tables attr table field
          = (RC.SCHEMA_TABLE_NOT_EXIST, none, field)) ∨
      (∃ t, get_table_and_field_table env db default_table tables attr table = some t ∧
        t.table_meta.field attr.attribute_name = none ∧
        get_table_and_field env db default_table tables attr table field
          = (RC.SCHEMA_FIELD_NOT_EXIST, none, none)) ∨
      (∃ t fm, get_table_and_field_table env db default_table tables attr table = some t ∧
        t.table_meta.field attr.attribute_name = some fm ∧
        get_table_and_field env db default_table tables attr table field
          = (RC.SUCCESS, some t, some fm)) := by
  unfold get_table_and_field
  cases h : get_table_and_field_table env db default_table tables attr table with
  | none => exact Or.inl ⟨rfl, rfl⟩
  | some t =>
    cases hf : t.table_meta.field attr.attribute_name with
    | none => exact Or.inr (Or.inl ⟨t, rfl, hf, by simp [hf]⟩)
    | some fm => exact Or.inr (Or.inr ⟨t, fm, rfl, hf, by simp [hf]⟩)

/-- When `get_table_and_field` returns `SUCCESS`, it returns the table its first
statement selected and the column of the referenced name in that table. -/
theorem get_table_and_field_success (env : Env) (db : Db) (default_table : Option Table)
    (tables : Option (List (String × Table))) (attr : RelAttrSqlNode)
    (table : Option Table) (field : Option FieldMeta)
    (h : (get_table_and_field env db default_table tables attr table field).1 = RC.SUCCESS) :
    ∃ t fm, get_table_and_field_table env db default_table tables attr table = some t ∧
      t.table_meta.field attr.attribute_name = some fm ∧
      get_table_and_field env db default_table tables attr table field
        = (RC.SUCCESS, some t, some fm) := by
  rcases get_table_and_field_cases env db default_table tables attr table field with
    ⟨_, h1⟩ | ⟨t, _, _, h1⟩ | h1
  · rw [h1] at h; cases h
  · rw [h1] at h; cases h
  · exact h1

/-- What the left block did when control leaves it: it stored one operand, a
literal, the value of a folded function call, or a resolved column. -/
theorem create_filter_unit_left_ok (env : Env) (db : Db) (default_table : Option Table)
    (tables : Option (List (String × Table))) (c : ConditionSqlNode)
    (rc rc1 : RC) (u u1 : FilterUnit)
    (h : create_filter_unit_left env db default_table tables c rc u = Except.ok (rc1, u1)) :
    (rc = RC.SUCCESS → rc1 = RC.SUCCESS) ∧
    ∃ obj, u1 = u.set_left obj ∧
      ((c.left_is_attr = false ∧ obj = FilterObj.value c.left_value) ∨
       (c.left_is_attr = true ∧ c.left_attr.func ≠ FuncOp.NO_FUNC ∧
          c.left_attr.attribute_name.isEmpty = true ∧
          (function_calc env c.left_attr {}).1 = RC.SUCCESS ∧
          obj = FilterObj.value (function_calc env c.left_attr {}).2) ∨
       (c.left_is_attr = true ∧
          ¬ (c.left_attr.func ≠ FuncOp.NO_FUNC ∧ c.left_attr.attribute_name.isEmpty = true) ∧
          ∃ t fm,
            get_table_and_field_table env db default_table tables c.left_attr none = some t ∧
            t.table_meta.field c.left_attr.attribute_name = some fm ∧
            column_operand c.left_attr (Field.mk (some t) (some fm)) obj)) := by
  unfold create_filter_unit_left at h
  by_cases ha : c.left_is_attr = true
  · rw [if_pos ha] at h
    by_cases hfold : c.left_attr.func ≠ FuncOp.NO_FUNC ∧ c.left_attr.attribute_name.isEmpty = true
    · rw [if_pos hfold] at h
      by_cases hrc : (function_calc env c.left_attr {}).1 = RC.SUCCESS
      · simp only [hrc, ne_eq, not_true_eq_false, if_false] at h
        injection h with h
        injection h with h1 h2
        exact ⟨fun _ => h1.symm, _, h2.symm, Or.inr (Or.inl ⟨ha, hfold.1, hfold.2, hrc, rfl⟩)⟩
      · simp only [ne_eq, hrc, not_false_eq_true, if_true] at h
        cases h
    · rw [if_neg hfold] at h
      by_cases hrc : (get_table_and_field env db default_table tables c.left_attr none none).1
          = RC.SUCCESS
      · obtain ⟨t, fm, ht, hfm, hres⟩ := get_table_and_field_success _ _ _ _ _ _ _ hrc
        simp only [hres, ne_eq, not_true_eq_false, if_false] at h
        by_cases hnf : c.left_attr.func = FuncOp.NO_FUNC
        · simp only [hnf, not_true_eq_false, if_false] at h
          injection h with h
          injection h with h1 h2
          exact ⟨fun _ => h1.symm, _, h2.symm,
            Or.inr (Or.inr ⟨ha, hfold, t, fm, ht, hfm, Or.inl ⟨hnf, rfl⟩⟩)⟩
        · rw [if_pos hnf] at h
          split at h
          · rename_i hl
            injection h with h
            injection h with h1 h2
            exact ⟨fun _ => h1.symm, _, h2.symm,
              Or.inr (Or.inr ⟨ha, hfold, t, fm, ht, hfm, Or.inr (Or.inl ⟨hl, by rw [hl]⟩)⟩)⟩
          · rename_i hl
            injection h with h
            injection h with h1 h2
            exact ⟨fun _ => h1.symm, _, h2.symm,
              Or.inr (Or.inr ⟨ha, hfold, t, fm, ht, hfm,
                Or.inr (Or.inr (Or.inl ⟨hl, by rw [hl]⟩))⟩)⟩
          · rename_i hl
            injection h with h
            injection h with h1 h2
            exact ⟨fun _ => h1.symm, _, h2.symm,
              Or.inr (Or.inr ⟨ha, hfold, t, fm, ht, hfm,
                Or.inr (Or.inr (Or.inr ⟨hl, by rw [hl]⟩))⟩)⟩
          · cases h
      · simp only [ne_eq, hrc, not_false_eq_true, if_true] at h
        cases h
  · rw [if_neg ha] at h
    split at h
    · cases h
    · injection h with h
      injection h with h1 h2
      exact ⟨fun hr => by rw [← h1]; exact hr, _, h2.symm,
        Or.inl ⟨by simpa using ha, rfl⟩⟩

/-- What the right block did when control leaves it: it stored one operand, a
literal, the value of a folded function call, or a resolved column. -/
theorem create_filter_unit_right_ok (env : Env) (db : Db) (default_table : Option Table)
    (tables : Option (List (String × Table))) (c : ConditionSqlNode)
    (rc rc1 : RC) (u u1 : FilterUnit)
    (h : create_filter_unit_right env db default_table tables c rc u = Except.ok (rc1, u1)) :
    (rc = RC.SUCCESS → rc1 = RC.SUCCESS) ∧
    ∃ obj, u1 = u.set_right obj ∧
      ((c.right_is_attr = false ∧ obj = FilterObj.value c.right_value) ∨
       (c.right_is_attr = true ∧ c.right_attr.func ≠ FuncOp.NO_FUNC ∧
          c.right_attr.attribute_name.isEmpty = true ∧
          (function_calc env c.right_attr {}).1 = RC.SUCCESS ∧
          obj = FilterObj.value (function_calc env c.right_attr {}).2) ∨
       (c.right_is_attr = true ∧
          ¬ (c.right_attr.func ≠ FuncOp.NO_FUNC ∧ c.right_attr.attribute_name.isEmpty = true) ∧
          ∃ t fm,
            get_table_and_field_table env db default_table tables c.right_attr none = some t ∧
            t.table_meta.field c.right_attr.attribute_name = some fm ∧
            column_operand c.right_attr (Field.mk (some t) (some fm)) obj)) := by
  unfold create_filter_unit_right at h
  by_cases ha : c.right_is_attr = true
  · rw [if_pos ha] at h
    by_cases hfold : c.right_attr.func ≠ FuncOp.NO_FUNC ∧ c.right_attr.attribute_name.isEmpty = true
    · rw [if_pos hfold] at h
      by_cases hrc : (function_calc env c.right_attr {}).1 = RC.SUCCESS
      · simp only [hrc, ne_eq, not_true_eq_false, if_false] at h
        injection h with h
        injection h with h1 h2
        exact ⟨fun _ => h1.symm, _, h2.symm, Or.inr (Or.inl ⟨ha, hfold.1, hfold.2, hrc, rfl⟩)⟩
      · simp only [ne_eq, hrc, not_false_eq_true, if_true] at h
        cases h
    · rw [if_neg hfold] at h
      by_cases hrc : (get_table_and_field env db default_table tables c.right_attr none none).1
          = RC.SUCCESS
      · obtain ⟨t, fm, ht, hfm, hres⟩ := get_table_and_field_success _ _ _ _ _ _ _ hrc
        simp only [hres, ne_eq, not_true_eq_false, if_false] at h
        by_cases hnf : c.right_attr.func = FuncOp.NO_FUNC
        · simp only [hnf, not_true_eq_false, if_false] at h
          injection h with h
          injection h with h1 h2
          exact ⟨fun _ => h1.symm, _, h2.symm,
            Or.inr (Or.inr ⟨ha, hfold, t, fm, ht, hfm, Or.inl ⟨hnf, rfl⟩⟩)⟩
        · rw [if_pos hnf] at h
          split at h
          · rename_i hl
            injection h with h
            injection h with h1 h2
            exact ⟨fun _ => h1.symm, _, h2.symm,
              Or.inr (Or.inr ⟨ha, hfold, t, fm, ht, hfm, Or.inr (Or.inl ⟨hl, by rw [hl]⟩)⟩)⟩
          · rename_i hl
            injection h with h
            injection h with h1 h2
            exact ⟨fun _ => h1.symm, _, h2.symm,
              Or.inr (Or.inr ⟨ha, hfold, t, fm, ht, hfm,
                Or.inr (Or.inr (Or.inl ⟨hl, by rw [hl]⟩))⟩)⟩
          · rename_i hl
            injection h with h
            injection h with h1 h2
            exact ⟨fun _ => h1.symm, _, h2.symm,
              Or.inr (Or.inr ⟨ha, hfold, t, fm, ht, hfm,
                Or.inr (Or.inr (Or.inr ⟨hl, by rw [hl]⟩))⟩)⟩
          · cases h
      · simp only [ne_eq, hrc, not_false_eq_true, if_true] at h
        cases h
  · rw [if_neg ha] at h
    split at h
    · cases h
    · injection h with h
      injection h with h1 h2
      exact ⟨fun hr => by rw [← h1]; exact hr, _, h2.symm,
        Or.inl ⟨by simpa using ha, rfl⟩⟩


/-- A `return` inside the left block never carries `SUCCESS`. -/
theorem create_filter_unit_left_error (env : Env) (db : Db) (default_table : Option Table)
    (tables : Option (List (String × Table))) (c : ConditionSqlNode)
    (rc e : RC) (u : FilterUnit)
    (h : create_filter_unit_left env db default_table tables c rc u = Except.error e) :
    e ≠ RC.SUCCESS := by
  unfold create_filter_unit_left at h
  by_cases ha : c.left_is_attr = true
  · rw [if_pos ha] at h
    by_cases hfold : c.left_attr.func ≠ FuncOp.NO_FUNC ∧ c.left_attr.attribute_name.isEmpty = true
    · rw [if_pos hfold] at h
      by_cases hrc : (function_calc env c.left_attr {}).1 = RC.SUCCESS
      · simp only [hrc, ne_eq, not_true_eq_false, if_false] at h
        cases h
      · simp only [ne_eq, hrc, not_false_eq_true, if_true] at h
        injection h with h
        rw [← h]
        exact hrc
    · rw [if_neg hfold] at h
      by_cases hrc : (get_table_and_field env db default_table tables c.left_attr none none).1
          = RC.SUCCESS
      · simp only [hrc, ne_eq, not_true_eq_false, if_false] at h
        by_cases hnf : c.left_attr.func = FuncOp.NO_FUNC
        · simp only [hnf, not_true_eq_false, if_false] at h
          cases h
        · rw [if_pos hnf] at h
          split at h
          · cases h
          · cases h
          · cases h
          · injection h with h
            rw [← h]
            decide
      · simp only [ne_eq, hrc, not_false_eq_true, if_true] at h
        injection h with h
        rw [← h]
        exact hrc
  · rw [if_neg ha] at h
    split at h
    · injection h with h
      rw [← h]
      decide
    · cases h

/-- A `return` inside the right block never carries `SUCCESS`. -/
theorem create_filter_unit_right_error (env : Env) (db : Db) (default_table : Option Table)
    (tables : Option (List (String × Table))) (c : ConditionSqlNode)
    (rc e : RC) (u : FilterUnit)
    (h : create_filter_unit_right env db default_table tables c rc u = Except.error e) :
    e ≠ RC.SUCCESS := by
  unfold create_filter_unit_right at h
  by_cases ha : c.right_is_attr = true
  · rw [if_pos ha] at h
    by_cases hfold : c.right_attr.func ≠ FuncOp.NO_FUNC ∧ c.right_attr.attribute_name.isEmpty = true
    · rw [if_pos hfold] at h
      by_cases hrc : (function_calc env c.right_attr {}).1 = RC.SUCCESS
      · simp only [hrc, ne_eq, not_true_eq_false, if_false] at h
        cases h
      · simp only [ne_eq, hrc, not_false_eq_true, if_true] at h
        injection h with h
        rw [← h]
        exact hrc
    · rw [if_neg hfold] at h
      by_cases hrc : (get_table_and_field env db default_table tables c.right_attr none none).1
          = RC.SUCCESS
      · simp only [hrc, ne_eq, not_true_eq_false, if_false] at h
        by_cases hnf : c.right_attr.func = FuncOp.NO_FUNC
        · simp only [hnf, not_true_eq_false, if_false] at h
          cases h
        · rw [if_pos hnf] at h
          split at h
          · cases h
          · cases h
          · cases h
          · injection h with h
            rw [← h]
            decide
      · simp only [ne_eq, hrc, not_false_eq_true, if_true] at h
        injection h with h
        rw [← h]
        exact hrc
  · rw [if_neg ha] at h
    split at h
    · injection h with h
      rw [← h]
      decide
    · cases h

/-- A successful `create_filter_unit` accepted the operator, left both blocks
normally, and returns the unit with both operands and the operator set. -/
theorem create_filter_unit_success (env : Env) (db : Db) (default_table : Option Table)
    (tables : Option (List (String × Table))) (c : ConditionSqlNode)
    (fu : Option FilterUnit)
    (h : (create_filter_unit env db default_table tables c fu).1 = RC.SUCCESS) :
    ¬ (c.comp < EQUAL_TO ∨ c.comp ≥ NO_OP) ∧
    ∃ u1 u2,
      create_filter_unit_left env db default_table tables c RC.SUCCESS {}
        = Except.ok (RC.SUCCESS, u1) ∧
      create_filter_unit_right env db default_table tables c RC.SUCCESS u1
        = Except.ok (RC.SUCCESS, u2) ∧
      create_filter_unit env db default_table tables c fu
        = (RC.SUCCESS, some (u2.set_comp c.comp)) := by
  by_cases hc : c.comp < EQUAL_TO ∨ c.comp ≥ NO_OP
  · simp only [create_filter_unit, hc, if_true] at h
    cases h
  · refine ⟨hc, ?_⟩
    cases hl : create_filter_unit_left env db default_table tables c RC.SUCCESS {} with
    | error e =>
      simp only [create_filter_unit, hc, if_false, hl] at h
      exact absurd h (create_filter_unit_left_error _ _ _ _ _ _ _ _ hl)
    | ok p =>
      obtain ⟨rc1, u1⟩ := p
      have h1 : rc1 = RC.SUCCESS := (create_filter_unit_left_ok _ _ _ _ _ _ _ _ _ hl).1 rfl
      subst h1
      cases hr : create_filter_unit_right env db default_table tables c RC.SUCCESS u1 with
      | error e =>
        simp only [create_filter_unit, hc, if_false, hl, hr] at h
        exact absurd h (create_filter_unit_right_error _ _ _ _ _ _ _ _ hr)
      | ok p2 =>
        obtain ⟨rc2, u2⟩ := p2
        have h2 : rc2 = RC.SUCCESS := (create_filter_unit_right_ok _ _ _ _ _ _ _ _ _ hr).1 rfl
        subst h2
        refine ⟨u1, u2, rfl, hr, ?_⟩
        simp only [create_filter_unit, hc, if_false, hl, hr]

/-- With an accepted operator, a `return` in the left block is the result of
`create_filter_unit`. -/
theorem create_filter_unit_of_left_error (env : Env) (db : Db) (default_table : Option Table)
    (tables : Option (List (String × Table))) (c : ConditionSqlNode)
    (fu : Option FilterUnit) (e : RC)
    (hcomp : ¬ (c.comp < EQUAL_TO ∨ c.comp ≥ NO_OP))
    (hl : create_filter_unit_left env db default_table tables c RC.SUCCESS {} = Except.error e) :
    create_filter_unit env db default_table tables c fu = (e, some {}) := by
  simp only [create_filter_unit, hcomp, if_false, hl]

/-- With an accepted operator and a completed left block, a `return` in the
right block is the result of `create_filter_unit`. -/
theorem create_filter_unit_of_right_error (env : Env) (db : Db) (default_table : Option Table)
    (tables : Option (List (String × Table))) (c : ConditionSqlNode)
    (fu : Option FilterUnit) (e rc1 : RC) (u1 : FilterUnit)
    (hcomp : ¬ (c.comp < EQUAL_TO ∨ c.comp ≥ NO_OP))
    (hl : create_filter_unit_left env db default_table tables c RC.SUCCESS {}
      = Except.ok (rc1, u1))
    (hr : create_filter_unit_right env db default_table tables c rc1 u1 = Except.error e) :
    create_filter_unit env db default_table tables c fu = (e, some u1) := by
  simp only [create_filter_unit, hcomp, if_false, hl, hr]

/-- The left block of a function call on a literal: the call of
`function_calc` decides it. -/
theorem create_filter_unit_left_fold (env : Env) (db : Db) (default_table : Option Table)
    (tables : Option (List (String × Table))) (c : ConditionSqlNode) (rc : RC)
    (u : FilterUnit)
    (ha : c.left_is_attr = true) (hf : c.left_attr.func ≠ FuncOp.NO_FUNC)
    (he : c.left_attr.attribute_name.isEmpty = true) :
    create_filter_unit_left env db default_table tables c rc u =
      if (function_calc env c.left_attr {}).1 ≠ RC.SUCCESS then
        Except.error (function_calc env c.left_attr {}).1
      else
        Except.ok ((function_calc env c.left_attr {}).1,
          u.set_left (FilterObj.value (function_calc env c.left_attr {}).2)) := by
  unfold create_filter_unit_left
  rw [if_pos ha, if_pos ⟨hf, he⟩]

/-- The right block of a function call on a literal: the call of
`function_calc` decides it. -/
theorem create_filter_unit_right_fold (env : Env) (db : Db) (default_table : Option Table)
    (tables : Option (List (String × Table))) (c : ConditionSqlNode) (rc : RC)
    (u : FilterUnit)
    (ha : c.right_is_attr = true) (hf : c.right_attr.func ≠ FuncOp.NO_FUNC)
    (he : c.right_attr.attribute_name.isEmpty = true) :
    create_filter_unit_right env db default_table tables c rc u =
      if (function_calc env c.right_attr {}).1 ≠ RC.SUCCESS then
        Except.error (function_calc env c.right_attr {}).1
      else
        Except.ok ((function_calc env c.right_attr {}).1,
          u.set_right (FilterObj.value (function_calc env c.right_attr {}).2)) := by
  unfold create_filter_unit_right
  rw [if_pos ha, if_pos ⟨hf, he⟩]

/-- The left block leaves the right operand of the unit alone, and the right
block the left operand. -/
theorem create_filter_unit_right_keeps_left (env : Env) (db : Db)
    (default_table : Option Table) (tables : Option (List (String × Table)))
    (c : ConditionSqlNode) (rc rc2 : RC) (u u2 : FilterUnit)
    (h : create_filter_unit_right env db default_table tables c rc u = Except.ok (rc2, u2)) :
    u2.left = u.left := by
  obtain ⟨_, obj, hu, _⟩ := create_filter_unit_right_ok _ _ _ _ _ _ _ _ _ h
  rw [hu]
  rfl

/-- C6: bind-time constant folding. With an accepted operator, a side that is
a reference with a function and an empty attribute name is decided by
`function_calc` alone: when that call fails `create_filter_unit` returns its
code (for the right side the call is reached when the left block completed);
when `create_filter_unit` succeeds the operand of the side is the `value`
operand holding the value `function_calc` computed, so never a `func` operand;
and the block of the side is the same for every database, default table and
scope map, so it looks nothing up. -/
theorem create_filter_unit_folds_constant (env : Env) (db : Db)
    (default_table : Option Table) (tables : Option (List (String × Table)))
    (c : ConditionSqlNode) (fu : Option FilterUnit)
    (hcomp : ¬ (c.comp < EQUAL_TO ∨ c.comp ≥ NO_OP)) :
    (c.left_is_attr = true → c.left_attr.func ≠ FuncOp.NO_FUNC →
      c.left_attr.attribute_name.isEmpty = true →
      ((function_calc env c.left_attr {}).1 ≠ RC.SUCCESS →
        (create_filter_unit env db default_table tables c fu).1
          = (function_calc env c.left_attr {}).1) ∧
      ((create_filter_unit env db default_table tables c fu).1 = RC.SUCCESS →
        ∃ u, (create_filter_unit env db default_table tables c fu).2 = some u ∧
          u.left = some (FilterObj.value (function_calc env c.left_attr {}).2)) ∧
      (∀ db2 default_table2 tables2 rc u,
        create_filter_unit_left env db2 default_table2 tables2 c rc u
          = create_filter_unit_left env db default_table tables c rc u)) ∧
    (c.right_is_attr = true → c.right_attr.func ≠ FuncOp.NO_FUNC →
      c.right_attr.attribute_name.isEmpty = true →
      (∀ rc1 u1,
        create_filter_unit_left env db default_table tables c RC.SUCCESS {}
          = Except.ok (rc1, u1) →
        (function_calc env c.right_attr {}).1 ≠ RC.SUCCESS →
        (create_filter_unit env db default_table tables c fu).1
          = (function_calc env c.right_attr {}).1) ∧
      ((create_filter_unit env db default_table tables c fu).1 = RC.SUCCESS →
        ∃ u, (create_filter_unit env db default_table tables c fu).2 = some u ∧
          u.right = some (FilterObj.value (function_calc env c.right_attr {}).2)) ∧
      (∀ db2 default_table2 tables2 rc u,
        create_filter_unit_right env db2 default_table2 tables2 c rc u
          = create_filter_unit_right env db default_table tables c rc u)) := by
  constructor
  · intro ha hf he
    refine ⟨fun hfail => ?_, fun hok => ?_, fun db2 dt2 tables2 rc u => ?_⟩
    · have hl := create_filter_unit_left_fold env db default_table tables c RC.SUCCESS {} ha hf he
      rw [if_pos hfail] at hl
      rw [create_filter_unit_of_left_error env db default_table tables c fu _ hcomp hl]
    · obtain ⟨_, u1, u2, hl, hr, hres⟩ := create_filter_unit_success _ _ _ _ _ _ hok
      rw [create_filter_unit_left_fold env db default_table tables c RC.SUCCESS {} ha hf he] at hl
      split at hl
      · cases hl
      · injection hl with hl
        injection hl with _ hu1
        refine ⟨u2.set_comp c.comp, by rw [hres], ?_⟩
        have hk := create_filter_unit_right_keeps_left _ _ _ _ _ _ _ _ _ hr
        show u2.left = _
        rw [hk, ← hu1]
        rfl
    · rw [create_filter_unit_left_fold env db2 dt2 tables2 c rc u ha hf he,
        create_filter_unit_left_fold env db default_table tables c rc u ha hf he]
  · intro ha hf he
    refine ⟨fun rc1 u1 hl hfail => ?_, fun hok => ?_, fun db2 dt2 tables2 rc u => ?_⟩
    · have hr := create_filter_unit_right_fold env db default_table tables c rc1 u1 ha hf he
      rw [if_pos hfail] at hr
      rw [create_filter_unit_of_right_error env db default_table tables c fu _ rc1 u1 hcomp hl hr]
    · obtain ⟨_, u1, u2, hl, hr, hres⟩ := create_filter_unit_success _ _ _ _ _ _ hok
      rw [create_filter_unit_right_fold env db default_table tables c RC.SUCCESS u1 ha hf he]
        at hr
      split at hr
      · cases hr
      · injection hr with hr
        injection hr with _ hu2
        refine ⟨u2.set_comp c.comp, by rw [hres], ?_⟩
        show u2.right = _
        rw [← hu2]
        rfl
    · rw [create_filter_unit_right_fold env db2 dt2 tables2 c rc u ha hf he,
        create_filter_unit_right_fold env db default_table tables c rc u ha hf he]


/-- Worked instance of C6: `LENGTH('abc') = 3` compiles to a unit whose left
operand is the value 3, and `LENGTH(7) = 3` fails with the code of
`function_calc`; `3 = LENGTH('abc')` has the value 3 as right operand. -/
theorem create_filter_unit_folds_constant_witness :
    ¬ (sample_cond_fold.comp < EQUAL_TO ∨ sample_cond_fold.comp ≥ NO_OP) ∧
      sample_cond_fold.left_is_attr = true ∧
      sample_cond_fold.left_attr.func ≠ FuncOp.NO_FUNC ∧
      sample_cond_fold.left_attr.attribute_name.isEmpty = true ∧
      (create_filter_unit sample_env sample_db none (some sample_tables)
        sample_cond_fold none).1 = RC.SUCCESS ∧
      (∃ u, (create_filter_unit sample_env sample_db none (some sample_tables)
          sample_cond_fold none).2 = some u ∧
        u.left = some (FilterObj.value (function_calc sample_env sample_length_abc {}).2)) ∧
      (function_calc sample_env sample_length_abc {}).2 = Value.of_int 3 ∧
      (create_filter_unit sample_env sample_db none (some sample_tables)
        sample_cond_fold_bad none).1 = RC.VARIABLE_NOT_VALID ∧
      (∃ u, (create_filter_unit sample_env sample_db none (some sample_tables)
          sample_cond_fold_right none).2 = some u ∧
        u.right = some (FilterObj.value (function_calc sample_env sample_length_abc {}).2)) :=
  have h := create_filter_unit_folds_constant sample_env sample_db none (some sample_tables)
    sample_cond_fold none (by decide)
  have hb := create_filter_unit_folds_constant sample_env sample_db none (some sample_tables)
    sample_cond_fold_bad none (by decide)
  have hr := create_filter_unit_folds_constant sample_env sample_db none (some sample_tables)
    sample_cond_fold_right none (by decide)
  ⟨by decide, rfl, by decide, rfl, by decide, (h.1 rfl (by decide) rfl).2.1 (by decide),
    by decide, ((hb.1 rfl (by decide) rfl).1 (by decide)).trans (by decide),
    (hr.2 rfl (by decide) rfl).2.1 (by decide)⟩

/-- A field the column operand of a reference carries is the field the operand
was built from. -/
theorem column_operand_field (attr : RelAttrSqlNode) (f g : Field) (obj : FilterObj)
    (h : column_operand attr f obj) (hg : obj.field? = some g) : g = f := by
  rcases h with ⟨_, h⟩ | ⟨_, h⟩ | ⟨_, h⟩ | ⟨_, h⟩ <;>
    (subst h; simp only [FilterObj.field?, Option.some.injEq] at hg; exact hg.symm)

/-- C7: resolution invariant. When `create_filter_unit` returns `SUCCESS` the
unit has both operands set, and every operand that is an `attr` or a `func`
operand carries a non-null table, the one `get_table_and_field` selected for
the reference of that side, and a non-null field, the one the schema of that
table returns for the attribute name of the reference. -/
theorem create_filter_unit_resolution_invariant (env : Env) (db : Db)
    (default_table : Option Table) (tables : Option (List (String × Table)))
    (c : ConditionSqlNode) (fu : Option FilterUnit)
    (h : (create_filter_unit env db default_table tables c fu).1 = RC.SUCCESS) :
    ∃ u lobj robj,
      (create_filter_unit env db default_table tables c fu).2 = some u ∧
      u.left = some lobj ∧ u.right = some robj ∧
      (∀ f, lobj.field? = some f →
        ∃ t fm, f.table = some t ∧ f.field = some fm ∧
          get_table_and_field_table env db default_table tables c.left_attr none = some t ∧
          t.table_meta.field c.left_attr.attribute_name = some fm) ∧
      (∀ f, robj.field? = some f →
        ∃ t fm, f.table = some t ∧ f.field = some fm ∧
          get_table_and_field_table env db default_table tables c.right_attr none = some t ∧
          t.table_meta.field c.right_attr.attribute_name = some fm) := by
  obtain ⟨_, u1, u2, hl, hr, hres⟩ := create_filter_unit_success _ _ _ _ _ _ h
  obtain ⟨_, lobj, hu1, hlcase⟩ := create_filter_unit_left_ok _ _ _ _ _ _ _ _ _ hl
  obtain ⟨_, robj, hu2, hrcase⟩ := create_filter_unit_right_ok _ _ _ _ _ _ _ _ _ hr
  refine ⟨u2.set_comp c.comp, lobj, robj, by rw [hres], ?_, ?_, ?_, ?_⟩
  · show u2.left = _
    rw [hu2, hu1]
    rfl
  · show u2.right = _
    rw [hu2]
    rfl
  · intro f hf
    rcases hlcase with ⟨_, ho⟩ | ⟨_, _, _, _, ho⟩ | ⟨_, _, t, fm, ht, hfm, ho⟩
    · subst ho; cases hf
    · subst ho; cases hf
    · have := column_operand_field _ _ _ _ ho hf
      subst this
      exact ⟨t, fm, rfl, rfl, ht, hfm⟩
  · intro f hf
    rcases hrcase with ⟨_, ho⟩ | ⟨_, _, _, _, ho⟩ | ⟨_, _, t, fm, ht, hfm, ho⟩
    · subst ho; cases hf
    · subst ho; cases hf
    · have := column_operand_field _ _ _ _ ho hf
      subst this
      exact ⟨t, fm, rfl, rfl, ht, hfm⟩

/-- Worked instance of C7: `t.a = u.id` over the scope of `t` and `u` compiles,
and its two operands carry the tables `t` and `u` with their columns `a` and
`id`. -/
theorem create_filter_unit_resolution_invariant_witness :
    (create_filter_unit sample_env sample_db none (some sample_tables)
        sample_cond_qualified none).1 = RC.SUCCESS ∧
      (∃ u lobj robj,
        (create_filter_unit sample_env sample_db none (some sample_tables)
          sample_cond_qualified none).2 = some u ∧
        u.left = some lobj ∧ u.right = some robj ∧
        (∀ f, lobj.field? = some f →
          ∃ t fm, f.table = some t ∧ f.field = some fm ∧
            get_table_and_field_table sample_env sample_db none (some sample_tables)
              sample_cond_qualified.left_attr none = some t ∧
            t.table_meta.field sample_cond_qualified.left_attr.attribute_name = some fm) ∧
        (∀ f, robj.field? = some f →
          ∃ t fm, f.table = some t ∧ f.field = some fm ∧
            get_table_and_field_table sample_env sample_db none (some sample_tables)
              sample_cond_qualified.right_attr none = some t ∧
            t.table_meta.field sample_cond_qualified.right_attr.attribute_name = some fm)) ∧
      (create_filter_unit sample_env sample_db none (some sample_tables)
        sample_cond_qualified none).2
        = some
          { comp := EQUAL_TO,
            left := some (FilterObj.attr
              (Field.mk (some sample_table) (sample_table.table_meta.field "a"))),
            right := some (FilterObj.attr
              (Field.mk (some sample_table_u) (sample_table_u.table_meta.field "id"))) } :=
  ⟨by decide,
    create_filter_unit_resolution_invariant sample_env sample_db none (some sample_tables)
      sample_cond_qualified none (by decide),
    by decide⟩

/-- C8: when the first statement of `get_table_and_field` selects a table
(non-null), a reference to a name that is no field of the schema of that table
returns `SCHEMA_FIELD_NOT_EXIST` with the output table reset to null, and a
reference to a field of the schema returns `SUCCESS` with that table and that
field. -/
theorem get_table_and_field_field_lookup (env : Env) (db : Db)
    (default_table : Option Table) (tables : Option (List (String × Table)))
    (attr : RelAttrSqlNode) (table : Option Table) (field : Option FieldMeta) (t : Table)
    (ht : get_table_and_field_table env db default_table tables attr table = some t) :
    (t.table_meta.field attr.attribute_name = none →
      (get_table_and_field env db default_table tables attr table field).1
        = RC.SCHEMA_FIELD_NOT_EXIST ∧
      (get_table_and_field env db default_table tables attr table field).2.1 = none) ∧
    (∀ fm, t.table_meta.field attr.attribute_name = some fm →
      get_table_and_field env db default_table tables attr table field
        = (RC.SUCCESS, some t, some fm)) := by
  constructor
  · intro hf
    simp [get_table_and_field, ht, hf]
  · intro fm hf
    simp [get_table_and_field, ht, hf]

/-- Worked instance of C8: in the database of `t` and `u`, `t.zz` fails with
`SCHEMA_FIELD_NOT_EXIST` and a null table, and `t.a` succeeds with `t` and its
column `a`. -/
theorem get_table_and_field_field_lookup_witness :
    get_table_and_field_table sample_env sample_db none none sample_attr_t_zz
        (some sample_table_u) = some sample_table ∧
      sample_table.table_meta.field sample_attr_t_zz.attribute_name = none ∧
      (get_table_and_field sample_env sample_db none none sample_attr_t_zz
        (some sample_table_u) none).1 = RC.SCHEMA_FIELD_NOT_EXIST ∧
      (get_table_and_field sample_env sample_db none none sample_attr_t_zz
        (some sample_table_u) none).2.1 = none ∧
      get_table_and_field sample_env sample_db none none sample_attr_t_a none none
        = (RC.SUCCESS, some sample_table,
            some { name := "a", type := AttrType.INTS, offset := 0, len := 4,
                   nullable := false }) :=
  have hz := get_table_and_field_field_lookup sample_env sample_db none none sample_attr_t_zz
    (some sample_table_u) none sample_table (by decide)
  have ha := get_table_and_field_field_lookup sample_env sample_db none none sample_attr_t_a
    none none sample_table (by decide)
  ⟨by decide, by decide, (hz.1 (by decide)).1, (hz.1 (by decide)).2, ha.2 _ (by decide)⟩

/-- The left block of a reference to a column returns the code of
`get_table_and_field` when that is not `SUCCESS`. -/
theorem create_filter_unit_left_column_error (env : Env) (db : Db)
    (default_table : Option Table) (tables : Option (List (String × Table)))
    (c : ConditionSqlNode) (rc : RC) (u : FilterUnit)
    (ha : c.left_is_attr = true)
    (hfold : ¬ (c.left_attr.func ≠ FuncOp.NO_FUNC ∧ c.left_attr.attribute_name.isEmpty = true))
    (hrc : (get_table_and_field env db default_table tables c.left_attr none none).1
      ≠ RC.SUCCESS) :
    create_filter_unit_left env db default_table tables c rc u
      = Except.error (get_table_and_field env db default_table tables c.left_attr none none).1 := by
  unfold create_filter_unit_left
  rw [if_pos ha, if_neg hfold]
  simp only [ne_eq, hrc, not_false_eq_true, if_true]

/-- The right block of a reference to a column returns the code of
`get_table_and_field` when that is not `SUCCESS`. -/
theorem create_filter_unit_right_column_error (env : Env) (db : Db)
    (default_table : Option Table) (tables : Option (List (String × Table)))
    (c : ConditionSqlNode) (rc : RC) (u : FilterUnit)
    (ha : c.right_is_attr = true)
    (hfold : ¬ (c.right_attr.func ≠ FuncOp.NO_FUNC ∧
      c.right_attr.attribute_name.isEmpty = true))
    (hrc : (get_table_and_field env db default_table tables c.right_attr none none).1
      ≠ RC.SUCCESS) :
    create_filter_unit_right env db default_table tables c rc u
      = Except.error
          (get_table_and_field env db default_table tables c.right_attr none none).1 := by
  unfold create_filter_unit_right
  rw [if_pos ha, if_neg hfold]
  simp only [ne_eq, hrc, not_false_eq_true, if_true]

/-- When its first statement selects no table, `get_table_and_field` returns
`SCHEMA_TABLE_NOT_EXIST`. -/
theorem get_table_and_field_no_table (env : Env) (db : Db)
    (default_table : Option Table) (tables : Option (List (String × Table)))
    (attr : RelAttrSqlNode) (table : Option Table) (field : Option FieldMeta)
    (h : get_table_and_field_table env db default_table tables attr table = none) :
    get_table_and_field env db default_table tables attr table field
      = (RC.SCHEMA_TABLE_NOT_EXIST, none, field) := by
  simp only [get_table_and_field, h]

/-- C9 fails as stated: binding the unqualified `a = 3` with no default table,
two tables being in scope, returns `SCHEMA_TABLE_NOT_EXIST`, which is not
`AMBIGUOUS_REFERENCE`. -/
theorem create_filter_unit_unqualified_not_ambiguous :
    sample_env.is_blank sample_cond_unqualified.left_attr.relation_name = true ∧
      (create_filter_unit sample_env sample_db none (some sample_tables)
        sample_cond_unqualified none).1 = RC.SCHEMA_TABLE_NOT_EXIST ∧
      (create_filter_unit sample_env sample_db none (some sample_tables)
        sample_cond_unqualified none).1 ≠ RC.AMBIGUOUS_REFERENCE := by
  decide

/-- C9 as amended: with an accepted operator and no default table, a reference
to a column (any reference but a function call on a literal) with a blank
relation name makes binding fail, and the code is `SCHEMA_TABLE_NOT_EXIST`:
always for the left side, and for the right side when the left block
completed. -/
theorem create_filter_unit_unqualified_no_default (env : Env) (db : Db)
    (tables : Option (List (String × Table))) (c : ConditionSqlNode)
    (fu : Option FilterUnit)
    (hcomp : ¬ (c.comp < EQUAL_TO ∨ c.comp ≥ NO_OP)) :
    (c.left_is_attr = true →
      ¬ (c.left_attr.func ≠ FuncOp.NO_FUNC ∧ c.left_attr.attribute_name.isEmpty = true) →
      env.is_blank c.left_attr.relation_name = true →
      (create_filter_unit env db none tables c fu).1 = RC.SCHEMA_TABLE_NOT_EXIST) ∧
    (c.right_is_attr = true →
      ¬ (c.right_attr.func ≠ FuncOp.NO_FUNC ∧ c.right_attr.attribute_name.isEmpty = true) →
      env.is_blank c.right_attr.relation_name = true →
      (create_filter_unit env db none tables c fu).1 ≠ RC.SUCCESS ∧
      (∀ rc1 u1,
        create_filter_unit_left env db none tables c RC.SUCCESS {} = Except.ok (rc1, u1) →
        (create_filter_unit env db none tables c fu).1 = RC.SCHEMA_TABLE_NOT_EXIST)) := by
  constructor
  · intro ha hfold hb
    have ht : get_table_and_field_table env db none tables c.left_attr none = none := by
      simp only [get_table_and_field_table, hb, if_true]
    have hg := get_table_and_field_no_table env db none tables c.left_attr none none ht
    have hl := create_filter_unit_left_column_error env db none tables c RC.SUCCESS {} ha hfold
      (by rw [hg]; decide)
    rw [create_filter_unit_of_left_error env db none tables c fu _ hcomp hl, hg]
  · intro ha hfold hb
    have ht : get_table_and_field_table env db none tables c.right_attr none = none := by
      simp only [get_table_and_field_table, hb, if_true]
    have hg := get_table_and_field_no_table env db none tables c.right_attr none none ht
    have hall : ∀ rc1 u1,
        create_filter_unit_left env db none tables c RC.SUCCESS {} = Except.ok (rc1, u1) →
        (create_filter_unit env db none tables c fu).1 = RC.SCHEMA_TABLE_NOT_EXIST := by
      intro rc1 u1 hl
      have hr := create_filter_unit_right_column_error env db none tables c rc1 u1 ha hfold
        (by rw [hg]; decide)
      rw [create_filter_unit_of_right_error env db none tables c fu _ rc1 u1 hcomp hl hr, hg]
    refine ⟨fun hok => ?_, hall⟩
    obtain ⟨_, u1, _, hl, _, _⟩ := create_filter_unit_success _ _ _ _ _ _ hok
    have := hall _ _ hl
    rw [hok] at this
    cases this

/-- Worked instance of the amended C9: `a = 3` and `3 = a` with no default
table fail with `SCHEMA_TABLE_NOT_EXIST`. -/
theorem create_filter_unit_unqualified_no_default_witness :
    ¬ (sample_cond_unqualified.comp < EQUAL_TO ∨ sample_cond_unqualified.comp ≥ NO_OP) ∧
      sample_cond_unqualified.left_is_attr = true ∧
      ¬ (sample_cond_unqualified.left_attr.func ≠ FuncOp.NO_FUNC ∧
        sample_cond_unqualified.left_attr.attribute_name.isEmpty = true) ∧
      sample_env.is_blank sample_cond_unqualified.left_attr.relation_name = true ∧
      (create_filter_unit sample_env sample_db none (some sample_tables)
        sample_cond_unqualified none).1 = RC.SCHEMA_TABLE_NOT_EXIST ∧
      (create_filter_unit sample_env sample_db none (some sample_tables)
        sample_cond_unqualified_right none).1 = RC.SCHEMA_TABLE_NOT_EXIST :=
  ⟨by decide, rfl, by decide, by decide,
    (create_filter_unit_unqualified_no_default sample_env sample_db (some sample_tables)
      sample_cond_unqualified none (by decide)).1 rfl (by decide) (by decide),
    ((create_filter_unit_unqualified_no_default sample_env sample_db (some sample_tables)
      sample_cond_unqualified_right none (by decide)).2 rfl (by decide) (by decide)).2
      RC.SUCCESS (FilterUnit.set_left {} (FilterObj.value (Value.of_int 3))) rfl⟩

/-- With a scope map supplied, the first statement of `get_table_and_field`
does not consult the database. -/
theorem get_table_and_field_table_scope (env : Env) (db db2 : Db)
    (default_table : Option Table) (m : List (String × Table)) (attr : RelAttrSqlNode)
    (table : Option Table) :
    get_table_and_field_table env db2 default_table (some m) attr table
      = get_table_and_field_table env db default_table (some m) attr table := by
  simp only [get_table_and_field_table]

/-- For a non-blank relation name, a supplied scope map and a null incoming
table, the table selected is the entry of the map. -/
theorem get_table_and_field_table_qualified (env : Env) (db : Db)
    (default_table : Option Table) (m : List (String × Table)) (attr : RelAttrSqlNode)
    (hb : env.is_blank attr.relation_name = false) :
    get_table_and_field_table env db default_table (some m) attr none
      = m.lookup attr.relation_name := by
  simp only [get_table_and_field_table, hb, Bool.false_eq_true, if_false]
  cases m.lookup attr.relation_name <;> rfl

/-- For a non-blank relation name and no scope map, the table selected is
the one the database finds. -/
theorem get_table_and_field_table_database (env : Env) (db : Db)
    (default_table : Option Table) (attr : RelAttrSqlNode) (table : Option Table)
    (hb : env.is_blank attr.relation_name = false) :
    get_table_and_field_table env db default_table none attr table
      = db.find_table attr.relation_name := by
  simp only [get_table_and_field_table, hb, Bool.false_eq_true, if_false]

/-- The column operand of a reference carries the field it was built from. -/
theorem column_operand_field_some (attr : RelAttrSqlNode) (f : Field) (obj : FilterObj)
    (h : column_operand attr f obj) : obj.field? = some f := by
  rcases h with ⟨_, h⟩ | ⟨_, h⟩ | ⟨_, h⟩ | ⟨_, h⟩ <;> (subst h; rfl)

/-- With a scope map supplied, `create_filter_unit` does not consult the
database. -/
theorem create_filter_unit_scope (env : Env) (db db2 : Db) (default_table : Option Table)
    (m : List (String × Table)) (c : ConditionSqlNode) (fu : Option FilterUnit) :
    create_filter_unit env db2 default_table (some m) c fu
      = create_filter_unit env db default_table (some m) c fu := by
  have hg : ∀ attr table field,
      get_table_and_field env db2 default_table (some m) attr table field
        = get_table_and_field env db default_table (some m) attr table field := by
    intro attr table field
    simp only [get_table_and_field, get_table_and_field_table]
  have hl : ∀ rc u, create_filter_unit_left env db2 default_table (some m) c rc u
      = create_filter_unit_left env db default_table (some m) c rc u := by
    intro rc u
    simp only [create_filter_unit_left, hg]
  have hr : ∀ rc u, create_filter_unit_right env db2 default_table (some m) c rc u
      = create_filter_unit_right env db default_table (some m) c rc u := by
    intro rc u
    simp only [create_filter_unit_right, hg]
  simp only [create_filter_unit, hl, hr]

/-- On success, the left operand of a reference to a column carries the table
the first statement of `get_table_and_field` selected. -/
theorem create_filter_unit_left_table (env : Env) (db : Db) (default_table : Option Table)
    (tables : Option (List (String × Table))) (c : ConditionSqlNode)
    (fu : Option FilterUnit)
    (ha : c.left_is_attr = true)
    (hfold : ¬ (c.left_attr.func ≠ FuncOp.NO_FUNC ∧ c.left_attr.attribute_name.isEmpty = true))
    (hok : (create_filter_unit env db default_table tables c fu).1 = RC.SUCCESS) :
    ∃ u obj f, (create_filter_unit env db default_table tables c fu).2 = some u ∧
      u.left = some obj ∧ obj.field? = some f ∧
      f.table = get_table_and_field_table env db default_table tables c.left_attr none := by
  obtain ⟨_, u1, u2, hl, hr, hres⟩ := create_filter_unit_success _ _ _ _ _ _ hok
  obtain ⟨_, obj, hu1, hcase⟩ := create_filter_unit_left_ok _ _ _ _ _ _ _ _ _ hl
  have hk := create_filter_unit_right_keeps_left _ _ _ _ _ _ _ _ _ hr
  rcases hcase with ⟨hna, _⟩ | ⟨_, hf, he, _, _⟩ | ⟨_, _, t, fm, ht, _, ho⟩
  · rw [ha] at hna; cases hna
  · exact absurd ⟨hf, he⟩ hfold
  · refine ⟨u2.set_comp c.comp, obj, _, by rw [hres], ?_, column_operand_field_some _ _ _ ho, ?_⟩
    · show u2.left = _
      rw [hk, hu1]
      rfl
    · rw [ht]

/-- On success, the right operand of a reference to a column carries the table
the first statement of `get_table_and_field` selected. -/
theorem create_filter_unit_right_table (env : Env) (db : Db) (default_table : Option Table)
    (tables : Option (List (String × Table))) (c : ConditionSqlNode)
    (fu : Option FilterUnit)
    (ha : c.right_is_attr = true)
    (hfold : ¬ (c.right_attr.func ≠ FuncOp.NO_FUNC ∧
      c.right_attr.attribute_name.isEmpty = true))
    (hok : (create_filter_unit env db default_table tables c fu).1 = RC.SUCCESS) :
    ∃ u obj f, (create_filter_unit env db default_table tables c fu).2 = some u ∧
      u.right = some obj ∧ obj.field? = some f ∧
      f.table = get_table_and_field_table env db default_table tables c.right_attr none := by
  obtain ⟨_, u1, u2, hl, hr, hres⟩ := create_filter_unit_success _ _ _ _ _ _ hok
  obtain ⟨_, obj, hu2, hcase⟩ := create_filter_unit_right_ok _ _ _ _ _ _ _ _ _ hr
  rcases hcase with ⟨hna, _⟩ | ⟨_, hf, he, _, _⟩ | ⟨_, _, t, fm, ht, _, ho⟩
  · rw [ha] at hna; cases hna
  · exact absurd ⟨hf, he⟩ hfold
  · refine ⟨u2.set_comp c.comp, obj, _, by rw [hres], ?_, column_operand_field_some _ _ _ ho, ?_⟩
    · show u2.right = _
      rw [hu2]
      rfl
    · rw [ht]

/-- C10: qualified reference lookup in `create_filter_unit`, the operator
being accepted. With a scope map supplied the database is never consulted.
For a reference to a column with a non-blank relation name: with a scope map,
a name absent from it fails with `SCHEMA_TABLE_NOT_EXIST` whatever the database
holds (for the right side: fails, and with that code when the left block
completed), and on success the operand carries exactly the entry of the map;
with no scope map, on success the operand carries the table the database
finds. -/
theorem create_filter_unit_qualified_lookup (env : Env) (db : Db)
    (default_table : Option Table) (c : ConditionSqlNode) (fu : Option FilterUnit)
    (hcomp : ¬ (c.comp < EQUAL_TO ∨ c.comp ≥ NO_OP)) :
    (∀ m db2, create_filter_unit env db2 default_table (some m) c fu
      = create_filter_unit env db default_table (some m) c fu) ∧
    (c.left_is_attr = true →
      ¬ (c.left_attr.func ≠ FuncOp.NO_FUNC ∧ c.left_attr.attribute_name.isEmpty = true) →
      env.is_blank c.left_attr.relation_name = false →
      (∀ m : List (String × Table), m.lookup c.left_attr.relation_name = none →
        (create_filter_unit env db default_table (some m) c fu).1
          = RC.SCHEMA_TABLE_NOT_EXIST) ∧
      (∀ m : List (String × Table),
        (create_filter_unit env db default_table (some m) c fu).1 = RC.SUCCESS →
        ∃ u obj f, (create_filter_unit env db default_table (some m) c fu).2 = some u ∧
          u.left = some obj ∧ obj.field? = some f ∧
          f.table = m.lookup c.left_attr.relation_name) ∧
      ((create_filter_unit env db default_table none c fu).1 = RC.SUCCESS →
        ∃ u obj f, (create_filter_unit env db default_table none c fu).2 = some u ∧
          u.left = some obj ∧ obj.field? = some f ∧
          f.table = db.find_table c.left_attr.relation_name)) ∧
    (c.right_is_attr = true →
      ¬ (c.right_attr.func ≠ FuncOp.NO_FUNC ∧ c.right_attr.attribute_name.isEmpty = true) →
      env.is_blank c.right_attr.relation_name = false →
      (∀ m : List (String × Table), m.lookup c.right_attr.relation_name = none →
        (create_filter_unit env db default_table (some m) c fu).1 ≠ RC.SUCCESS ∧
        (∀ rc1 u1,
          create_filter_unit_left env db default_table (some m) c RC.SUCCESS {}
            = Except.ok (rc1, u1) →
          (create_filter_unit env db default_table (some m) c fu).1
            = RC.SCHEMA_TABLE_NOT_EXIST)) ∧
      (∀ m : List (String × Table),
        (create_filter_unit env db default_table (some m) c fu).1 = RC.SUCCESS →
        ∃ u obj f, (create_filter_unit env db default_table (some m) c fu).2 = some u ∧
          u.right = some obj ∧ obj.field? = some f ∧
          f.table = m.lookup c.right_attr.relation_name) ∧
      ((create_filter_unit env db default_table none c fu).1 = RC.SUCCESS →
        ∃ u obj f, (create_filter_unit env db default_table none c fu).2 = some u ∧
          u.right = some obj ∧ obj.field? = some f ∧
          f.table = db.find_table c.right_attr.relation_name)) := by
  refine ⟨fun m db2 => create_filter_unit_scope env db db2 default_table m c fu, ?_, ?_⟩
  · intro ha hfold hb
    refine ⟨fun m hm => ?_, fun m hok => ?_, fun hok => ?_⟩
    · have ht : get_table_and_field_table env db default_table (some m) c.left_attr none
          = none := by
        rw [get_table_and_field_table_qualified env db default_table m c.left_attr hb, hm]
      have hg := get_table_and_field_no_table env db default_table (some m) c.left_attr none
        none ht
      have hl := create_filter_unit_left_column_error env db default_table (some m) c
        RC.SUCCESS {} ha hfold (by rw [hg]; decide)
      rw [create_filter_unit_of_left_error env db default_table (some m) c fu _ hcomp hl, hg]
    · have h := create_filter_unit_left_table env db default_table (some m) c fu ha hfold hok
      rw [get_table_and_field_table_qualified env db default_table m c.left_attr hb] at h
      exact h
    · have h := create_filter_unit_left_table env db default_table none c fu ha hfold hok
      rw [get_table_and_field_table_database env db default_table c.left_attr none hb] at h
      exact h
  · intro ha hfold hb
    refine ⟨fun m hm => ?_, fun m hok => ?_, fun hok => ?_⟩
    · have ht : get_table_and_field_table env db default_table (some m) c.right_attr none
          = none := by
        rw [get_table_and_field_table_qualified env db default_table m c.right_attr hb, hm]
      have hg := get_table_and_field_no_table env db default_table (some m) c.right_attr none
        none ht
      have hall : ∀ rc1 u1,
          create_filter_unit_left env db default_table (some m) c RC.SUCCESS {}
            = Except.ok (rc1, u1) →
          (create_filter_unit env db default_table (some m) c fu).1
            = RC.SCHEMA_TABLE_NOT_EXIST := by
        intro rc1 u1 hl
        have hr := create_filter_unit_right_column_error env db default_table (some m) c rc1 u1
          ha hfold (by rw [hg]; decide)
        rw [create_filter_unit_of_right_error env db default_table (some m) c fu _ rc1 u1 hcomp
          hl hr, hg]
      refine ⟨fun hok => ?_, hall⟩
      obtain ⟨_, u1, _, hl, _, _⟩ := create_filter_unit_success _ _ _ _ _ _ hok
      have := hall _ _ hl
      rw [hok] at this
      cases this
    · have h := create_filter_unit_right_table env db default_table (some m) c fu ha hfold hok
      rw [get_table_and_field_table_qualified env db default_table m c.right_attr hb] at h
      exact h
    · have h := create_filter_unit_right_table env db default_table none c fu ha hfold hok
      rw [get_table_and_field_table_database env db default_table c.right_attr none hb] at h
      exact h

/-- Worked instance of C10: with the scope map holding `t` only, `u.id = 3`
fails with `SCHEMA_TABLE_NOT_EXIST` although the database holds `u`; with the
map of `t` and `u` it succeeds and the left operand carries the entry `u` of
the map; with no map it succeeds through the database. -/
theorem create_filter_unit_qualified_lookup_witness :
    ¬ (sample_cond_u_id.comp < EQUAL_TO ∨ sample_cond_u_id.comp ≥ NO_OP) ∧
      sample_cond_u_id.left_is_attr = true ∧
      ¬ (sample_cond_u_id.left_attr.func ≠ FuncOp.NO_FUNC ∧
        sample_cond_u_id.left_attr.attribute_name.isEmpty = true) ∧
      sample_env.is_blank sample_cond_u_id.left_attr.relation_name = false ∧
      sample_tables_t.lookup sample_cond_u_id.left_attr.relation_name = none ∧
      sample_db.find_table sample_cond_u_id.left_attr.relation_name = some sample_table_u ∧
      (create_filter_unit sample_env sample_db none (some sample_tables_t)
        sample_cond_u_id none).1 = RC.SCHEMA_TABLE_NOT_EXIST ∧
      (∃ u obj f, (create_filter_unit sample_env sample_db none (some sample_tables)
          sample_cond_u_id none).2 = some u ∧
        u.left = some obj ∧ obj.field? = some f ∧
        f.table = sample_tables.lookup sample_cond_u_id.left_attr.relation_name) ∧
      sample_tables.lookup sample_cond_u_id.left_attr.relation_name = some sample_table_u ∧
      (∃ u obj f, (create_filter_unit sample_env sample_db none none
          sample_cond_u_id none).2 = some u ∧
        u.left = some obj ∧ obj.field? = some f ∧
        f.table = sample_db.find_table sample_cond_u_id.left_attr.relation_name) :=
  have h := (create_filter_unit_qualified_lookup sample_env sample_db none sample_cond_u_id
    none (by decide)).2.1 rfl (by decide) (by decide)
  ⟨by decide, rfl, by decide, by decide, by decide, by decide,
    h.1 sample_tables_t (by decide), h.2.1 sample_tables (by decide), by decide,
    h.2.2 (by decide)⟩

/-- The codes `function_calc` returns. -/
theorem function_calc_codes (env : Env) (attr : RelAttrSqlNode) (value : Value) :
    (function_calc env attr value).1 = RC.SUCCESS ∨
      (function_calc env attr value).1 = RC.VARIABLE_NOT_VALID ∨
      (function_calc env attr value).1 = RC.UNIMPLENMENT := by
  unfold function_calc
  split <;> (dsimp only; first | (split_ifs <;> simp) | simp)

/-- The codes `get_table_and_field` returns. -/
theorem get_table_and_field_codes (env : Env) (db : Db) (default_table : Option Table)
    (tables : Option (List (String × Table))) (attr : RelAttrSqlNode)
    (table : Option Table) (field : Option FieldMeta) :
    (get_table_and_field env db default_table tables attr table field).1 = RC.SUCCESS ∨
      (get_table_and_field env db default_table tables attr table field).1
        = RC.SCHEMA_TABLE_NOT_EXIST ∨
      (get_table_and_field env db default_table tables attr table field).1
        = RC.SCHEMA_FIELD_NOT_EXIST := by
  rcases get_table_and_field_cases env db default_table tables attr table field with
    ⟨_, h⟩ | ⟨_, _, _, h⟩ | ⟨_, _, _, _, h⟩ <;> rw [h] <;> simp

/-- The codes a `return` inside the left block carries. -/
theorem create_filter_unit_left_error_codes (env : Env) (db : Db)
    (default_table : Option Table) (tables : Option (List (String × Table)))
    (c : ConditionSqlNode) (rc e : RC) (u : FilterUnit)
    (h : create_filter_unit_left env db default_table tables c rc u = Except.error e) :
    create_filter_unit_code e := by
  unfold create_filter_unit_left at h
  unfold create_filter_unit_code
  by_cases ha : c.left_is_attr = true
  · rw [if_pos ha] at h
    by_cases hfold : c.left_attr.func ≠ FuncOp.NO_FUNC ∧ c.left_attr.attribute_name.isEmpty = true
    · rw [if_pos hfold] at h
      by_cases hrc : (function_calc env c.left_attr {}).1 = RC.SUCCESS
      · simp only [hrc, ne_eq, not_true_eq_false, if_false] at h
        cases h
      · simp only [ne_eq, hrc, not_false_eq_true, if_true] at h
        injection h with h
        rw [← h]
        rcases function_calc_codes env c.left_attr {} with h1 | h1 | h1
        · exact absurd h1 hrc
        · simp [h1]
        · simp [h1]
    · rw [if_neg hfold] at h
      by_cases hrc : (get_table_and_field env db default_table tables c.left_attr none none).1
          = RC.SUCCESS
      · simp only [hrc, ne_eq, not_true_eq_false, if_false] at h
        by_cases hnf : c.left_attr.func = FuncOp.NO_FUNC
        · simp only [hnf, not_true_eq_false, if_false] at h
          cases h
        · rw [if_pos hnf] at h
          split at h
          · cases h
          · cases h
          · cases h
          · injection h with h
            rw [← h]
            simp
      · simp only [ne_eq, hrc, not_false_eq_true, if_true] at h
        injection h with h
        rw [← h]
        rcases get_table_and_field_codes env db default_table tables c.left_attr none none with
          h1 | h1 | h1
        · exact absurd h1 hrc
        · simp [h1]
        · simp [h1]
  · rw [if_neg ha] at h
    split at h
    · injection h with h
      rw [← h]
      simp
    · cases h

/-- The codes a `return` inside the right block carries. -/
theorem create_filter_unit_right_error_codes (env : Env) (db : Db)
    (default_table : Option Table) (tables : Option (List (String × Table)))
    (c : ConditionSqlNode) (rc e : RC) (u : FilterUnit)
    (h : create_filter_unit_right env db default_table tables c rc u = Except.error e) :
    create_filter_unit_code e := by
  unfold create_filter_unit_right at h
  unfold create_filter_unit_code
  by_cases ha : c.right_is_attr = true
  · rw [if_pos ha] at h
    by_cases hfold : c.right_attr.func ≠ FuncOp.NO_FUNC ∧ c.right_attr.attribute_name.isEmpty = true
    · rw [if_pos hfold] at h
      by_cases hrc : (function_calc env c.right_attr {}).1 = RC.SUCCESS
      · simp only [hrc, ne_eq, not_true_eq_false, if_false] at h
        cases h
      · simp only [ne_eq, hrc, not_false_eq_true, if_true] at h
        injection h with h
        rw [← h]
        rcases function_calc_codes env c.right_attr {} with h1 | h1 | h1
        · exact absurd h1 hrc
        · simp [h1]
        · simp [h1]
    · rw [if_neg hfold] at h
      by_cases hrc : (get_table_and_field env db default_table tables c.right_attr none none).1
          = RC.SUCCESS
      · simp only [hrc, ne_eq, not_true_eq_false, if_false] at h
        by_cases hnf : c.right_attr.func = FuncOp.NO_FUNC
        · simp only [hnf, not_true_eq_false, if_false] at h
          cases h
        · rw [if_pos hnf] at h
          split at h
          · cases h
          · cases h
          · cases h
          · injection h with h
            rw [← h]
            simp
      · simp only [ne_eq, hrc, not_false_eq_true, if_true] at h
        injection h with h
        rw [← h]
        rcases get_table_and_field_codes env db default_table tables c.right_attr none none with
          h1 | h1 | h1
        · exact absurd h1 hrc
        · simp [h1]
        · simp [h1]
  · rw [if_neg ha] at h
    split at h
    · injection h with h
      rw [← h]
      simp
    · cases h

/-- Every code `create_filter_unit` returns is one of `SUCCESS`,
`INVALID_ARGUMENT`, `UNIMPLENMENT`, `VARIABLE_NOT_VALID`,
`SCHEMA_TABLE_NOT_EXIST` and `SCHEMA_FIELD_NOT_EXIST`. -/
theorem create_filter_unit_codes (env : Env) (db : Db) (default_table : Option Table)
    (tables : Option (List (String × Table))) (c : ConditionSqlNode)
    (fu : Option FilterUnit) :
    create_filter_unit_code (create_filter_unit env db default_table tables c fu).1 := by
  by_cases hc : c.comp < EQUAL_TO ∨ c.comp ≥ NO_OP
  · simp only [create_filter_unit, hc, if_true]
    unfold create_filter_unit_code
    simp
  · cases hl : create_filter_unit_left env db default_table tables c RC.SUCCESS {} with
    | error e =>
      rw [create_filter_unit_of_left_error env db default_table tables c fu e hc hl]
      exact create_filter_unit_left_error_codes _ _ _ _ _ _ _ _ hl
    | ok p =>
      obtain ⟨rc1, u1⟩ := p
      cases hr : create_filter_unit_right env db default_table tables c rc1 u1 with
      | error e =>
        rw [create_filter_unit_of_right_error env db default_table tables c fu e rc1 u1 hc hl hr]
        exact create_filter_unit_right_error_codes _ _ _ _ _ _ _ _ hr
      | ok p2 =>
        obtain ⟨rc2, u2⟩ := p2
        have h1 : rc1 = RC.SUCCESS := (create_filter_unit_left_ok _ _ _ _ _ _ _ _ _ hl).1 rfl
        subst h1
        have h2 : rc2 = RC.SUCCESS := (create_filter_unit_right_ok _ _ _ _ _ _ _ _ _ hr).1 rfl
        subst h2
        simp only [create_filter_unit, hc, if_false, hl, hr]
        unfold create_filter_unit_code
        simp

/-- The code `TYPE_MISMATCH` is returned by `create_filter_unit` for no
input: the function has no comparison of the operand types. -/
theorem create_filter_unit_never_type_mismatch (env : Env) (db : Db)
    (default_table : Option Table) (tables : Option (List (String × Table)))
    (c : ConditionSqlNode) (fu : Option FilterUnit) :
    (create_filter_unit env db default_table tables c fu).1 ≠ RC.TYPE_MISMATCH := by
  intro h
  have hc := create_filter_unit_codes env db default_table tables c fu
  rw [h] at hc
  revert hc
  decide

/-- C11, the code at the failing inputs: `1 = 'abc'` (an integer literal
against a text that is no number) and `a = '2020-01-02'` (the integer column
`a` against a date literal) are illegal pairings of the comparison table, and
`create_filter_unit` returns `SUCCESS` for both, not `TYPE_MISMATCH`; it
returns `TYPE_MISMATCH` for no input at all. -/
theorem create_filter_unit_no_type_check :
    ((create_filter_unit sample_env sample_db (some sample_table) none
        sample_cond_int_chars none).1 = RC.SUCCESS ∧
      sample_cond_int_chars.left_value.attr_type = AttrType.INTS ∧
      sample_cond_int_chars.right_value.attr_type = AttrType.CHARS ∧
      (create_filter_unit sample_env sample_db (some sample_table) none
        sample_cond_int_date none).1 = RC.SUCCESS ∧
      sample_table.table_meta.field sample_cond_int_date.left_attr.attribute_name
        = some { name := "a", type := AttrType.INTS, offset := 0, len := 4,
                 nullable := false } ∧
      sample_cond_int_date.right_value.attr_type = AttrType.DATES) ∧
    (∀ (env : Env) (db : Db) (default_table : Option Table)
        (tables : Option (List (String × Table))) (c : ConditionSqlNode)
        (fu : Option FilterUnit),
      (create_filter_unit env db default_table tables c fu).1 ≠ RC.TYPE_MISMATCH) := by
  constructor
  · decide
  · intro env db default_table tables c fu
    exact create_filter_unit_never_type_mismatch env db default_table tables c fu

/-- The flag `is_conjunction_or` of the condition has no part in
`create_filter_unit`: the result is the same whatever the flag. -/
theorem create_filter_unit_ignores_conjunction (env : Env) (db : Db)
    (default_table : Option Table) (tables : Option (List (String × Table)))
    (c : ConditionSqlNode) (b : Bool) (fu : Option FilterUnit) :
    create_filter_unit env db default_table tables { c with is_conjunction_or := b } fu
      = create_filter_unit env db default_table tables c fu := by
  rfl

/-- A unit `create_filter_unit` returns with `SUCCESS` records the operator of
the condition. -/
theorem create_filter_unit_records_comp (env : Env) (db : Db)
    (default_table : Option Table) (tables : Option (List (String × Table)))
    (c : ConditionSqlNode) (fu : Option FilterUnit)
    (h : (create_filter_unit env db default_table tables c fu).1 = RC.SUCCESS) :
    ∃ u, (create_filter_unit env db default_table tables c fu).2 = some u ∧
      u.comp = c.comp := by
  obtain ⟨_, u1, u2, _, _, hres⟩ := create_filter_unit_success _ _ _ _ _ _ h
  exact ⟨u2.set_comp c.comp, by rw [hres], rfl⟩

/-- C12, the code at the failing input: `a = 3` followed by `OR`
(`is_conjunction_or` true) and the same condition with the flag false both
compile, and to the same unit, which records the operator `=`: nothing in the
unit tells `OR` from `AND`. -/
theorem create_filter_unit_drops_conjunction :
    sample_cond_or.is_conjunction_or = true ∧
      sample_cond_and.is_conjunction_or = false ∧
      (create_filter_unit sample_env sample_db (some sample_table) none
        sample_cond_or none).1 = RC.SUCCESS ∧
      create_filter_unit sample_env sample_db (some sample_table) none sample_cond_or none
        = create_filter_unit sample_env sample_db (some sample_table) none
            sample_cond_and none ∧
      (∃ u, (create_filter_unit sample_env sample_db (some sample_table) none
          sample_cond_or none).2 = some u ∧ u.comp = EQUAL_TO) ∧
      (∀ flag : FilterUnit → Bool,
        ¬ ((∀ u, (create_filter_unit sample_env sample_db (some sample_table) none
              sample_cond_or none).2 = some u → flag u = true) ∧
          (∀ u, (create_filter_unit sample_env sample_db (some sample_table) none
              sample_cond_and none).2 = some u → flag u = false))) := by
  refine ⟨rfl, rfl, by decide, by decide, ?_, ?_⟩
  · exact create_filter_unit_records_comp sample_env sample_db (some sample_table) none
      sample_cond_or none (by decide)
  · intro flag ⟨h1, h2⟩
    obtain ⟨u, hu, _⟩ := create_filter_unit_records_comp sample_env sample_db
      (some sample_table) none sample_cond_or none (by decide)
    have e : create_filter_unit sample_env sample_db (some sample_table) none sample_cond_or none
        = create_filter_unit sample_env sample_db (some sample_table) none
            sample_cond_and none := by decide
    have t := h1 u hu
    have f := h2 u (by rw [← e]; exact hu)
    rw [t] at f
    cases f

/-- The loop of `FilterStmt::create` over conditions that all compile ends
normally, having appended the unit of each condition in order. -/
theorem create_loop_all_ok (env : Env) (db : Db) (default_table : Option Table)
    (tables : Option (List (String × Table))) (conditions : List ConditionSqlNode)
    (tmp_stmt : FilterStmt)
    (h : ∀ c ∈ conditions,
      (create_filter_unit env db default_table tables c none).1 = RC.SUCCESS) :
    FilterStmt.create_loop env db default_table tables conditions RC.SUCCESS tmp_stmt
      = Except.ok (RC.SUCCESS,
          { filter_units_ := tmp_stmt.filter_units_ ++
              conditions.map
                (fun c => (create_filter_unit env db default_table tables c none).2) }) := by
  induction conditions generalizing tmp_stmt with
  | nil => simp [FilterStmt.create_loop]
  | cons c rest ih =>
    have hc := h c (List.mem_cons_self c rest)
    have hrest : ∀ c2 ∈ rest,
        (create_filter_unit env db default_table tables c2 none).1 = RC.SUCCESS :=
      fun c2 h2 => h c2 (List.mem_cons_of_mem c h2)
    simp only [FilterStmt.create_loop, hc, ne_eq, not_true_eq_false, if_false]
    rw [ih _ hrest]
    simp

/-- The loop of `FilterStmt::create` returns at the first condition that
fails to compile, with the code of that condition, whatever follows it. -/
theorem create_loop_first_failure (env : Env) (db : Db) (default_table : Option Table)
    (tables : Option (List (String × Table))) (before after : List ConditionSqlNode)
    (c : ConditionSqlNode) (rc : RC) (tmp_stmt : FilterStmt)
    (hbefore : ∀ b ∈ before,
      (create_filter_unit env db default_table tables b none).1 = RC.SUCCESS)
    (hc : (create_filter_unit env db default_table tables c none).1 ≠ RC.SUCCESS) :
    FilterStmt.create_loop env db default_table tables (before ++ c :: after) rc tmp_stmt
      = Except.error (create_filter_unit env db default_table tables c none).1 := by
  induction before generalizing rc tmp_stmt with
  | nil => simp [FilterStmt.create_loop, hc]
  | cons b rest ih =>
    have hb := hbefore b (List.mem_cons_self b rest)
    have hrest : ∀ b2 ∈ rest,
        (create_filter_unit env db default_table tables b2 none).1 = RC.SUCCESS :=
      fun b2 h2 => hbefore b2 (List.mem_cons_of_mem b h2)
    simp only [List.cons_append, FilterStmt.create_loop, hb, ne_eq, not_true_eq_false, if_false]
    exact ih _ _ hrest

/-- C13: `FilterStmt::create` on success. When every one of the
`condition_num` conditions compiles, the call returns `SUCCESS` with a non-null
statement that holds exactly `condition_num` units, the unit at index `i` being
the non-null unit `create_filter_unit` produces for `conditions[i]`; with no
condition it returns `SUCCESS` with an empty statement. -/
theorem filter_stmt_create_success (env : Env) (db : Db) (default_table : Option Table)
    (tables : Option (List (String × Table))) (conditions : List ConditionSqlNode)
    (stmt : Option FilterStmt)
    (h : ∀ c ∈ conditions,
      (create_filter_unit env db default_table tables c none).1 = RC.SUCCESS) :
    ∃ s, FilterStmt.create env db default_table tables conditions stmt
        = (RC.SUCCESS, some s) ∧
      s.filter_units_
        = conditions.map (fun c => (create_filter_unit env db default_table tables c none).2) ∧
      s.filter_units_.length = conditions.length ∧
      (∀ i (hi : i < conditions.length),
        s.filter_units_[i]?
          = some (create_filter_unit env db default_table tables (conditions.get ⟨i, hi⟩)
              none).2 ∧
        ∃ u, s.filter_units_[i]? = some (some u)) ∧
      (conditions = [] → s.filter_units_ = []) := by
  refine ⟨FilterStmt.mk (conditions.map
      (fun c => (create_filter_unit env db default_table tables c none).2)), ?_, rfl, ?_, ?_, ?_⟩
  · simp only [FilterStmt.create]
    rw [create_loop_all_ok env db default_table tables conditions {} h]
    simp
  · simp
  · intro i hi
    have hget : (conditions.map
        (fun c => (create_filter_unit env db default_table tables c none).2))[i]?
        = some (create_filter_unit env db default_table tables (conditions.get ⟨i, hi⟩) none).2 := by
      rw [List.getElem?_map, List.getElem?_eq_getElem hi]
      rfl
    refine ⟨hget, ?_⟩
    have hok := h (conditions.get ⟨i, hi⟩) (List.get_mem conditions i hi)
    obtain ⟨_, _, u2, _, _, hres⟩ := create_filter_unit_success _ _ _ _ _ _ hok
    exact ⟨u2.set_comp (conditions.get ⟨i, hi⟩).comp, by rw [hget, hres]⟩
  · intro he
    subst he
    rfl

/-- Worked instance of C13: `a = 3 AND b = 'x'` over `t` compiles to a
statement of two units, and the empty list to the empty statement. -/
theorem filter_stmt_create_success_witness :
    (∀ c ∈ [sample_cond_and, sample_cond_b],
        (create_filter_unit sample_env sample_db (some sample_table) none c none).1
          = RC.SUCCESS) ∧
      (∃ s, FilterStmt.create sample_env sample_db (some sample_table) none
          [sample_cond_and, sample_cond_b] none = (RC.SUCCESS, some s) ∧
        s.filter_units_
          = [(create_filter_unit sample_env sample_db (some sample_table) none
                sample_cond_and none).2,
             (create_filter_unit sample_env sample_db (some sample_table) none
                sample_cond_b none).2] ∧
        s.filter_units_.length = 2) ∧
      FilterStmt.create sample_env sample_db (some sample_table) none [] none
        = (RC.SUCCESS, some { filter_units_ := [] }) :=
  have hall : ∀ c ∈ [sample_cond_and, sample_cond_b],
      (create_filter_unit sample_env sample_db (some sample_table) none c none).1
        = RC.SUCCESS := by decide
  have h := filter_stmt_create_success sample_env sample_db (some sample_table) none
    [sample_cond_and, sample_cond_b] none hall
  ⟨hall, h.elim fun s hs => ⟨s, hs.1, hs.2.1, hs.2.2.1⟩, by decide⟩

/-- C14: `FilterStmt::create` on failure. When the conditions before index `i`
compile and the condition at index `i` fails, the call returns the code of that
condition and leaves the output statement null, and the result is the same
for every sequence of conditions after index `i`: none of them is compiled. -/
theorem filter_stmt_create_failure (env : Env) (db : Db) (default_table : Option Table)
    (tables : Option (List (String × Table))) (before after : List ConditionSqlNode)
    (c : ConditionSqlNode) (stmt : Option FilterStmt)
    (hbefore : ∀ b ∈ before,
      (create_filter_unit env db default_table tables b none).1 = RC.SUCCESS)
    (hc : (create_filter_unit env db default_table tables c none).1 ≠ RC.SUCCESS) :
    FilterStmt.create env db default_table tables (before ++ c :: after) stmt
        = ((create_filter_unit env db default_table tables c none).1, none) ∧
      (∀ after2, FilterStmt.create env db default_table tables (before ++ c :: after2) stmt
        = FilterStmt.create env db default_table tables (before ++ c :: after) stmt) := by
  have hmain : ∀ rest, FilterStmt.create env db default_table tables (before ++ c :: rest) stmt
      = ((create_filter_unit env db default_table tables c none).1, none) := by
    intro rest
    simp only [FilterStmt.create]
    rw [create_loop_first_failure env db default_table tables before rest c RC.SUCCESS {}
      hbefore hc]
  exact ⟨hmain after, fun after2 => by rw [hmain after2, hmain after]⟩

/-- Worked instance of C14: in `a = 3`, `zz = 3`, `'2021-02-30' = 3` over `t`
the second condition is the first to fail; the call returns its code
`SCHEMA_FIELD_NOT_EXIST`, not the `INVALID_ARGUMENT` of the third, and a null
statement. -/
theorem filter_stmt_create_failure_witness :
    (∀ b ∈ [sample_cond_and],
        (create_filter_unit sample_env sample_db (some sample_table) none b none).1
          = RC.SUCCESS) ∧
      (create_filter_unit sample_env sample_db (some sample_table) none sample_cond_zz none).1
        ≠ RC.SUCCESS ∧
      FilterStmt.create sample_env sample_db (some sample_table) none
          ([sample_cond_and] ++ sample_cond_zz :: [sample_cond_bad_date_left]) none
        = (RC.SCHEMA_FIELD_NOT_EXIST, none) ∧
      (create_filter_unit sample_env sample_db (some sample_table) none
        sample_cond_bad_date_left none).1 = RC.INVALID_ARGUMENT :=
  have hb : ∀ b ∈ [sample_cond_and],
      (create_filter_unit sample_env sample_db (some sample_table) none b none).1
        = RC.SUCCESS := by decide
  have hc : (create_filter_unit sample_env sample_db (some sample_table) none
      sample_cond_zz none).1 ≠ RC.SUCCESS := by decide
  ⟨hb, hc,
    (filter_stmt_create_failure sample_env sample_db (some sample_table) none
      [sample_cond_and] [sample_cond_bad_date_left] sample_cond_zz none hb hc).1.trans
      (by decide),
    by decide⟩

/-- The left block on a literal: a `DATES` literal that is no valid date makes
it return `INVALID_ARGUMENT`, any other literal becomes the left operand. -/
theorem create_filter_unit_left_literal (env : Env) (db : Db) (default_table : Option Table)
    (tables : Option (List (String × Table))) (c : ConditionSqlNode) (rc : RC)
    (u : FilterUnit) (ha : c.left_is_attr = false) :
    create_filter_unit_left env db default_table tables c rc u =
      if c.left_value.attr_type = AttrType.DATES ∧ ¬ env.is_valid_date c.left_value.data then
        Except.error RC.INVALID_ARGUMENT
      else
        Except.ok (rc, u.set_left (FilterObj.value c.left_value)) := by
  unfold create_filter_unit_left
  simp only [ha, Bool.false_eq_true, if_false]

/-- The right block on a literal: a `DATES` literal that is no valid date makes
it return `INVALID_ARGUMENT`, any other literal becomes the right operand. -/
theorem create_filter_unit_right_literal (env : Env) (db : Db) (default_table : Option Table)
    (tables : Option (List (String × Table))) (c : ConditionSqlNode) (rc : RC)
    (u : FilterUnit) (ha : c.right_is_attr = false) :
    create_filter_unit_right env db default_table tables c rc u =
      if c.right_value.attr_type = AttrType.DATES ∧ ¬ env.is_valid_date c.right_value.data then
        Except.error RC.INVALID_ARGUMENT
      else
        Except.ok (rc, u.set_right (FilterObj.value c.right_value)) := by
  unfold create_filter_unit_right
  simp only [ha, Bool.false_eq_true, if_false]

/-- C15 fails as stated: in `zz = '2021-02-30'` over `t` the right side is a
`DATES` literal that is no valid date, and `create_filter_unit` returns
`SCHEMA_FIELD_NOT_EXIST`, the code of the left side, not `INVALID_ARGUMENT`. -/
theorem create_filter_unit_bad_date_not_reported :
    sample_cond_zz_bad_date.right_is_attr = false ∧
      sample_cond_zz_bad_date.right_value.attr_type = AttrType.DATES ∧
      sample_env.is_valid_date sample_cond_zz_bad_date.right_value.data = false ∧
      (create_filter_unit sample_env sample_db (some sample_table) none
        sample_cond_zz_bad_date none).1 = RC.SCHEMA_FIELD_NOT_EXIST ∧
      (create_filter_unit sample_env sample_db (some sample_table) none
        sample_cond_zz_bad_date none).1 ≠ RC.INVALID_ARGUMENT := by
  decide

/-- C15 as amended: date literal validation in `create_filter_unit`. A left
side that is a `DATES` literal with no valid date makes the call return
`INVALID_ARGUMENT`. A right side of that kind makes the call fail, with
`INVALID_ARGUMENT` when the operator is rejected or the left block completed
(a failure of the left side is returned first). When the call succeeds, a
literal side, a valid `DATES` literal among them, is the `value` operand equal
to the literal. -/
theorem create_filter_unit_date_literal (env : Env) (db : Db) (default_table : Option Table)
    (tables : Option (List (String × Table))) (c : ConditionSqlNode)
    (fu : Option FilterUnit) :
    (c.left_is_attr = false → c.left_value.attr_type = AttrType.DATES →
      env.is_valid_date c.left_value.data = false →
      (create_filter_unit env db default_table tables c fu).1 = RC.INVALID_ARGUMENT) ∧
    (c.right_is_attr = false → c.right_value.attr_type = AttrType.DATES →
      env.is_valid_date c.right_value.data = false →
      (create_filter_unit env db default_table tables c fu).1 ≠ RC.SUCCESS ∧
      ((c.comp < EQUAL_TO ∨ c.comp ≥ NO_OP) →
        (create_filter_unit env db default_table tables c fu).1 = RC.INVALID_ARGUMENT) ∧
      (∀ rc1 u1,
        create_filter_unit_left env db default_table tables c RC.SUCCESS {}
          = Except.ok (rc1, u1) →
        (create_filter_unit env db default_table tables c fu).1 = RC.INVALID_ARGUMENT)) ∧
    ((create_filter_unit env db default_table tables c fu).1 = RC.SUCCESS →
      (c.left_is_attr = false →
        (c.left_value.attr_type = AttrType.DATES →
          env.is_valid_date c.left_value.data = true) ∧
        ∃ u, (create_filter_unit env db default_table tables c fu).2 = some u ∧
          u.left = some (FilterObj.value c.left_value)) ∧
      (c.right_is_attr = false →
        (c.right_value.attr_type = AttrType.DATES →
          env.is_valid_date c.right_value.data = true) ∧
        ∃ u, (create_filter_unit env db default_table tables c fu).2 = some u ∧
          u.right = some (FilterObj.value c.right_value))) ∧
    (c.left_is_attr = false → c.left_value.attr_type = AttrType.DATES →
      env.is_valid_date c.left_value.data = true →
      ∀ rc u, create_filter_unit_left env db default_table tables c rc u
        = Except.ok (rc, u.set_left (FilterObj.value c.left_value))) ∧
    (c.right_is_attr = false → c.right_value.attr_type = AttrType.DATES →
      env.is_valid_date c.right_value.data = true →
      ∀ rc u, create_filter_unit_right env db default_table tables c rc u
        = Except.ok (rc, u.set_right (FilterObj.value c.right_value))) := by
  have hinv : (c.comp < EQUAL_TO ∨ c.comp ≥ NO_OP) →
      (create_filter_unit env db default_table tables c fu).1 = RC.INVALID_ARGUMENT := by
    intro hc
    simp only [create_filter_unit, hc, if_true]
  refine ⟨?_, ?_, ?_, ?_, ?_⟩
  · intro ha ht hv
    by_cases hc : c.comp < EQUAL_TO ∨ c.comp ≥ NO_OP
    · exact hinv hc
    · have hl := create_filter_unit_left_literal env db default_table tables c RC.SUCCESS {} ha
      rw [if_pos ⟨ht, by simp [hv]⟩] at hl
      rw [create_filter_unit_of_left_error env db default_table tables c fu _ hc hl]
  · intro ha ht hv
    have hall : ∀ rc1 u1,
        create_filter_unit_left env db default_table tables c RC.SUCCESS {}
          = Except.ok (rc1, u1) →
        (create_filter_unit env db default_table tables c fu).1 = RC.INVALID_ARGUMENT := by
      intro rc1 u1 hl
      by_cases hc : c.comp < EQUAL_TO ∨ c.comp ≥ NO_OP
      · exact hinv hc
      · have hr := create_filter_unit_right_literal env db default_table tables c rc1 u1 ha
        rw [if_pos ⟨ht, by simp [hv]⟩] at hr
        rw [create_filter_unit_of_right_error env db default_table tables c fu _ rc1 u1 hc hl hr]
    refine ⟨fun hok => ?_, hinv, hall⟩
    obtain ⟨_, u1, _, hl, _, _⟩ := create_filter_unit_success _ _ _ _ _ _ hok
    have := hall _ _ hl
    rw [hok] at this
    cases this
  · intro hok
    obtain ⟨_, u1, u2, hl, hr, hres⟩ := create_filter_unit_success _ _ _ _ _ _ hok
    constructor
    · intro ha
      rw [create_filter_unit_left_literal env db default_table tables c RC.SUCCESS {} ha] at hl
      split at hl
      · cases hl
      · rename_i hno
        injection hl with hl
        injection hl with _ hu1
        refine ⟨fun ht => ?_, u2.set_comp c.comp, by rw [hres], ?_⟩
        · by_contra hv
          exact hno ⟨ht, hv⟩
        · have hk := create_filter_unit_right_keeps_left _ _ _ _ _ _ _ _ _ hr
          show u2.left = _
          rw [hk, ← hu1]
          rfl
    · intro ha
      rw [create_filter_unit_right_literal env db default_table tables c RC.SUCCESS u1 ha] at hr
      split at hr
      · cases hr
      · rename_i hno
        injection hr with hr
        injection hr with _ hu2
        refine ⟨fun ht => ?_, u2.set_comp c.comp, by rw [hres], ?_⟩
        · by_contra hv
          exact hno ⟨ht, hv⟩
        · show u2.right = _
          rw [← hu2]
          rfl
  · intro ha ht hv rc u
    rw [create_filter_unit_left_literal env db default_table tables c rc u ha]
    rw [if_neg (by simp [hv])]
  · intro ha ht hv rc u
    rw [create_filter_unit_right_literal env db default_table tables c rc u ha]
    rw [if_neg (by simp [hv])]

/-- Worked instance of the amended C15: `'2021-02-30' = 3` and
`a = '2021-02-30'` return `INVALID_ARGUMENT`; `'2020-01-02' = '2020-01-03'`
compiles with the two literals as operands. -/
theorem create_filter_unit_date_literal_witness :
    sample_cond_bad_date_left.left_is_attr = false ∧
      sample_cond_bad_date_left.left_value.attr_type = AttrType.DATES ∧
      sample_env.is_valid_date sample_cond_bad_date_left.left_value.data = false ∧
      (create_filter_unit sample_env sample_db (some sample_table) none
        sample_cond_bad_date_left none).1 = RC.INVALID_ARGUMENT ∧
      (create_filter_unit sample_env sample_db (some sample_table) none
        sample_cond_bad_date_right none).1 = RC.INVALID_ARGUMENT ∧
      (create_filter_unit sample_env sample_db (some sample_table) none
        sample_cond_dates none).1 = RC.SUCCESS ∧
      (∃ u, (create_filter_unit sample_env sample_db (some sample_table) none
          sample_cond_dates none).2 = some u ∧
        u.left = some (FilterObj.value (Value.of_string "2020-01-02" AttrType.DATES))) ∧
      (∃ u, (create_filter_unit sample_env sample_db (some sample_table) none
          sample_cond_dates none).2 = some u ∧
        u.right = some (FilterObj.value (Value.of_string "2020-01-03" AttrType.DATES))) :=
  have hl := create_filter_unit_date_literal sample_env sample_db (some sample_table) none
    sample_cond_bad_date_left none
  have hr := create_filter_unit_date_literal sample_env sample_db (some sample_table) none
    sample_cond_bad_date_right none
  have hd := create_filter_unit_date_literal sample_env sample_db (some sample_table) none
    sample_cond_dates none
  ⟨rfl, rfl, by decide, hl.1 rfl rfl (by decide),
    (hr.2.1 rfl rfl (by decide)).2.2 RC.SUCCESS
      (FilterUnit.set_left {} (FilterObj.attr
        (Field.mk (some sample_table) (sample_table.table_meta.field "a")))) rfl,
    by decide, ((hd.2.2.1 (by decide)).1 rfl).2, ((hd.2.2.1 (by decide)).2 rfl).2⟩

/-- For a function tag that is none of `LENGTH`, `ROUND` and `DATE_FORMAT`,
`function_calc` takes its `default:` branch. -/
theorem function_calc_default (env : Env) (attr : RelAttrSqlNode) (value : Value)
    (h1 : attr.func ≠ FuncOp.LENGTH_FUNC) (h2 : attr.func ≠ FuncOp.ROUND_FUNC)
    (h3 : attr.func ≠ FuncOp.FORMAT_FUNC) :
    function_calc env attr value = (RC.UNIMPLENMENT, value) := by
  unfold function_calc
  split
  · rename_i h; exact absurd h h1
  · rename_i h; exact absurd h h2
  · rename_i h; exact absurd h h3
  · rfl

/-- The left block on a reference with a function tag that is not wired:
`UNIMPLENMENT` when the attribute name is empty or the lookup succeeds, and
the code of the lookup otherwise. -/
theorem create_filter_unit_left_unwired (env : Env) (db : Db) (default_table : Option Table)
    (tables : Option (List (String × Table))) (c : ConditionSqlNode) (rc : RC)
    (u : FilterUnit) (ha : c.left_is_attr = true)
    (h0 : c.left_attr.func ≠ FuncOp.NO_FUNC)
    (h1 : c.left_attr.func ≠ FuncOp.LENGTH_FUNC) (h2 : c.left_attr.func ≠ FuncOp.ROUND_FUNC)
    (h3 : c.left_attr.func ≠ FuncOp.FORMAT_FUNC) :
    create_filter_unit_left env db default_table tables c rc u =
      if c.left_attr.attribute_name.isEmpty = true ∨
          (get_table_and_field env db default_table tables c.left_attr none none).1
            = RC.SUCCESS then
        Except.error RC.UNIMPLENMENT
      else
        Except.error (get_table_and_field env db default_table tables c.left_attr none none).1
    := by
  by_cases he : c.left_attr.attribute_name.isEmpty = true
  · rw [create_filter_unit_left_fold env db default_table tables c rc u ha h0 he,
      function_calc_default env c.left_attr {} h1 h2 h3]
    simp [he]
  · have hfold : ¬ (c.left_attr.func ≠ FuncOp.NO_FUNC ∧
        c.left_attr.attribute_name.isEmpty = true) := fun h => he h.2
    by_cases hrc : (get_table_and_field env db default_table tables c.left_attr none none).1
        = RC.SUCCESS
    · rw [if_pos (Or.inr hrc)]
      unfold create_filter_unit_left
      rw [if_pos ha, if_neg hfold]
      simp only [hrc, ne_eq, not_true_eq_false, if_false]
      rw [if_pos h0]
    · rw [if_neg (by simp [he, hrc])]
      exact create_filter_unit_left_column_error env db default_table tables c rc u ha hfold hrc

/-- The right block on a reference with a function tag that is not wired:
`UNIMPLENMENT` when the attribute name is empty or the lookup succeeds, and
the code of the lookup otherwise. -/
theorem create_filter_unit_right_unwired (env : Env) (db : Db) (default_table : Option Table)
    (tables : Option (List (String × Table))) (c : ConditionSqlNode) (rc : RC)
    (u : FilterUnit) (ha : c.right_is_attr = true)
    (h0 : c.right_attr.func ≠ FuncOp.NO_FUNC)
    (h1 : c.right_attr.func ≠ FuncOp.LENGTH_FUNC) (h2 : c.right_attr.func ≠ FuncOp.ROUND_FUNC)
    (h3 : c.right_attr.func ≠ FuncOp.FORMAT_FUNC) :
    create_filter_unit_right env db default_table tables c rc u =
      if c.right_attr.attribute_name.isEmpty = true ∨
          (get_table_and_field env db default_table tables c.right_attr none none).1
            = RC.SUCCESS then
        Except.error RC.UNIMPLENMENT
      else
        Except.error (get_table_and_field env db default_table tables c.right_attr none none).1
    := by
  by_cases he : c.right_attr.attribute_name.isEmpty = true
  · rw [create_filter_unit_right_fold env db default_table tables c rc u ha h0 he,
      function_calc_default env c.right_attr {} h1 h2 h3]
    simp [he]
  · have hfold : ¬ (c.right_attr.func ≠ FuncOp.NO_FUNC ∧
        c.right_attr.attribute_name.isEmpty = true) := fun h => he h.2
    by_cases hrc : (get_table_and_field env db default_table tables c.right_attr none none).1
        = RC.SUCCESS
    · rw [if_pos (Or.inr hrc)]
      unfold create_filter_unit_right
      rw [if_pos ha, if_neg hfold]
      simp only [hrc, ne_eq, not_true_eq_false, if_false]
      rw [if_pos h0]
    · rw [if_neg (by simp [he, hrc])]
      exact create_filter_unit_right_column_error env db default_table tables c rc u ha hfold hrc

/-- C20 fails as stated: for a function tag that is not wired,
`create_filter_unit` over `t` returns `SCHEMA_FIELD_NOT_EXIST` for the reference
`f(zz)` to a column `t` does not have, and `INVALID_ARGUMENT` for
`'2021-02-30' = f(a)`, where the column `a` exists: in neither case
`UNIMPLENMENT`. -/
theorem create_filter_unit_unwired_not_reported :
    sample_cond_other_func_zz.left_is_attr = true ∧
      sample_cond_other_func_zz.left_attr.func = FuncOp.OTHER_FUNC 7 ∧
      (create_filter_unit sample_env sample_db (some sample_table) none
        sample_cond_other_func_zz none).1 = RC.SCHEMA_FIELD_NOT_EXIST ∧
      sample_cond_bad_date_other_func.right_is_attr = true ∧
      sample_cond_bad_date_other_func.right_attr.func = FuncOp.OTHER_FUNC 7 ∧
      (get_table_and_field sample_env sample_db (some sample_table) none
        sample_cond_bad_date_other_func.right_attr none none).1 = RC.SUCCESS ∧
      (create_filter_unit sample_env sample_db (some sample_table) none
        sample_cond_bad_date_other_func none).1 = RC.INVALID_ARGUMENT := by
  decide

/-- C20 as amended: unwired function paths. For a function tag that is none of
`LENGTH`, `ROUND` and `DATE_FORMAT`, `function_calc` returns `UNIMPLENMENT` and
leaves the output value as it was. With an accepted operator, a reference
carrying a tag that is none of these and not `NO_FUNC` makes
`create_filter_unit` fail: with `UNIMPLENMENT` when its attribute name is empty
or `get_table_and_field` resolves it, and with the code of
`get_table_and_field` when that fails, the lookup coming first; for the right
side these are the codes when the left block completed. -/
theorem unwired_function_paths (env : Env) (db : Db) (default_table : Option Table)
    (tables : Option (List (String × Table))) (c : ConditionSqlNode)
    (fu : Option FilterUnit) :
    (∀ attr value, attr.func ≠ FuncOp.LENGTH_FUNC → attr.func ≠ FuncOp.ROUND_FUNC →
      attr.func ≠ FuncOp.FORMAT_FUNC →
      function_calc env attr value = (RC.UNIMPLENMENT, value)) ∧
    (¬ (c.comp < EQUAL_TO ∨ c.comp ≥ NO_OP) → c.left_is_attr = true →
      c.left_attr.func ≠ FuncOp.NO_FUNC → c.left_attr.func ≠ FuncOp.LENGTH_FUNC →
      c.left_attr.func ≠ FuncOp.ROUND_FUNC → c.left_attr.func ≠ FuncOp.FORMAT_FUNC →
      (create_filter_unit env db default_table tables c fu).1 ≠ RC.SUCCESS ∧
      (c.left_attr.attribute_name.isEmpty = true ∨
          (get_table_and_field env db default_table tables c.left_attr none none).1
            = RC.SUCCESS →
        (create_filter_unit env db default_table tables c fu).1 = RC.UNIMPLENMENT) ∧
      (¬ (c.left_attr.attribute_name.isEmpty = true ∨
          (get_table_and_field env db default_table tables c.left_attr none none).1
            = RC.SUCCESS) →
        (create_filter_unit env db default_table tables c fu).1
          = (get_table_and_field env db default_table tables c.left_attr none none).1)) ∧
    (¬ (c.comp < EQUAL_TO ∨ c.comp ≥ NO_OP) → c.right_is_attr = true →
      c.right_attr.func ≠ FuncOp.NO_FUNC → c.right_attr.func ≠ FuncOp.LENGTH_FUNC →
      c.right_attr.func ≠ FuncOp.ROUND_FUNC → c.right_attr.func ≠ FuncOp.FORMAT_FUNC →
      (create_filter_unit env db default_table tables c fu).1 ≠ RC.SUCCESS ∧
      (∀ rc1 u1,
        create_filter_unit_left env db default_table tables c RC.SUCCESS {}
          = Except.ok (rc1, u1) →
        (c.right_attr.attribute_name.isEmpty = true ∨
            (get_table_and_field env db default_table tables c.right_attr none none).1
              = RC.SUCCESS →
          (create_filter_unit env db default_table tables c fu).1 = RC.UNIMPLENMENT) ∧
        (¬ (c.right_attr.attribute_name.isEmpty = true ∨
            (get_table_and_field env db default_table tables c.right_attr none none).1
              = RC.SUCCESS) →
          (create_filter_unit env db default_table tables c fu).1
            = (get_table_and_field env db default_table tables c.right_attr none none).1)))
    := by
  refine ⟨fun attr value h1 h2 h3 => function_calc_default env attr value h1 h2 h3, ?_, ?_⟩
  · intro hc ha h0 h1 h2 h3
    have hl := create_filter_unit_left_unwired env db default_table tables c RC.SUCCESS {} ha
      h0 h1 h2 h3
    have hU : (c.left_attr.attribute_name.isEmpty = true ∨
          (get_table_and_field env db default_table tables c.left_attr none none).1
            = RC.SUCCESS) →
        (create_filter_unit env db default_table tables c fu).1 = RC.UNIMPLENMENT := by
      intro h
      rw [if_pos h] at hl
      rw [create_filter_unit_of_left_error env db default_table tables c fu _ hc hl]
    have hL : ¬ (c.left_attr.attribute_name.isEmpty = true ∨
          (get_table_and_field env db default_table tables c.left_attr none none).1
            = RC.SUCCESS) →
        (create_filter_unit env db default_table tables c fu).1
          = (get_table_and_field env db default_table tables c.left_attr none none).1 := by
      intro h
      rw [if_neg h] at hl
      rw [create_filter_unit_of_left_error env db default_table tables c fu _ hc hl]
    refine ⟨fun hok => ?_, hU, hL⟩
    by_cases h : c.left_attr.attribute_name.isEmpty = true ∨
        (get_table_and_field env db default_table tables c.left_attr none none).1 = RC.SUCCESS
    · have := hU h
      rw [hok] at this
      cases this
    · have := hL h
      rw [hok] at this
      exact h (Or.inr this.symm)
  · intro hc ha h0 h1 h2 h3
    have hall : ∀ rc1 u1,
        create_filter_unit_left env db default_table tables c RC.SUCCESS {}
          = Except.ok (rc1, u1) →
        (c.right_attr.attribute_name.isEmpty = true ∨
            (get_table_and_field env db default_table tables c.right_attr none none).1
              = RC.SUCCESS →
          (create_filter_unit env db default_table tables c fu).1 = RC.UNIMPLENMENT) ∧
        (¬ (c.right_attr.attribute_name.isEmpty = true ∨
            (get_table_and_field env db default_table tables c.right_attr none none).1
              = RC.SUCCESS) →
          (create_filter_unit env db default_table tables c fu).1
            = (get_table_and_field env db default_table tables c.right_attr none none).1) := by
      intro rc1 u1 hl
      have hr := create_filter_unit_right_unwired env db default_table tables c rc1 u1 ha
        h0 h1 h2 h3
      constructor
      · intro h
        rw [if_pos h] at hr
        rw [create_filter_unit_of_right_error env db default_table tables c fu _ rc1 u1 hc hl hr]
      · intro h
        rw [if_neg h] at hr
        rw [create_filter_unit_of_right_error env db default_table tables c fu _ rc1 u1 hc hl hr]
    refine ⟨fun hok => ?_, hall⟩
    obtain ⟨_, u1, _, hl, _, _⟩ := create_filter_unit_success _ _ _ _ _ _ hok
    obtain ⟨hU, hL⟩ := hall _ _ hl
    by_cases h : c.right_attr.attribute_name.isEmpty = true ∨
        (get_table_and_field env db default_table tables c.right_attr none none).1 = RC.SUCCESS
    · have := hU h
      rw [hok] at this
      cases this
    · have := hL h
      rw [hok] at this
      exact h (Or.inr this.symm)

/-- Worked instance of the amended C20: `function_calc` on the reference `a`
with an unwired tag returns `UNIMPLENMENT` and keeps the value 5; `f(a) = 3`
over `t`, where `a` resolves, returns `UNIMPLENMENT`, and `f(zz) = 3` the code
`SCHEMA_FIELD_NOT_EXIST` of the lookup. -/
theorem unwired_function_paths_witness :
    function_calc sample_env sample_attr_other_func (Value.of_int 5)
        = (RC.UNIMPLENMENT, Value.of_int 5) ∧
      ¬ (sample_cond_other_func.comp < EQUAL_TO ∨ sample_cond_other_func.comp ≥ NO_OP) ∧
      sample_cond_other_func.left_is_attr = true ∧
      (get_table_and_field sample_env sample_db (some sample_table) none
        sample_cond_other_func.left_attr none none).1 = RC.SUCCESS ∧
      (create_filter_unit sample_env sample_db (some sample_table) none
        sample_cond_other_func none).1 = RC.UNIMPLENMENT ∧
      (create_filter_unit sample_env sample_db (some sample_table) none
        sample_cond_other_func_zz none).1 = RC.SCHEMA_FIELD_NOT_EXIST :=
  have h := unwired_function_paths sample_env sample_db (some sample_table) none
    sample_cond_other_func none
  have hz := unwired_function_paths sample_env sample_db (some sample_table) none
    sample_cond_other_func_zz none
  ⟨h.1 _ _ (by decide) (by decide) (by decide), by decide, rfl, by decide,
    (h.2.1 (by decide) rfl (by decide) (by decide) (by decide) (by decide)).2.1
      (Or.inr (by decide)),
    ((hz.2.1 (by decide) rfl (by decide) (by decide) (by decide) (by decide)).2.2
      (by decide)).trans (by decide)⟩

/-- A key is found in the map exactly when it is among its keys. -/
theorem map_find_eq_none (m : List (String × String)) (k : String) :
    map_find m k = none ↔ k ∉ m.map Prod.fst := by
  unfold map_find
  rw [List.lookup_eq_none_iff]
  constructor
  · intro h hk
    obtain ⟨p, hp, hpk⟩ := List.mem_map.mp hk
    have := h p hp
    rw [hpk] at this
    simp at this
  · intro h p hp
    have : p.1 ≠ k := fun e => h (List.mem_map.mpr ⟨p, hp, e⟩)
    simp only [bne_iff_ne, ne_eq]
    exact fun e => this e.symm

/-- Assigning to a key the map does not hold adds the pair. -/
theorem map_assign_absent (m : List (String × String)) (k v : String)
    (h : map_find m k = none) : map_assign m k v = (k, v) :: m := by
  unfold map_find at h
  simp [map_assign, h]

/-- Inserting a key the map does not hold adds the pair. -/
theorem map_insert_absent (m : List (String × String)) (k v : String)
    (h : map_find m k = none) : map_insert m k v = (k, v) :: m := by
  unfold map_find at h
  simp [map_insert, h]

/-- The empty map agrees with the empty sequence of entries, whatever the
flag. -/
theorem alias_map_agrees_nil (flag : Bool) : alias_map_agrees [] flag [] := by
  unfold alias_map_agrees
  simp

/-- An entry written without an alias leaves the agreement of the map and the
flag as it is. -/
theorem alias_map_agrees_no_alias (m : List (String × String)) (flag : Bool)
    (entries : List (String × Option String)) (id : String)
    (h : alias_map_agrees m flag entries) :
    alias_map_agrees m flag ((id, none) :: entries) := by
  obtain ⟨h1, h2, h3, h4, h5⟩ := h
  refine ⟨h1, ?_, ?_, ?_, ?_⟩
  · intro a
    rw [h2 a]
    simp
  · intro a t hat
    exact List.mem_cons_of_mem _ (h3 a t hat)
  · intro hn a t hat
    have hn2 : (entries.filterMap Prod.snd).Nodup := by simpa using hn
    rcases List.mem_cons.mp hat with he | he
    · cases he
    · exact h4 hn2 a t he
  · intro hn
    exact h5 (by simpa using hn)

/-- An entry written with an alias the map does not hold: adding the pair
keeps the agreement. -/
theorem alias_map_agrees_new_alias (m : List (String × String)) (flag : Bool)
    (entries : List (String × Option String)) (id x : String)
    (h : alias_map_agrees m flag entries) (hx : map_find m x = none) :
    alias_map_agrees ((x, id) :: m) flag ((id, some x) :: entries) := by
  obtain ⟨h1, h2, h3, h4, h5⟩ := h
  have hxk : x ∉ m.map Prod.fst := (map_find_eq_none m x).mp hx
  have hxa : x ∉ entries.filterMap Prod.snd := fun hmem => hxk ((h2 x).mpr hmem)
  have hfm : ((id, some x) :: entries).filterMap Prod.snd
      = x :: entries.filterMap Prod.snd := by simp
  refine ⟨?_, ?_, ?_, ?_, ?_⟩
  · simp only [List.map_cons]
    exact List.nodup_cons.mpr ⟨hxk, h1⟩
  · intro a
    rw [hfm]
    simp only [List.map_cons, List.mem_cons]
    rw [h2 a]
  · intro a t hat
    rcases List.mem_cons.mp hat with he | he
    · injection he with e1 e2
      subst e1 e2
      exact List.mem_cons_self _ _
    · exact List.mem_cons_of_mem _ (h3 a t he)
  · intro hn a t hat
    rw [hfm] at hn
    have hn2 := (List.nodup_cons.mp hn).2
    rcases List.mem_cons.mp hat with he | he
    · injection he with e1 e2
      injection e2 with e2
      subst e1 e2
      exact List.mem_cons_self _ _
    · exact List.mem_cons_of_mem _ (h4 hn2 a t he)
  · intro hn
    rw [hfm] at hn
    apply h5
    intro hn2
    exact hn (List.nodup_cons.mpr ⟨hxa, hn2⟩)

/-- An entry written with an alias the map holds already: the map is kept, the
flag is cleared, and they agree with the longer sequence. -/
theorem alias_map_agrees_collision (m : List (String × String)) (flag : Bool)
    (entries : List (String × Option String)) (id x : String)
    (h : alias_map_agrees m flag entries) (hx : map_find m x ≠ none) :
    alias_map_agrees m false ((id, some x) :: entries) := by
  obtain ⟨h1, h2, h3, h4, _⟩ := h
  have hxk : x ∈ m.map Prod.fst := by
    by_contra hc
    exact hx ((map_find_eq_none m x).mpr hc)
  have hxa : x ∈ entries.filterMap Prod.snd := (h2 x).mp hxk
  have hfm : ((id, some x) :: entries).filterMap Prod.snd
      = x :: entries.filterMap Prod.snd := by simp
  refine ⟨h1, ?_, ?_, ?_, fun _ => rfl⟩
  · intro a
    rw [hfm, h2 a]
    constructor
    · exact fun ha => List.mem_cons_of_mem _ ha
    · intro ha
      rcases List.mem_cons.mp ha with he | he
      · rw [he]; exact hxa
      · exact he
  · intro a t hat
    exact List.mem_cons_of_mem _ (h3 a t hat)
  · intro hn
    rw [hfm] at hn
    exact absurd hxa (List.nodup_cons.mp hn).1

/-- The node of a derivation by the rule `COMMA ID as rel_list`, from the node
of the inner `rel_list`. -/
theorem rel_list_node_comma (init : Bool) (id : String) (a : AsRule) (rest : RelList) :
    rel_list_node init (RelList.comma id a rest) =
      match as_action a with
      | some x =>
        if map_find (rel_list_node init rest).alias_map x = none then
          { relations := (rel_list_node init rest).relations ++ [id],
            conditions := (rel_list_node init rest).conditions,
            alias_map := map_assign (rel_list_node init rest).alias_map x id,
            is_alias_right := (rel_list_node init rest).is_alias_right }
        else
          { relations := (rel_list_node init rest).relations ++ [id],
            conditions := (rel_list_node init rest).conditions,
            alias_map := (rel_list_node init rest).alias_map,
            is_alias_right := false }
      | none =>
        { relations := (rel_list_node init rest).relations ++ [id],
          conditions := (rel_list_node init rest).conditions,
          alias_map := (rel_list_node init rest).alias_map,
          is_alias_right := (rel_list_node init rest).is_alias_right } := by
  cases ha : as_action a with
  | none => simp [rel_list_node, rel_list_action, ha]
  | some x =>
    by_cases hx : map_find (rel_list_node init rest).alias_map x = none
    · have hx2 := hx
      simp only [rel_list_node] at hx2
      simp [rel_list_node, rel_list_action, ha, hx2]
    · have hx2 := hx
      simp only [rel_list_node] at hx2
      simp [rel_list_node, rel_list_action, ha, hx2]

/-- The node of a derivation by the rule `INNER JOIN ID as on rel_list`, from
the node of the inner `rel_list`. -/
theorem rel_list_node_inner_join (init : Bool) (id : String) (a : AsRule)
    (on_list : Option (List ConditionSqlNode)) (rest : RelList) :
    rel_list_node init (RelList.inner_join id a on_list rest) =
      match as_action a with
      | some x =>
        if map_find (rel_list_node init rest).alias_map x = none then
          { relations := (rel_list_node init rest).relations ++ [id],
            conditions := (rel_list_node init rest).conditions ++ on_list.getD [],
            alias_map := map_assign (rel_list_node init rest).alias_map x id,
            is_alias_right := (rel_list_node init rest).is_alias_right }
        else
          { relations := (rel_list_node init rest).relations ++ [id],
            conditions := (rel_list_node init rest).conditions ++ on_list.getD [],
            alias_map := (rel_list_node init rest).alias_map,
            is_alias_right := false }
      | none =>
        { relations := (rel_list_node init rest).relations ++ [id],
          conditions := (rel_list_node init rest).conditions ++ on_list.getD [],
          alias_map := (rel_list_node init rest).alias_map,
          is_alias_right := (rel_list_node init rest).is_alias_right } := by
  cases ha : as_action a with
  | none => cases on_list <;> simp [rel_list_node, rel_list_action, ha]
  | some x =>
    by_cases hx : map_find (rel_list_node init rest).alias_map x = none
    · have hx2 := hx
      simp only [rel_list_node] at hx2
      cases on_list <;> simp [rel_list_node, rel_list_action, ha, hx2]
    · have hx2 := hx
      simp only [rel_list_node] at hx2
      cases on_list <;> simp [rel_list_node, rel_list_action, ha, hx2]

/-- The alias statement of the `rel_list` and `select_stmt` actions keeps the
agreement of the map and the flag with the entries: whatever the alias of the
new entry, the map and the flag the statement leaves agree with the sequence
extended by the entry. -/
theorem alias_map_agrees_step (m : List (String × String)) (flag : Bool)
    (entries : List (String × Option String)) (id : String) (a : Option String)
    (h : alias_map_agrees m flag entries) :
    alias_map_agrees
      (match a with
        | some x => if map_find m x = none then (x, id) :: m else m
        | none => m)
      (match a with
        | some x => if map_find m x = none then flag else false
        | none => flag)
      ((id, a) :: entries) := by
  cases a with
  | none => exact alias_map_agrees_no_alias m flag entries id h
  | some x =>
    by_cases hx : map_find m x = none
    · simp only [hx, if_true]
      exact alias_map_agrees_new_alias m flag entries id x h hx
    · simp only [hx, if_false]
      exact alias_map_agrees_collision m flag entries id x h hx

/-- The node of a derivation of `rel_list` lists the tables in the reverse of
the order written, and its alias map and flag agree with the entries
written. -/
theorem rel_list_node_spec (init : Bool) (rel_list : RelList) :
    (rel_list_node init rel_list).relations = (rel_list.entries.map Prod.fst).reverse ∧
      alias_map_agrees (rel_list_node init rel_list).alias_map
        (rel_list_node init rel_list).is_alias_right rel_list.entries := by
  induction rel_list with
  | empty =>
    exact ⟨rfl, alias_map_agrees_nil init⟩
  | comma id a rest ih =>
    obtain ⟨ih1, ih2⟩ := ih
    have hstep := alias_map_agrees_step _ _ _ id (as_action a) ih2
    rw [rel_list_node_comma]
    cases ha : as_action a with
    | none =>
      rw [ha] at hstep
      simp only [RelList.entries, ha, List.map_cons, List.reverse_cons, ih1]
      exact ⟨trivial, hstep⟩
    | some x =>
      rw [ha] at hstep
      by_cases hx : map_find (rel_list_node init rest).alias_map x = none
      · simp only [hx, if_true, map_assign_absent _ x id hx] at hstep ⊢
        simp only [RelList.entries, ha, List.map_cons, List.reverse_cons, ih1]
        exact ⟨trivial, hstep⟩
      · simp only [hx, if_false] at hstep ⊢
        simp only [RelList.entries, ha, List.map_cons, List.reverse_cons, ih1]
        exact ⟨trivial, hstep⟩
  | inner_join id a on_list rest ih =>
    obtain ⟨ih1, ih2⟩ := ih
    have hstep := alias_map_agrees_step _ _ _ id (as_action a) ih2
    rw [rel_list_node_inner_join]
    cases ha : as_action a with
    | none =>
      rw [ha] at hstep
      simp only [RelList.entries, ha, List.map_cons, List.reverse_cons, ih1]
      exact ⟨trivial, hstep⟩
    | some x =>
      rw [ha] at hstep
      by_cases hx : map_find (rel_list_node init rest).alias_map x = none
      · simp only [hx, if_true, map_assign_absent _ x id hx] at hstep ⊢
        simp only [RelList.entries, ha, List.map_cons, List.reverse_cons, ih1]
        exact ⟨trivial, hstep⟩
      · simp only [hx, if_false] at hstep ⊢
        simp only [RelList.entries, ha, List.map_cons, List.reverse_cons, ih1]
        exact ⟨trivial, hstep⟩

/-- Inserting the pairs of a map with distinct keys into a map with distinct
keys that shares no key with it gives a map with distinct keys that holds the
pairs of both. -/
theorem map_insert_range_spec (src acc : List (String × String))
    (hacc : (acc.map Prod.fst).Nodup) (hsrc : (src.map Prod.fst).Nodup)
    (hdis : ∀ k ∈ src.map Prod.fst, k ∉ acc.map Prod.fst) :
    ((map_insert_range acc src).map Prod.fst).Nodup ∧
      ∀ p, p ∈ map_insert_range acc src ↔ p ∈ acc ∨ p ∈ src := by
  induction src generalizing acc with
  | nil => simp [map_insert_range, hacc]
  | cons q rest ih =>
    have hq : q.1 ∉ acc.map Prod.fst := hdis q.1 (by simp)
    have hins : map_insert acc q.1 q.2 = q :: acc :=
      map_insert_absent acc q.1 q.2 ((map_find_eq_none acc q.1).mpr hq)
    have hrest : (rest.map Prod.fst).Nodup := by
      simp only [List.map_cons] at hsrc
      exact (List.nodup_cons.mp hsrc).2
    have hqrest : q.1 ∉ rest.map Prod.fst := by
      simp only [List.map_cons] at hsrc
      exact (List.nodup_cons.mp hsrc).1
    have hacc2 : ((q :: acc).map Prod.fst).Nodup := by
      simp only [List.map_cons]
      exact List.nodup_cons.mpr ⟨hq, hacc⟩
    have hdis2 : ∀ k ∈ rest.map Prod.fst, k ∉ (q :: acc).map Prod.fst := by
      intro k hk hmem
      simp only [List.map_cons, List.mem_cons] at hmem
      rcases hmem with e | hmem
      · rw [e] at hk
        exact hqrest hk
      · exact hdis k (by simp only [List.map_cons, List.mem_cons]; exact Or.inr hk) hmem
    have h := ih (q :: acc) hacc2 hrest hdis2
    have hfold : map_insert_range acc (q :: rest) = map_insert_range (q :: acc) rest := by
      simp only [map_insert_range, List.foldl_cons, hins]
    rw [hfold]
    refine ⟨h.1, fun p => ?_⟩
    rw [h.2 p]
    simp only [List.mem_cons]
    tauto

/-- The agreement with the entries is a matter of the pairs a map holds: a
map with distinct keys and the same pairs agrees as well. -/
theorem alias_map_agrees_of_same_pairs (m m2 : List (String × String)) (flag : Bool)
    (entries : List (String × Option String))
    (hn : (m2.map Prod.fst).Nodup) (hp : ∀ p, p ∈ m2 ↔ p ∈ m)
    (h : alias_map_agrees m flag entries) : alias_map_agrees m2 flag entries := by
  obtain ⟨_, h2, h3, h4, h5⟩ := h
  have hk : ∀ a, a ∈ m2.map Prod.fst ↔ a ∈ m.map Prod.fst := by
    intro a
    simp only [List.mem_map]
    constructor
    · rintro ⟨p, hp1, hp2⟩
      exact ⟨p, (hp p).mp hp1, hp2⟩
    · rintro ⟨p, hp1, hp2⟩
      exact ⟨p, (hp p).mpr hp1, hp2⟩
  refine ⟨hn, fun a => (hk a).trans (h2 a), fun a t hat => h3 a t ((hp _).mp hat),
    fun hnd a t hat => (hp _).mpr (h4 hnd a t hat), h5⟩

/-- The value of `rel_list` is a null pointer for the empty derivation and the
node of the derivation otherwise. -/
theorem rel_list_action_cases (init : Bool) (rel_list : RelList) :
    (rel_list = RelList.empty ∧ rel_list_action init rel_list = none) ∨
      rel_list_action init rel_list = some (rel_list_node init rel_list) := by
  cases rel_list with
  | empty => exact Or.inl ⟨rfl, rfl⟩
  | comma id a rest =>
    right
    simp only [rel_list_node, rel_list_action]
  | inner_join id a on_list rest =>
    right
    simp only [rel_list_node, rel_list_action]

/-- The members the `select_stmt` action leaves in `selection`, from the
semantic value of `rel_list`. -/
theorem select_stmt_from_action_members (id : String) (a : Option String)
    (r : Option InnerJoinSqlNode) (w : Option (List ConditionSqlNode)) :
    (select_stmt_from_action id a r w).relations
        = ((match r with | some l => l.relations | none => []) ++ [id]).reverse ∧
      (select_stmt_from_action id a r w).alias_map
        = (match a with
            | some x =>
              if map_find (match r with
                  | some l => map_insert_range [] l.alias_map | none => []) x = none then
                (x, id) :: (match r with
                  | some l => map_insert_range [] l.alias_map | none => [])
              else
                (match r with | some l => map_insert_range [] l.alias_map | none => [])
            | none => (match r with | some l => map_insert_range [] l.alias_map | none => [])) ∧
      (select_stmt_from_action id a r w).is_alias_right
        = (match a with
            | some x =>
              if map_find (match r with
                  | some l => map_insert_range [] l.alias_map | none => []) x = none then
                (match r with | some l => l.is_alias_right | none => true)
              else false
            | none => (match r with | some l => l.is_alias_right | none => true)) := by
  cases r with
  | none =>
    cases a with
    | none => cases w <;> simp [select_stmt_from_action]
    | some x =>
      have hx : map_find [] x = none := rfl
      cases w <;> simp [select_stmt_from_action, hx, map_insert_absent]
  | some l =>
    cases a with
    | none => cases w <;> simp [select_stmt_from_action]
    | some x =>
      by_cases hx : map_find (map_insert_range [] l.alias_map) x = none
      · cases w <;> simp [select_stmt_from_action, hx, map_insert_absent]
      · cases w <;> simp [select_stmt_from_action, hx]

/-- The `selection` of a `FROM` list: its relations are the tables in the
order written, and its alias map and flag agree with the entries written. -/
theorem parse_select_from_spec (init : Bool) (id : String) (a : AsRule)
    (rel_list : RelList) (w : Option (List ConditionSqlNode)) :
    (parse_select_from init id a rel_list w).relations
        = (from_entries id a rel_list).map Prod.fst ∧
      alias_map_agrees (parse_select_from init id a rel_list w).alias_map
        (parse_select_from init id a rel_list w).is_alias_right
        (from_entries id a rel_list) := by
  obtain ⟨hrel, hmap, hflag⟩ := select_stmt_from_action_members id (as_action a)
    (rel_list_action init rel_list) w
  obtain ⟨hn1, hn2⟩ := rel_list_node_spec init rel_list
  unfold parse_select_from from_entries
  rw [hrel, hmap, hflag]
  rcases rel_list_action_cases init rel_list with ⟨he, hr⟩ | hr
  · subst he
    rw [hr]
    refine ⟨by simp [RelList.entries], ?_⟩
    exact alias_map_agrees_step [] true [] id (as_action a) (alias_map_agrees_nil true)
  · rw [hr]
    refine ⟨by simp [hn1], ?_⟩
    have hrange := map_insert_range_spec (rel_list_node init rel_list).alias_map []
      (by simp) hn2.1 (by simp)
    have hagree := alias_map_agrees_of_same_pairs _ _ _ _ hrange.1
      (fun p => by rw [hrange.2 p]; simp) hn2
    exact alias_map_agrees_step _ _ _ id (as_action a) hagree

/-- In a map with distinct keys, a pair the map holds is what `find` returns
for its key. -/
theorem map_find_of_mem (m : List (String × String)) (k v : String)
    (hn : (m.map Prod.fst).Nodup) (h : (k, v) ∈ m) : map_find m k = some v := by
  induction m with
  | nil => cases h
  | cons p rest ih =>
    simp only [List.map_cons] at hn
    obtain ⟨hp, hrest⟩ := List.nodup_cons.mp hn
    rcases List.mem_cons.mp h with e | hmem
    · rw [← e]
      simp [map_find]
    · have hne : k ≠ p.1 := by
        intro e
        apply hp
        rw [← e]
        exact List.mem_map.mpr ⟨(k, v), hmem, rfl⟩
      have := ih hrest hmem
      unfold map_find at this ⊢
      obtain ⟨p1, p2⟩ := p
      rw [List.lookup_cons]
      have hb : (k == p1) = false := by simpa using hne
      simp [hb, this]

/-- C17: alias collision. When the `FROM` list of a `SELECT` (first table,
tables after a comma and `INNER JOIN` tables) gives the same alias to two table
entries, the parsed `selection` has `is_alias_right` false, and the alias map
holds a single pair for every alias written, the colliding one included. -/
theorem from_alias_collision (new_is_alias_right : Bool) (id : String) (as_rule : AsRule)
    (rel_list : RelList) (where_list : Option (List ConditionSqlNode))
    (h : ¬ (from_aliases id as_rule rel_list).Nodup) :
    (parse_select_from new_is_alias_right id as_rule rel_list where_list).is_alias_right
        = false ∧
      ∀ x ∈ from_aliases id as_rule rel_list,
        List.count x
          ((parse_select_from new_is_alias_right id as_rule rel_list
            where_list).alias_map.map Prod.fst) = 1 := by
  obtain ⟨_, h1, h2, _, _, h5⟩ :=
    parse_select_from_spec new_is_alias_right id as_rule rel_list where_list
  refine ⟨h5 h, fun x hx => ?_⟩
  exact List.count_eq_one_of_mem h1 ((h2 x).mpr hx)

/-- Worked instance of C17: in `FROM u AS x INNER JOIN v x, w y` the alias `x`
is written twice; `is_alias_right` is false and the map has one pair for
`x`. -/
theorem from_alias_collision_witness :
    ¬ (from_aliases "u" (AsRule.AS_ID "x") sample_rel_list_collision).Nodup ∧
      (parse_select_from true "u" (AsRule.AS_ID "x") sample_rel_list_collision
        none).is_alias_right = false ∧
      List.count "x"
        ((parse_select_from true "u" (AsRule.AS_ID "x") sample_rel_list_collision
          none).alias_map.map Prod.fst) = 1 :=
  have hc : ¬ (from_aliases "u" (AsRule.AS_ID "x") sample_rel_list_collision).Nodup := by
    decide
  have h := from_alias_collision true "u" (AsRule.AS_ID "x") sample_rel_list_collision none hc
  ⟨hc, h.1, h.2 "x" (by decide)⟩

/-- C18: join order. For a `SELECT` with `FROM t1` followed by any number of
further tables introduced by commas or `INNER JOIN`, `selection.relations` is
the sequence of the tables in the order written, one entry for each table
occurrence. -/
theorem select_relations_in_written_order (new_is_alias_right : Bool) (id : String)
    (as_rule : AsRule) (rel_list : RelList) (where_list : Option (List ConditionSqlNode)) :
    (parse_select_from new_is_alias_right id as_rule rel_list where_list).relations
        = id :: rel_list.entries.map Prod.fst ∧
      (parse_select_from new_is_alias_right id as_rule rel_list where_list).relations.length
        = rel_list.entries.length + 1 := by
  have h := (parse_select_from_spec new_is_alias_right id as_rule rel_list where_list).1
  have h2 : (from_entries id as_rule rel_list).map Prod.fst
      = id :: rel_list.entries.map Prod.fst := rfl
  rw [h, h2]
  simp

/-- C19: alias map contents. When the aliases of the `FROM` list of a `SELECT`
are pairwise distinct, `selection.alias_map` holds the pair alias to table name
exactly for the table entries written with an alias, whether `AS` is written
or not, one pair for each, found under its alias, and nothing else: a table
written without an alias contributes no pair. -/
theorem from_alias_map_contents (new_is_alias_right : Bool) (id : String) (as_rule : AsRule)
    (rel_list : RelList) (where_list : Option (List ConditionSqlNode))
    (h : (from_aliases id as_rule rel_list).Nodup) :
    (∀ x t,
      (x, t) ∈ (parse_select_from new_is_alias_right id as_rule rel_list where_list).alias_map
        ↔ (t, some x) ∈ from_entries id as_rule rel_list) ∧
      (∀ x t, (t, some x) ∈ from_entries id as_rule rel_list →
        map_find
          (parse_select_from new_is_alias_right id as_rule rel_list where_list).alias_map x
            = some t ∧
        List.count x
          ((parse_select_from new_is_alias_right id as_rule rel_list
            where_list).alias_map.map Prod.fst) = 1) ∧
      (parse_select_from new_is_alias_right id as_rule rel_list where_list).alias_map.length
        = (from_aliases id as_rule rel_list).length ∧
      (∀ s, as_action (AsRule.AS_ID s) = some s ∧ as_action (AsRule.ID s) = some s) := by
  obtain ⟨_, h1, h2, h3, h4, _⟩ :=
    parse_select_from_spec new_is_alias_right id as_rule rel_list where_list
  refine ⟨fun x t => ⟨h3 x t, h4 h x t⟩, fun x t hxt => ?_, ?_, fun s => ⟨rfl, rfl⟩⟩
  · have hmem := h4 h x t hxt
    refine ⟨map_find_of_mem _ x t h1 hmem, ?_⟩
    exact List.count_eq_one_of_mem h1 (List.mem_map.mpr ⟨(x, t), hmem, rfl⟩)
  · have hperm : ((parse_select_from new_is_alias_right id as_rule rel_list
        where_list).alias_map.map Prod.fst).Perm (from_aliases id as_rule rel_list) :=
      (List.perm_ext_iff_of_nodup h1 h).mpr h2
    have := hperm.length_eq
    simpa using this

/-- Worked instance of C19: `FROM u AS x INNER JOIN v y, w` gives the map of
`x` to `u` and `y` to `v`, and no pair for `w`. -/
theorem from_alias_map_contents_witness :
    (from_aliases "u" (AsRule.AS_ID "x") sample_rel_list).Nodup ∧
      from_entries "u" (AsRule.AS_ID "x") sample_rel_list
        = [("u", some "x"), ("v", some "y"), ("w", none)] ∧
      map_find (parse_select_from true "u" (AsRule.AS_ID "x") sample_rel_list none).alias_map
        "x" = some "u" ∧
      map_find (parse_select_from true "u" (AsRule.AS_ID "x") sample_rel_list none).alias_map
        "y" = some "v" ∧
      (parse_select_from true "u" (AsRule.AS_ID "x") sample_rel_list none).alias_map.length
        = 2 :=
  have hn : (from_aliases "u" (AsRule.AS_ID "x") sample_rel_list).Nodup := by decide
  have h := from_alias_map_contents true "u" (AsRule.AS_ID "x") sample_rel_list none hn
  ⟨hn, by decide, (h.2.1 "x" "u" (by decide)).1, (h.2.1 "y" "v" (by decide)).1,
    h.2.2.1.trans (by decide)⟩

/-- C16 fails as stated: the grammar builds `a IS 3` as a condition with the
operator `IS_NULL` and the literal 3 on the right, and `create_filter_unit`
accepts it: the unit has the operator `IS_NULL` and the right operand 3, a
value that is not the NULL literal and has a clear null flag. -/
theorem is_null_accepts_non_null_operand :
    sample_cond_is_3.comp = IS_NULL ∧
      sample_cond_is_3.left_type = OperandType.ATTR_TYPE ∧
      sample_cond_is_3.right_type = OperandType.VALUE_TYPE ∧
      sample_cond_is_3.right_value = Value.of_int 3 ∧
      (Value.of_int 3).is_null = false ∧
      Value.of_int 3 ≠ value_nullable_action ∧
      (create_filter_unit sample_env sample_db (some sample_table) none
        (filter_reading sample_cond_is_3) none).1 = RC.SUCCESS ∧
      (create_filter_unit sample_env sample_db (some sample_table) none
        (filter_reading sample_cond_is_3) none).2
        = some
          { comp := IS_NULL,
            left := some (FilterObj.attr
              (Field.mk (some sample_table) (sample_table.table_meta.field "a"))),
            right := some (FilterObj.value (Value.of_int 3)) } := by
  decide

/-- C16 as amended: the grammar gives the operator `IS_NULL` to every
condition written with `IS` and `IS_NOT_NULL` to every condition written with
`IS NOT`, whatever the expression on the right, and records a literal on the
right as it is written, the NULL literal or any other; and when
`create_filter_unit` accepts a condition whose right side is a literal, its
right operand is that literal and its operator the one of the condition: the
right operand of an `IS_NULL` or `IS_NOT_NULL` unit is not checked. -/
theorem is_null_operand_unchecked (env : Env) (db : Db) (default_table : Option Table)
    (tables : Option (List (String × Table))) (c : ConditionSqlNode)
    (fu : Option FilterUnit) :
    (∀ l r, (condition_action l (comp_op_action CompOpRule.IS) r).comp = IS_NULL ∧
      (condition_action l (comp_op_action CompOpRule.IS_NOT) r).comp = IS_NOT_NULL) ∧
    (∀ l comp v name,
      (condition_action l comp (expression_value_action v name)).right_type
          = OperandType.VALUE_TYPE ∧
        (condition_action l comp (expression_value_action v name)).right_value = v ∧
        (filter_reading
          (condition_action l comp (expression_value_action v name))).right_is_attr
          = false) ∧
    (c.right_is_attr = false →
      (create_filter_unit env db default_table tables c fu).1 = RC.SUCCESS →
      ∃ u, (create_filter_unit env db default_table tables c fu).2 = some u ∧
        u.comp = c.comp ∧ u.right = some (FilterObj.value c.right_value)) := by
  refine ⟨fun l r => ⟨rfl, rfl⟩, fun l comp v name => ?_, fun ha hok => ?_⟩
  · by_cases hl : l.is_expression = false
    · by_cases hv : l.is_value = true
      · simp [condition_action, expression_value_action, filter_reading, vec0,
          Expression.get_value, Expression.set_name, hl, hv]
      · simp [condition_action, expression_value_action, filter_reading, vec0,
          Expression.get_value, Expression.set_name, hl, hv]
    · simp [condition_action, expression_value_action, filter_reading, vec0,
        Expression.get_value, Expression.set_name, hl]
  · obtain ⟨_, u1, u2, hl, hr, hres⟩ := create_filter_unit_success _ _ _ _ _ _ hok
    rw [create_filter_unit_right_literal env db default_table tables c RC.SUCCESS u1 ha] at hr
    split at hr
    · cases hr
    · injection hr with hr
      injection hr with _ hu2
      refine ⟨u2.set_comp c.comp, by rw [hres], rfl, ?_⟩
      show u2.right = _
      rw [← hu2]
      rfl

/-- Worked instance of the amended C16: `a IS 3` and `a IS NULL` over `t` are
both accepted, each with its literal as right operand. -/
theorem is_null_operand_unchecked_witness :
    (filter_reading sample_cond_is_3).right_is_attr = false ∧
      (create_filter_unit sample_env sample_db (some sample_table) none
        (filter_reading sample_cond_is_3) none).1 = RC.SUCCESS ∧
      (∃ u, (create_filter_unit sample_env sample_db (some sample_table) none
          (filter_reading sample_cond_is_3) none).2 = some u ∧
        u.comp = (filter_reading sample_cond_is_3).comp ∧
        u.right = some (FilterObj.value (filter_reading sample_cond_is_3).right_value)) ∧
      (filter_reading sample_cond_is_3).right_value = Value.of_int 3 ∧
      (∃ u, (create_filter_unit sample_env sample_db (some sample_table) none
          (filter_reading sample_cond_is_null) none).2 = some u ∧
        u.comp = (filter_reading sample_cond_is_null).comp ∧
        u.right = some (FilterObj.value (filter_reading sample_cond_is_null).right_value)) ∧
      (filter_reading sample_cond_is_null).right_value = value_nullable_action :=
  have h3 := (is_null_operand_unchecked sample_env sample_db (some sample_table) none
    (filter_reading sample_cond_is_3) none).2.2
  have hn := (is_null_operand_unchecked sample_env sample_db (some sample_table) none
    (filter_reading sample_cond_is_null) none).2.2
  ⟨by decide, by decide, h3 (by decide) (by decide), by decide,
    hn (by decide) (by decide), by decide⟩

/-- The result of `get_table_and_field` from the table its first statement
selects and the field the schema of that table has. -/
theorem get_table_and_field_of_resolved (env : Env) (db : Db) (default_table : Option Table)
    (tables : Option (List (String × Table))) (attr : RelAttrSqlNode)
    (table : Option Table) (field : Option FieldMeta) (t : Table) (fm : FieldMeta)
    (ht : get_table_and_field_table env db default_table tables attr table = some t)
    (hfm : t.table_meta.field attr.attribute_name = some fm) :
    get_table_and_field env db default_table tables attr table field
      = (RC.SUCCESS, some t, some fm) := by
  simp only [get_table_and_field, ht, hfm]

/-- The operand a reference resolved to the field `f` gets, case by case on
the function tag. -/
theorem column_operand_cases (attr : RelAttrSqlNode) (f : Field) (obj : FilterObj)
    (h : column_operand attr f obj) :
    (attr.func = FuncOp.LENGTH_FUNC →
      obj = FilterObj.func f FuncOp.LENGTH_FUNC (FuncParam.length attr.lengthparam)) ∧
    (attr.func = FuncOp.ROUND_FUNC →
      obj = FilterObj.func f FuncOp.ROUND_FUNC (FuncParam.round attr.roundparam)) ∧
    (attr.func = FuncOp.FORMAT_FUNC →
      obj = FilterObj.func f FuncOp.FORMAT_FUNC (FuncParam.format attr.formatparam)) ∧
    (attr.func = FuncOp.NO_FUNC → obj = FilterObj.attr f) := by
  rcases h with ⟨hf, h⟩ | ⟨hf, h⟩ | ⟨hf, h⟩ | ⟨hf, h⟩ <;>
    refine ⟨?_, ?_, ?_, ?_⟩ <;> intro hg <;> rw [hf] at hg <;>
    first | exact h | cases hg

/-- C21: when `create_filter_unit` returns `SUCCESS`, a side that is an
attribute reference to a column (a non-empty attribute name, or no function)
was resolved by `get_table_and_field` to a table and a field, and the operand
of that side is, for the tag `LENGTH_FUNC`, `ROUND_FUNC` or `FORMAT_FUNC`, a
`func` operand holding the resolved field, that same tag and the parameter
record of that function (`lengthparam`, `roundparam`, `formatparam`), and for
`NO_FUNC` a plain `attr` operand over the resolved field. -/
theorem create_filter_unit_func_operand (env : Env) (db : Db)
    (default_table : Option Table) (tables : Option (List (String × Table)))
    (c : ConditionSqlNode) (fu : Option FilterUnit)
    (h : (create_filter_unit env db default_table tables c fu).1 = RC.SUCCESS) :
    ∃ u, (create_filter_unit env db default_table tables c fu).2 = some u ∧
      (c.left_is_attr = true →
        c.left_attr.attribute_name.isEmpty = false ∨ c.left_attr.func = FuncOp.NO_FUNC →
        ∃ t fm,
          get_table_and_field env db default_table tables c.left_attr none none
            = (RC.SUCCESS, some t, some fm) ∧
          (c.left_attr.func = FuncOp.LENGTH_FUNC →
            u.left = some (FilterObj.func (Field.mk (some t) (some fm)) FuncOp.LENGTH_FUNC
              (FuncParam.length c.left_attr.lengthparam))) ∧
          (c.left_attr.func = FuncOp.ROUND_FUNC →
            u.left = some (FilterObj.func (Field.mk (some t) (some fm)) FuncOp.ROUND_FUNC
              (FuncParam.round c.left_attr.roundparam))) ∧
          (c.left_attr.func = FuncOp.FORMAT_FUNC →
            u.left = some (FilterObj.func (Field.mk (some t) (some fm)) FuncOp.FORMAT_FUNC
              (FuncParam.format c.left_attr.formatparam))) ∧
          (c.left_attr.func = FuncOp.NO_FUNC →
            u.left = some (FilterObj.attr (Field.mk (some t) (some fm))))) ∧
      (c.right_is_attr = true →
        c.right_attr.attribute_name.isEmpty = false ∨ c.right_attr.func = FuncOp.NO_FUNC →
        ∃ t fm,
          get_table_and_field env db default_table tables c.right_attr none none
            = (RC.SUCCESS, some t, some fm) ∧
          (c.right_attr.func = FuncOp.LENGTH_FUNC →
            u.right = some (FilterObj.func (Field.mk (some t) (some fm)) FuncOp.LENGTH_FUNC
              (FuncParam.length c.right_attr.lengthparam))) ∧
          (c.right_attr.func = FuncOp.ROUND_FUNC →
            u.right = some (FilterObj.func (Field.mk (some t) (some fm)) FuncOp.ROUND_FUNC
              (FuncParam.round c.right_attr.roundparam))) ∧
          (c.right_attr.func = FuncOp.FORMAT_FUNC →
            u.right = some (FilterObj.func (Field.mk (some t) (some fm)) FuncOp.FORMAT_FUNC
              (FuncParam.format c.right_attr.formatparam))) ∧
          (c.right_attr.func = FuncOp.NO_FUNC →
            u.right = some (FilterObj.attr (Field.mk (some t) (some fm))))) := by
  obtain ⟨_, u1, u2, hl, hr, hres⟩ := create_filter_unit_success _ _ _ _ _ _ h
  obtain ⟨_, lobj, hu1, hlcase⟩ := create_filter_unit_left_ok _ _ _ _ _ _ _ _ _ hl
  obtain ⟨_, robj, hu2, hrcase⟩ := create_filter_unit_right_ok _ _ _ _ _ _ _ _ _ hr
  have hleft : (u2.set_comp c.comp).left = some lobj := by
    show u2.left = _
    rw [hu2, hu1]
    rfl
  have hright : (u2.set_comp c.comp).right = some robj := by
    show u2.right = _
    rw [hu2]
    rfl
  refine ⟨u2.set_comp c.comp, by rw [hres], ?_, ?_⟩
  · intro ha hcol
    rcases hlcase with ⟨hna, _⟩ | ⟨_, hf, he, _, _⟩ | ⟨_, _, t, fm, ht, hfm, ho⟩
    · rw [ha] at hna; cases hna
    · rcases hcol with hcol | hcol
      · rw [he] at hcol; cases hcol
      · exact absurd hcol hf
    · obtain ⟨h1, h2, h3, h4⟩ := column_operand_cases _ _ _ ho
      refine ⟨t, fm, get_table_and_field_of_resolved _ _ _ _ _ _ _ _ _ ht hfm, ?_, ?_, ?_, ?_⟩
      · intro hg; rw [hleft, h1 hg]
      · intro hg; rw [hleft, h2 hg]
      · intro hg; rw [hleft, h3 hg]
      · intro hg; rw [hleft, h4 hg]
  · intro ha hcol
    rcases hrcase with ⟨hna, _⟩ | ⟨_, hf, he, _, _⟩ | ⟨_, _, t, fm, ht, hfm, ho⟩
    · rw [ha] at hna; cases hna
    · rcases hcol with hcol | hcol
      · rw [he] at hcol; cases hcol
      · exact absurd hcol hf
    · obtain ⟨h1, h2, h3, h4⟩ := column_operand_cases _ _ _ ho
      refine ⟨t, fm, get_table_and_field_of_resolved _ _ _ _ _ _ _ _ _ ht hfm, ?_, ?_, ?_, ?_⟩
      · intro hg; rw [hright, h1 hg]
      · intro hg; rw [hright, h2 hg]
      · intro hg; rw [hright, h3 hg]
      · intro hg; rw [hright, h4 hg]

/-- Worked instance of C21: `ROUND(t.a, 2) = DATE_FORMAT(u.n, '%Y')` over the
scope of `t` and `u` compiles to a unit whose operands are `func` operands over
the columns `t.a` and `u.n` with the tags and the parameter records of `ROUND`
and `DATE_FORMAT`; and `LENGTH(b) = a` over the default table `t` compiles to a
`func` operand on the left and a plain `attr` operand on the right. -/
theorem create_filter_unit_func_operand_witness :
    (create_filter_unit sample_env sample_db none (some sample_tables)
        sample_cond_round_format none).1 = RC.SUCCESS ∧
      (∃ u, (create_filter_unit sample_env sample_db none (some sample_tables)
          sample_cond_round_format none).2 = some u ∧
        u.left = some (FilterObj.func
          (Field.mk (some sample_table) (sample_table.table_meta.field "a")) FuncOp.ROUND_FUNC
          (FuncParam.round sample_cond_round_format.left_attr.roundparam)) ∧
        u.right = some (FilterObj.func
          (Field.mk (some sample_table_u) (sample_table_u.table_meta.field "n"))
          FuncOp.FORMAT_FUNC
          (FuncParam.format sample_cond_round_format.right_attr.formatparam))) ∧
      (create_filter_unit sample_env sample_db (some sample_table) none
        sample_cond_length_b none).2
        = some
          { comp := EQUAL_TO,
            left := some (FilterObj.func
              (Field.mk (some sample_table) (sample_table.table_meta.field "b"))
              FuncOp.LENGTH_FUNC (FuncParam.length { attribute_name := "b" })),
            right := some (FilterObj.attr
              (Field.mk (some sample_table) (sample_table.table_meta.field "a"))) } := by
  refine ⟨by decide, ?_, by decide⟩
  obtain ⟨u, hu, hl, hr⟩ :=
    create_filter_unit_func_operand sample_env sample_db none (some sample_tables)
      sample_cond_round_format none (by decide)
  obtain ⟨t, fm, hres, _, h2, _, _⟩ := hl rfl (Or.inl (by decide))
  obtain ⟨t2, fm2, hres2, _, _, h3, _⟩ := hr rfl (Or.inl (by decide))
  have e1 : get_table_and_field sample_env sample_db none (some sample_tables)
      sample_cond_round_format.left_attr none none
      = (RC.SUCCESS, some sample_table, sample_table.table_meta.field "a") := by decide
  have e2 : get_table_and_field sample_env sample_db none (some sample_tables)
      sample_cond_round_format.right_attr none none
      = (RC.SUCCESS, some sample_table_u, sample_table_u.table_meta.field "n") := by decide
  rw [e1] at hres
  rw [e2] at hres2
  injection hres with _ hres
  injection hres with ht hf
  injection hres2 with _ hres2
  injection hres2 with ht2 hf2
  refine ⟨u, hu, ?_, ?_⟩
  · rw [h2 rfl, ht, hf]
  · rw [h3 rfl, ht2, hf2]

/-- C22: every call of `yyerror` returns 0 and leaves in the result the nodes
it held before, each unchanged and at its position, followed by exactly one new
node: a node tagged `SCF_ERROR` whose `error` member carries the given message,
the first line and the first column of the location. The last part is the call
for a syntax error at line 1, column 14 on a result that holds one node. -/
theorem yyerror_appends_error_node (llocp : YYLTYPE) (sql_string : String)
    (sql_result : ParsedSqlResult) (msg : String) :
    (yyerror llocp sql_string sql_result msg).1 = 0 ∧
    (∃ node : ParsedSqlNode,
      (yyerror llocp sql_string sql_result msg).2.sql_nodes_
        = sql_result.sql_nodes_ ++ [node] ∧
      node.flag = SqlCommandFlag.SCF_ERROR ∧
      node.error.error_msg = msg ∧
      node.error.line = llocp.first_line ∧
      node.error.column = llocp.first_column) ∧
    (yyerror llocp sql_string sql_result msg).2.sql_nodes_.length
      = sql_result.sql_nodes_.length + 1 ∧
    (∀ i, i < sql_result.sql_nodes_.length →
      (yyerror llocp sql_string sql_result msg).2.sql_nodes_[i]?
        = sql_result.sql_nodes_[i]?) ∧
    yyerror { first_line := 1, first_column := 14, last_line := 1, last_column := 14 }
        "select * from" sample_result "syntax error"
      = (0, { sql_nodes_ :=
          [{ flag := SqlCommandFlag.SCF_SELECT },
           { flag := SqlCommandFlag.SCF_ERROR,
             error := { error_msg := "syntax error", line := 1, column := 14 } }] }) := by
  refine ⟨rfl, ⟨_, rfl, rfl, rfl, rfl, rfl⟩, ?_, ?_, rfl⟩
  · simp [yyerror, ParsedSqlResult.add_sql_node]
  · intro i hi
    simp only [yyerror, ParsedSqlResult.add_sql_node]
    exact List.getElem?_append_left hi

/-- The derivation of a written list is closed and is not the empty list. -/
theorem of_written_closed (init : List (ConditionSqlNode × Bool)) (last : ConditionSqlNode) :
    ConditionList.of_written init last ≠ ConditionList.empty ∧
    (ConditionList.of_written init last).closed = true := by
  induction init with
  | nil => exact ⟨by simp [ConditionList.of_written], rfl⟩
  | cons p rest ih =>
    obtain ⟨c, b⟩ := p
    cases b
    · exact ⟨by simp [ConditionList.of_written],
        by simp [ConditionList.of_written, ConditionList.closed, ih.1, ih.2]⟩
    · exact ⟨by simp [ConditionList.of_written],
        by simp [ConditionList.of_written, ConditionList.closed, ih.1, ih.2]⟩

/-- The conditions of the derivation of a written list: the written ones, each
flagged by the connective after it, and the last one with the flag false. -/
theorem of_written_entries (init : List (ConditionSqlNode × Bool)) (last : ConditionSqlNode) :
    (ConditionList.of_written init last).entries
      = init.map (fun p => p.1.with_flag p.2) ++ [last.with_flag false] := by
  induction init with
  | nil => rfl
  | cons p rest ih =>
    obtain ⟨c, b⟩ := p
    cases b <;> simp [ConditionList.of_written, ConditionList.entries, ih]

/-- On a closed derivation the actions of `condition_list` are defined: the
empty list gives a null pointer and every other list the vector of its
conditions, flagged as written, in reverse written order. -/
theorem condition_list_action_closed (d : ConditionList) (h : d.closed = true) :
    condition_list_action d
      = some (if d = ConditionList.empty then none else some d.entries.reverse) := by
  induction d with
  | empty => rfl
  | single c => simp [condition_list_action, ConditionList.entries, ConditionSqlNode.with_flag]
  | and_list c rest ih =>
    simp only [ConditionList.closed, Bool.and_eq_true, decide_eq_true_eq] at h
    simp [condition_list_action, ih h.2, h.1, ConditionList.entries, ConditionSqlNode.with_flag]
  | or_list c rest ih =>
    simp only [ConditionList.closed, Bool.and_eq_true, decide_eq_true_eq] at h
    simp [condition_list_action, ih h.2, h.1, ConditionList.entries, ConditionSqlNode.with_flag]

/-- C23: for every written list `c1 op1 c2 ... op(n-1) cn` (`init` holds
`c1 ... c(n-1)` with whether the connective after each is `OR`, `last` is `cn`)
the `condition_list` actions build a vector of length `n` that is
`[cn, ..., c2, c1]`, in which `ck` for `k < n` has `is_conjunction_or` true
exactly when `op_k` is `OR`, `cn` has it false, and every other member of a
condition is as the `condition` action left it. The last part is the list
`a = 1 OR b = 2 AND a = 3`. -/
theorem condition_list_flags (init : List (ConditionSqlNode × Bool))
    (last : ConditionSqlNode) :
    ∃ v : List ConditionSqlNode,
      condition_list_action (ConditionList.of_written init last) = some (some v) ∧
      v.length = init.length + 1 ∧
      v = (init.map (fun p => p.1.with_flag p.2) ++ [last.with_flag false]).reverse ∧
      v[0]? = some { last with is_conjunction_or := false } ∧
      (∀ k (hk : k < init.length),
        v[init.length - k]? = some { init[k].1 with is_conjunction_or := init[k].2 }) ∧
      condition_list_action sample_list_or_and
        = some (some [{ sample_parsed_a_3 with is_conjunction_or := false },
            { sample_parsed_b_2 with is_conjunction_or := false },
            { sample_parsed_a_1 with is_conjunction_or := true }]) := by
  obtain ⟨hne, hcl⟩ := of_written_closed init last
  have hv := condition_list_action_closed _ hcl
  rw [if_neg hne, of_written_entries] at hv
  refine ⟨_, hv, by simp, rfl, by simp [ConditionSqlNode.with_flag], ?_, rfl⟩
  intro k hk
  rw [List.getElem?_reverse (by simp; omega)]
  simp only [List.length_append, List.length_map, List.length_singleton]
  have e : init.length + 1 - 1 - (init.length - k) = k := by omega
  rw [e, List.getElem?_append_left (by simpa using hk)]
  simp [hk, ConditionSqlNode.with_flag]

/-- On a closed derivation the action of `where` is defined: a null pointer
when no condition is written, and otherwise the vector of the conditions,
flagged as written, in reverse written order. -/
theorem where_action_closed (w : WhereRule) (h : w.closed = true) :
    where_action w = some (if w.entries = [] then none else some w.entries.reverse) := by
  cases w with
  | empty => rfl
  | WHERE list =>
    have hv := condition_list_action_closed list h
    cases list with
    | empty => rfl
    | single c => simpa [where_action, WhereRule.entries, ConditionList.entries] using hv
    | and_list c rest => simpa [where_action, WhereRule.entries, ConditionList.entries] using hv
    | or_list c rest => simpa [where_action, WhereRule.entries, ConditionList.entries] using hv

/-- On a closed derivation the action of `on` is defined: a null pointer when
no condition is written, and otherwise the vector of the conditions, flagged as
written, in reverse written order. -/
theorem on_action_closed (o : OnRule) (h : o.closed = true) :
    on_action o = some (if o.entries = [] then none else some o.entries.reverse) := by
  cases o with
  | empty => rfl
  | ON list =>
    have hv := condition_list_action_closed list h
    cases list with
    | empty => rfl
    | single c => simpa [on_action, OnRule.entries, ConditionList.entries] using hv
    | and_list c rest => simpa [on_action, OnRule.entries, ConditionList.entries] using hv
    | or_list c rest => simpa [on_action, OnRule.entries, ConditionList.entries] using hv

/-- The rule `COMMA ID as rel_list` leaves the conditions of the inner list. -/
theorem rel_list_node_comma_conditions (init : Bool) (id : String) (a : AsRule)
    (rest : RelList) :
    (rel_list_node init (RelList.comma id a rest)).conditions
      = (rel_list_node init rest).conditions := by
  rw [rel_list_node_comma]
  split
  · split <;> rfl
  · rfl

/-- The rule `INNER JOIN ID as on rel_list` puts the conditions of its `ON`
clause after the conditions of the inner list. -/
theorem rel_list_node_inner_join_conditions (init : Bool) (id : String) (a : AsRule)
    (on_list : Option (List ConditionSqlNode)) (rest : RelList) :
    (rel_list_node init (RelList.inner_join id a on_list rest)).conditions
      = (rel_list_node init rest).conditions ++ on_list.getD [] := by
  rw [rel_list_node_inner_join]
  cases on_list <;> (split <;> [(split <;> simp); simp])

/-- On a closed derivation of `rel_list` the values of the `ON` clauses are
defined, and the conditions of the join list are the conditions of the `ON`
clauses in the reverse of the order written. -/
theorem rel_list_values_closed (init : Bool) (rl : RelListRule) (h : rl.closed = true) :
    ∃ r, rl.values = some r ∧ (rel_list_node init r).conditions = rl.on_entries.reverse := by
  induction rl with
  | empty => exact ⟨RelList.empty, rfl, rfl⟩
  | comma id a rest ih =>
    obtain ⟨r, hr, hc⟩ := ih h
    refine ⟨RelList.comma id a r, by simp [RelListRule.values, hr], ?_⟩
    rw [rel_list_node_comma_conditions, hc]
    rfl
  | inner_join id a o rest ih =>
    simp only [RelListRule.closed, Bool.and_eq_true] at h
    obtain ⟨r, hr, hc⟩ := ih h.2
    have ho := on_action_closed o h.1
    refine ⟨RelList.inner_join id a (if o.entries = [] then none else some o.entries.reverse) r,
      by simp [RelListRule.values, hr, ho], ?_⟩
    rw [rel_list_node_inner_join_conditions, hc]
    by_cases he : o.entries = []
    · simp [RelListRule.on_entries, he]
    · simp [RelListRule.on_entries, he]

/-- The conditions the `select_stmt` action leaves: the conditions of the join
list when `where` is a null pointer, and otherwise the vector of `where` put
before them and the whole reversed. -/
theorem select_stmt_action_conditions (id : String) (a : Option String)
    (r : Option InnerJoinSqlNode) (w : Option (List ConditionSqlNode))
    (o : Option (List OrderBySqlNode)) :
    (select_stmt_action id a r w o).conditions
      = match w with
        | some wl => (wl ++ (match r with | some l => l.conditions | none => [])).reverse
        | none => (match r with | some l => l.conditions | none => []) := by
  cases o <;> cases w <;> cases r <;> cases a <;>
    simp only [select_stmt_action, select_stmt_from_action] <;>
    first | rfl | (split <;> rfl)

/-- The conditions the value of `rel_list` hands to the `select_stmt` action
are the conditions of the node of the derivation. -/
theorem rel_list_action_conditions (init : Bool) (r : RelList) :
    (match rel_list_action init r with | some l => l.conditions | none => [])
      = (rel_list_node init r).conditions := by
  rcases rel_list_action_cases init r with ⟨he, h⟩ | h
  · rw [h, he]
    rfl
  · rw [h]

/-- The conditions of a `SELECT` statement with a `FROM` clause, from closed
derivations: without a condition in `WHERE`, the conditions of the `ON`
clauses in the reverse of the order written; with one, the conditions of the
`ON` clauses and then those of `WHERE`, in the order written. -/
theorem parse_select_conditions (init : Bool) (id : String) (a : AsRule) (rl : RelListRule)
    (w : WhereRule) (o : Option (List OrderBySqlNode))
    (hrl : rl.closed = true) (hw : w.closed = true) :
    ∃ sel, parse_select init id a rl w o = some sel ∧
      sel.conditions
        = if w.entries = [] then rl.on_entries.reverse else rl.on_entries ++ w.entries := by
  obtain ⟨r, hr, hc⟩ := rel_list_values_closed init rl hrl
  have hwv := where_action_closed w hw
  have hp : parse_select init id a rl w o
      = some (select_stmt_action id (as_action a) (rel_list_action init r)
          (if w.entries = [] then none else some w.entries.reverse) o) := by
    simp only [parse_select, hr, hwv]
  refine ⟨_, hp, ?_⟩
  rw [select_stmt_action_conditions]
  by_cases he : w.entries = []
  · simp only [he, if_true]
    rw [rel_list_action_conditions, hc]
  · simp only [he, if_false]
    rw [rel_list_action_conditions, hc]
    simp

/-- On a closed derivation of `where` the statement `DELETE FROM id where` is
defined, and its conditions are the written ones in reverse order. -/
theorem parse_delete_conditions (id : String) (w : WhereRule) (hw : w.closed = true) :
    ∃ d, parse_delete id w = some d ∧ d.relation_name = id ∧
      d.conditions = w.entries.reverse := by
  have hwv := where_action_closed w hw
  have hp : parse_delete id w
      = some (delete_stmt_action id
          (if w.entries = [] then none else some w.entries.reverse)) := by
    simp only [parse_delete, hwv]
  refine ⟨_, hp, ?_, ?_⟩ <;> by_cases he : w.entries = [] <;> simp [delete_stmt_action, he]

/-- On a closed derivation of `where` the statement
`UPDATE id SET attr = v where` is defined, and its conditions are the written
ones in reverse order. -/
theorem parse_update_conditions (id attr : String) (v : Value) (w : WhereRule)
    (hw : w.closed = true) :
    ∃ u, parse_update id (UpdateList.value attr v) w = some u ∧ u.relation_name = id ∧
      u.updateValue_list = [{ is_select := false, value := v, attribute_name := attr }] ∧
      u.conditions = w.entries.reverse := by
  have hwv := where_action_closed w hw
  by_cases he : w.entries = []
  · exact ⟨{ relation_name := id,
             updateValue_list := [{ is_select := false, value := v, attribute_name := attr }],
             conditions := [] },
      by simp [parse_update, hwv, update_list_action, update_stmt_action, he],
      rfl, rfl, by simp [he]⟩
  · exact ⟨{ relation_name := id,
             updateValue_list := [{ is_select := false, value := v, attribute_name := attr }],
             conditions := w.entries.reverse },
      by simp [parse_update, hwv, update_list_action, update_stmt_action, he],
      rfl, rfl, rfl⟩

/-- C24: the conditions of a `SELECT` statement. Without a condition in
`WHERE` the action leaves the join conditions as the `rel_list` actions built
them: for `SELECT * FROM t INNER JOIN u ON a = 1 OR b = 2` the vector is
`[b = 2, a = 1]` with the `OR` flag on its last element, and for two joins
`ON a = 1` and `ON b = 2` it is `[b = 2, a = 1]`; in general it is the
reverse of the `ON` conditions as written. With a condition in `WHERE` the
vector is the `ON` conditions of the joins left to right and then the `WHERE`
conditions, each in the order written with the flag of the connective written
after it; the same holds for a `SELECT` without `FROM`. -/
theorem select_conditions_order :
    Option.map SelectSqlNode.conditions
        (parse_select true "t" AsRule.empty sample_join_or WhereRule.empty none)
      = some [sample_parsed_b_2.with_flag false, sample_parsed_a_1.with_flag true] ∧
    sample_join_or.on_entries
      = [sample_parsed_a_1.with_flag true, sample_parsed_b_2.with_flag false] ∧
    Option.map SelectSqlNode.conditions
        (parse_select true "t" AsRule.empty sample_join_two WhereRule.empty none)
      = some [sample_parsed_b_2, sample_parsed_a_1] ∧
    Option.map SelectSqlNode.conditions
        (parse_select true "t" AsRule.empty sample_join_two
          (WhereRule.WHERE (ConditionList.single sample_parsed_a_3)) none)
      = some [sample_parsed_a_1, sample_parsed_b_2, sample_parsed_a_3] ∧
    (∀ (init : Bool) (id : String) (a : AsRule) (rl : RelListRule) (w : WhereRule)
        (o : Option (List OrderBySqlNode)),
      rl.closed = true → w.closed = true → w.entries = [] →
      ∃ sel, parse_select init id a rl w o = some sel ∧
        sel.conditions = rl.on_entries.reverse) ∧
    (∀ (init : Bool) (id : String) (a : AsRule) (rl : RelListRule) (w : WhereRule)
        (o : Option (List OrderBySqlNode)),
      rl.closed = true → w.closed = true → w.entries ≠ [] →
      ∃ sel, parse_select init id a rl w o = some sel ∧
        sel.conditions = rl.on_entries ++ w.entries) ∧
    (∀ w : WhereRule, w.closed = true →
      ∃ sel, parse_select_no_from w = some sel ∧ sel.conditions = w.entries) := by
  refine ⟨by decide, by decide, by decide, by decide, ?_, ?_, ?_⟩
  · intro init id a rl w o hrl hw he
    obtain ⟨sel, hs, hc⟩ := parse_select_conditions init id a rl w o hrl hw
    exact ⟨sel, hs, by rw [hc, if_pos he]⟩
  · intro init id a rl w o hrl hw he
    obtain ⟨sel, hs, hc⟩ := parse_select_conditions init id a rl w o hrl hw
    exact ⟨sel, hs, by rw [hc, if_neg he]⟩
  · intro w hw
    have hwv := where_action_closed w hw
    have hp : parse_select_no_from w
        = some (select_stmt_no_from_action
            (if w.entries = [] then none else some w.entries.reverse)) := by
      simp only [parse_select_no_from, hwv]
    refine ⟨_, hp, ?_⟩
    by_cases he : w.entries = [] <;> simp [select_stmt_no_from_action, he]

/-- C25: the conditions of `DELETE FROM t WHERE W` and of
`UPDATE t SET a = v WHERE W` against those of `SELECT * FROM t WHERE W`. For
`W` = `a = 1 OR b = 2` the first two store `[b = 2, a = 1]`, the `OR` flag on
the last element, and the `SELECT` stores `[a = 1, b = 2]`, the flag on the
first. In general the `delete_stmt` and `update_stmt` actions keep the vector
of `where`, the written conditions in reverse order, and the `select_stmt`
action reverses it to the written order. -/
theorem delete_update_conditions_reversed :
    parse_delete "t" (WhereRule.WHERE sample_list_or)
      = some { relation_name := "t",
               conditions := [sample_parsed_b_2.with_flag false,
                 sample_parsed_a_1.with_flag true] } ∧
    parse_update "t" (UpdateList.value "a" (Value.of_int 5)) (WhereRule.WHERE sample_list_or)
      = some { relation_name := "t",
               updateValue_list :=
                 [{ is_select := false, value := Value.of_int 5, attribute_name := "a" }],
               conditions := [sample_parsed_b_2.with_flag false,
                 sample_parsed_a_1.with_flag true] } ∧
    Option.map SelectSqlNode.conditions
        (parse_select true "t" AsRule.empty RelListRule.empty (WhereRule.WHERE sample_list_or)
          none)
      = some [sample_parsed_a_1.with_flag true, sample_parsed_b_2.with_flag false] ∧
    (∀ (id : String) (w : WhereRule), w.closed = true →
      ∃ d, parse_delete id w = some d ∧ d.conditions = w.entries.reverse) ∧
    (∀ (id attr : String) (v : Value) (w : WhereRule), w.closed = true →
      ∃ u, parse_update id (UpdateList.value attr v) w = some u ∧
        u.conditions = w.entries.reverse) ∧
    (∀ (init : Bool) (id : String) (a : AsRule) (w : WhereRule)
        (o : Option (List OrderBySqlNode)), w.closed = true →
      ∃ sel, parse_select init id a RelListRule.empty w o = some sel ∧
        sel.conditions = w.entries) := by
  refine ⟨by decide, by decide, by decide, ?_, ?_, ?_⟩
  · intro id w hw
    obtain ⟨d, hd, _, hc⟩ := parse_delete_conditions id w hw
    exact ⟨d, hd, hc⟩
  · intro id attr v w hw
    obtain ⟨u, hu, _, _, hc⟩ := parse_update_conditions id attr v w hw
    exact ⟨u, hu, hc⟩
  · intro init id a w o hw
    obtain ⟨sel, hs, hc⟩ := parse_select_conditions init id a RelListRule.empty w o rfl hw
    refine ⟨sel, hs, ?_⟩
    rw [hc]
    by_cases he : w.entries = []
    · rw [if_pos he, he]; rfl
    · rw [if_neg he]; rfl

/-- The vector the `value_list` actions build, or the empty vector for a null
pointer, is the written values in reverse order. -/
theorem value_list_action_values (vl : ValueList) :
    (match value_list_action vl with | some l => l | none => []) = vl.values.reverse := by
  induction vl with
  | empty => rfl
  | comma v rest ih =>
    simp only [value_list_action, ValueList.values, List.reverse_cons]
    rw [ih]

/-- C26: for every condition `expr comp_op (v1, v2, ..., vn)` with `n >= 2`
literal values (`vl` is the derivation of `, v3, ..., vn`), the parsed
condition has `right_type = VALUE_LIST_TYPE`, `right_value_list` is
`[v1, v2, ..., vn]` in the order written, with exactly `n` elements, and `comp`
is the operator written: each of the twelve rules of `comp_op` gives its own
enumerator (`IN` gives `IN_OP`, `NOT IN` gives `NOT_IN_OP`, `=` gives
`EQUAL_TO`, and so on), no two rules the same one. The last parts are the
conditions `a IN (1, 2, 3)`, `a NOT IN (1, 2)` and `a < (1, 2)`. -/
theorem condition_value_list_order (l : ExpressionSqlNode) (op : CompOpRule)
    (v1 v2 : Value) (vl : ValueList) :
    (condition_value_list_action l (comp_op_action op) v1 v2
        (value_list_action vl)).right_type = OperandType.VALUE_LIST_TYPE ∧
    (condition_value_list_action l (comp_op_action op) v1 v2
        (value_list_action vl)).right_value_list = v1 :: v2 :: vl.values ∧
    (condition_value_list_action l (comp_op_action op) v1 v2
        (value_list_action vl)).right_value_list.length = vl.values.length + 2 ∧
    (condition_value_list_action l (comp_op_action op) v1 v2
        (value_list_action vl)).comp = comp_op_action op ∧
    (comp_op_action CompOpRule.EQ = EQUAL_TO ∧ comp_op_action CompOpRule.LT = LESS_THAN ∧
      comp_op_action CompOpRule.GT = GREAT_THAN ∧ comp_op_action CompOpRule.LE = LESS_EQUAL ∧
      comp_op_action CompOpRule.GE = GREAT_EQUAL ∧ comp_op_action CompOpRule.NE = NOT_EQUAL ∧
      comp_op_action CompOpRule.LK = LIKE ∧ comp_op_action CompOpRule.NOT_LK = NOT_LIKE ∧
      comp_op_action CompOpRule.IS = IS_NULL ∧ comp_op_action CompOpRule.IS_NOT = IS_NOT_NULL ∧
      comp_op_action CompOpRule.IN = IN_OP ∧ comp_op_action CompOpRule.NOT_IN = NOT_IN_OP) ∧
    (∀ op1 op2 : CompOpRule, comp_op_action op1 = comp_op_action op2 → op1 = op2) ∧
    (condition_value_list_action (expression_id_action "a" "a") (comp_op_action CompOpRule.IN)
        (Value.of_int 1) (Value.of_int 2)
        (value_list_action (ValueList.comma (Value.of_int 3) ValueList.empty))).right_value_list
      = [Value.of_int 1, Value.of_int 2, Value.of_int 3] ∧
    (condition_value_list_action (expression_id_action "a" "a") (comp_op_action CompOpRule.IN)
        (Value.of_int 1) (Value.of_int 2)
        (value_list_action (ValueList.comma (Value.of_int 3) ValueList.empty))).comp = IN_OP ∧
    (condition_value_list_action (expression_id_action "a" "a") (comp_op_action CompOpRule.IN)
        (Value.of_int 1) (Value.of_int 2)
        (value_list_action (ValueList.comma (Value.of_int 3) ValueList.empty))).right_type
      = OperandType.VALUE_LIST_TYPE ∧
    (condition_value_list_action (expression_id_action "a" "a")
        (comp_op_action CompOpRule.NOT_IN) (Value.of_int 1) (Value.of_int 2)
        (value_list_action ValueList.empty)).comp = NOT_IN_OP ∧
    (condition_value_list_action (expression_id_action "a" "a")
        (comp_op_action CompOpRule.NOT_IN) (Value.of_int 1) (Value.of_int 2)
        (value_list_action ValueList.empty)).right_value_list
      = [Value.of_int 1, Value.of_int 2] ∧
    (condition_value_list_action (expression_id_action "a" "a")
        (comp_op_action CompOpRule.LT) (Value.of_int 1) (Value.of_int 2)
        (value_list_action ValueList.empty)).comp = LESS_THAN ∧
    IN_OP ≠ NO_OP ∧ NOT_IN_OP ≠ IN_OP ∧ LESS_THAN ≠ IN_OP := by
  have hv := value_list_action_values vl
  have hlist : (condition_value_list_action l (comp_op_action op) v1 v2
      (value_list_action vl)).right_value_list = v1 :: v2 :: vl.values := by
    cases h : value_list_action vl with
    | none =>
      rw [h] at hv
      have hnil : vl.values = [] := by simpa using hv.symm
      cases h1 : l.is_expression <;> cases h2 : l.is_value <;>
        simp [condition_value_list_action, hnil, h1, h2]
    | some list =>
      rw [h] at hv
      have hl : list = vl.values.reverse := hv
      cases h1 : l.is_expression <;> cases h2 : l.is_value <;>
        simp [condition_value_list_action, hl, h1, h2]
  refine ⟨?_, hlist, by rw [hlist]; simp, ?_, by decide, ?_, by decide, by decide, by decide,
    by decide, by decide, by decide, by decide, by decide, by decide⟩
  · cases value_list_action vl <;> cases h1 : l.is_expression <;> cases h2 : l.is_value <;>
      simp [condition_value_list_action, h1, h2]
  · cases value_list_action vl <;> cases h1 : l.is_expression <;> cases h2 : l.is_value <;>
      simp [condition_value_list_action, h1, h2]
  · intro op1 op2
    cases op1 <;> cases op2 <;> first | (intro _; rfl) | (intro h; exact absurd h (by decide))

/-- The vector of one row is the written values of the row in reverse
order. -/
theorem insert_value_action_row (r : InsertValueRule) : r.action = r.row.reverse := by
  have hv := value_list_action_values r.value_list
  simp only [InsertValueRule.action, insert_value_action, InsertValueRule.row,
    List.reverse_cons]
  rw [hv]

/-- The vector the `insert_values` actions build, or the empty vector for a
null pointer, is the written values of the rows, all together in reverse
order. -/
theorem insert_values_action_rows (rest : InsertValues) :
    (match insert_values_action rest with | some l => l | none => [])
      = rest.rows.flatten.reverse := by
  induction rest with
  | empty => rfl
  | comma iv rest ih =>
    simp only [insert_values_action, InsertValues.rows, List.flatten_cons, List.reverse_append]
    rw [ih, insert_value_action_row]

/-- C27: for every `INSERT INTO t VALUES r1, r2, ..., rk` with `k >= 1` rows
(`first` is `r1`, `rest` the derivation of `, r2, ..., rk`), `insertion.values`
is `r1 ++ r2 ++ ... ++ rk`, the values of each row in the order written, and
its length is the sum of the row lengths. The last part is
`INSERT INTO t VALUES (1,'x'), (2,'y')`, which gives `[1,'x',2,'y']`. -/
theorem insert_values_order (id : String) (first : InsertValueRule) (rest : InsertValues) :
    (parse_insert id first rest).relation_name = id ∧
    (parse_insert id first rest).values = (first.row :: rest.rows).flatten ∧
    (parse_insert id first rest).values.length
      = ((first.row :: rest.rows).map List.length).sum ∧
    parse_insert "t" sample_insert_first sample_insert_rest
      = { relation_name := "t",
          values := [Value.of_int 1, Value.of_string "x" AttrType.CHARS,
                     Value.of_int 2, Value.of_string "y" AttrType.CHARS] } := by
  have hv : (parse_insert id first rest).values = (first.row :: rest.rows).flatten := by
    have hr := insert_values_action_rows rest
    cases h : insert_values_action rest with
    | none =>
      rw [h] at hr
      have hnil : rest.rows.flatten = [] := by simpa using hr.symm
      simp [parse_insert, insert_stmt_action, h, insert_value_action_row, hnil]
    | some l =>
      rw [h] at hr
      have hl : l = rest.rows.flatten.reverse := hr
      simp [parse_insert, insert_stmt_action, h, insert_value_action_row, hl]
  refine ⟨?_, hv, ?_, by decide⟩
  · cases h : insert_values_action rest <;> simp [parse_insert, insert_stmt_action, h]
  · rw [hv, List.length_flatten]

/-- The vector the `attr_def_list` actions build, or the empty vector for a
null pointer, is the written definitions in reverse order. -/
theorem attr_def_list_action_defs (rest : AttrDefList) :
    (match attr_def_list_action rest with | some l => l | none => [])
      = (rest.defs.map attr_def_action).reverse := by
  induction rest with
  | empty => rfl
  | comma d rest ih =>
    simp only [attr_def_list_action, AttrDefList.defs, List.map_cons, List.reverse_cons]
    rw [ih]

/-- What the `attr_def` actions store for a definition: the name and the type
written, the length written when there is one, and nullable unless `NOT NULL`
is written. -/
theorem attr_def_action_members (d : AttrDef) :
    (attr_def_action d).name = d.id ∧
    (attr_def_action d).type = type_action d.type ∧
    ((attr_def_action d).is_null = false ↔ d.nullable = NullableRule.NOT_NULLABLE) ∧
    (∀ id type number nullable, d = AttrDef.sized id type number nullable →
      (attr_def_action d).length = number) := by
  cases d with
  | sized id type number nullable =>
    refine ⟨rfl, rfl, ?_, ?_⟩
    · cases nullable <;> simp [attr_def_action, AttrDef.nullable, nullable_action]
    · intro id2 type2 number2 nullable2 h
      cases h
      rfl
  | plain id type nullable =>
    refine ⟨?_, ?_, ?_, ?_⟩
    · cases type <;> rfl
    · cases type <;> rfl
    · cases type <;> cases nullable <;>
        simp [attr_def_action, AttrDef.nullable, nullable_action, type_action]
    · intro id2 type2 number2 nullable2 h
      cases h

/-- C28: for every `CREATE TABLE t (d1, d2, ..., dn)` with `n >= 1` column
definitions (`first` is `d1`, `rest` the derivation of `, d2, ..., dn`),
`create_table.attr_infos` is the nodes of `d1, ..., dn` in the order written,
`n` of them, each with the name and the type written, the length written when
there is one and `is_null` false exactly for `NOT NULL`, and `has_select` is
false whatever the new node held. The last part is
`CREATE TABLE t(a INT, b CHAR(8) NOT NULL)`. -/
theorem create_table_attr_order (new_has_select : Bool) (id : String) (first : AttrDef)
    (rest : AttrDefList) :
    (parse_create_table new_has_select id first rest).relation_name = id ∧
    (parse_create_table new_has_select id first rest).attr_infos
      = (first :: rest.defs).map attr_def_action ∧
    (parse_create_table new_has_select id first rest).attr_infos.length
      = rest.defs.length + 1 ∧
    (parse_create_table new_has_select id first rest).has_select = false ∧
    (∀ d, d ∈ first :: rest.defs →
      (attr_def_action d).name = d.id ∧
      (attr_def_action d).type = type_action d.type ∧
      ((attr_def_action d).is_null = false ↔ d.nullable = NullableRule.NOT_NULLABLE) ∧
      (∀ name type number nullable, d = AttrDef.sized name type number nullable →
        (attr_def_action d).length = number)) ∧
    parse_create_table true "t" (AttrDef.plain "a" TypeRule.INT_T NullableRule.empty)
        (AttrDefList.comma (AttrDef.sized "b" TypeRule.STRING_T 8 NullableRule.NOT_NULLABLE)
          AttrDefList.empty)
      = { relation_name := "t",
          attr_infos :=
            [{ type := AttrType.INTS, name := "a", length := 4, is_null := true },
             { type := AttrType.CHARS, name := "b", length := 8, is_null := false }],
          has_select := false } := by
  have hv : (parse_create_table new_has_select id first rest).attr_infos
      = (first :: rest.defs).map attr_def_action := by
    have hr := attr_def_list_action_defs rest
    cases h : attr_def_list_action rest with
    | none =>
      rw [h] at hr
      have hnil : rest.defs = [] := by simpa using hr.symm
      simp [parse_create_table, create_table_stmt_action, h, hnil]
    | some l =>
      rw [h] at hr
      have hl : l = (rest.defs.map attr_def_action).reverse := hr
      simp [parse_create_table, create_table_stmt_action, h, hl]
  refine ⟨?_, hv, by rw [hv]; simp, ?_, fun d _ => attr_def_action_members d, by decide⟩
  · cases h : attr_def_list_action rest <;>
      simp [parse_create_table, create_table_stmt_action, h]
  · cases h : attr_def_list_action rest <;>
      simp [parse_create_table, create_table_stmt_action, h]

/-- The vector the `order_by_list` actions build, or the empty vector for a
null pointer, is the entries of the written keys in reverse order. -/
theorem order_by_list_action_written (l : OrderByList) :
    (match order_by_list_action l with | some v => v | none => [])
      = (l.written.map order_by_entry).reverse := by
  induction l with
  | empty => rfl
  | asc k rest ih =>
    simp only [order_by_list_action, OrderByList.written, List.map_cons, List.reverse_cons]
    rw [ih]
    rfl
  | plain k rest ih =>
    simp only [order_by_list_action, OrderByList.written, List.map_cons, List.reverse_cons]
    rw [ih]
    rfl
  | desc k rest ih =>
    simp only [order_by_list_action, OrderByList.written, List.map_cons, List.reverse_cons]
    rw [ih]
    rfl

/-- The value of `order`: a null pointer without an `ORDER BY` clause, and
otherwise the entries of the written keys in the order written. -/
theorem order_action_written (o : OrderRule) :
    order_action o
      = if o.written = [] then none else some (o.written.map order_by_entry) := by
  cases o with
  | empty => rfl
  | asc k rest =>
    have h := order_by_list_action_written rest
    simp only [order_action, OrderRule.written, List.map_cons]
    rw [h]
    simp [order_by_entry]
  | plain k rest =>
    have h := order_by_list_action_written rest
    simp only [order_action, OrderRule.written, List.map_cons]
    rw [h]
    simp [order_by_entry]
  | desc k rest =>
    have h := order_by_list_action_written rest
    simp only [order_action, OrderRule.written, List.map_cons]
    rw [h]
    simp [order_by_entry]

/-- The `FROM` and `WHERE` statements of the `select_stmt` action leave
`order_by` empty. -/
theorem select_stmt_from_action_order_by (id : String) (a : Option String)
    (r : Option InnerJoinSqlNode) (w : Option (List ConditionSqlNode)) :
    (select_stmt_from_action id a r w).order_by = [] := by
  cases w <;> cases r <;> cases a <;>
    simp only [select_stmt_from_action] <;>
    first | rfl | (split <;> rfl)

/-- The member `order_by` the `select_stmt` action leaves: the value of `order`
reversed, and empty for a null pointer. -/
theorem select_stmt_action_order_by (id : String) (a : Option String)
    (r : Option InnerJoinSqlNode) (w : Option (List ConditionSqlNode))
    (o : Option (List OrderBySqlNode)) :
    (select_stmt_action id a r w o).order_by
      = match o with
        | some l => l.reverse
        | none => [] := by
  have h := select_stmt_from_action_order_by id a r w
  cases o with
  | none => simpa only [select_stmt_action] using h
  | some l => simp only [select_stmt_action, h, List.append_nil]

/-- The `order_by` of a `SELECT` statement is the entries of the written keys
in reverse written order. -/
theorem select_order_by_written (id : String) (a : Option String)
    (r : Option InnerJoinSqlNode) (w : Option (List ConditionSqlNode)) (o : OrderRule) :
    (select_stmt_action id a r w (order_action o)).order_by
      = (o.written.map order_by_entry).reverse := by
  rw [select_stmt_action_order_by, order_action_written]
  by_cases h : o.written = []
  · simp [h]
  · simp [h]

/-- C29: for every `SELECT` with `ORDER BY k1 [dir1], ..., kn [dirn]`,
`selection.order_by` has exactly `n` entries, the entries of the written keys
(one for each, up to their order), and the entry of a key has the key and the
direction `DESC_ORDER_BY` exactly when `DESC` is written after the key, and
`ASC_ORDER_BY` exactly when `ASC` or nothing is. The last part is the clause
`ORDER BY a DESC, b, c ASC`. -/
theorem order_by_keys_and_directions (id : String) (a : Option String)
    (r : Option InnerJoinSqlNode) (w : Option (List ConditionSqlNode)) (o : OrderRule) :
    (select_stmt_action id a r w (order_action o)).order_by.length = o.written.length ∧
    List.Perm (select_stmt_action id a r w (order_action o)).order_by
      (o.written.map order_by_entry) ∧
    (∀ (k : RelAttrSqlNode) (d : WrittenDirection),
      (order_by_entry (k, d)).attrs = k ∧
      ((order_by_entry (k, d)).orderBySequence = OrderBySequence.DESC_ORDER_BY
        ↔ d = WrittenDirection.DESC) ∧
      ((order_by_entry (k, d)).orderBySequence = OrderBySequence.ASC_ORDER_BY
        ↔ d = WrittenDirection.ASC ∨ d = WrittenDirection.unwritten)) ∧
    List.Perm (select_stmt_action "t" none none none (order_action sample_order)).order_by
      [{ attrs := { attribute_name := "a" },
         orderBySequence := OrderBySequence.DESC_ORDER_BY },
       { attrs := { attribute_name := "b" },
         orderBySequence := OrderBySequence.ASC_ORDER_BY },
       { attrs := { attribute_name := "c" },
         orderBySequence := OrderBySequence.ASC_ORDER_BY }] := by
  have h := select_order_by_written id a r w o
  refine ⟨by rw [h]; simp, by rw [h]; exact List.reverse_perm _, ?_, ?_⟩
  · intro k d
    cases d <;> simp [order_by_entry]
  · rw [select_order_by_written]
    exact List.reverse_perm _

/-- C30: for every `SELECT` with `ORDER BY k1, ..., kn` the `order` action
yields the entries of `k1, ..., kn` in the order written, and the
`select_stmt` action reverses them, so `selection.order_by` is the entries of
`kn, ..., k1`, the primary sort key being its last element. The last part is
the clause `ORDER BY a DESC, b, c ASC`. -/
theorem order_by_storage_order (id : String) (a : Option String)
    (r : Option InnerJoinSqlNode) (w : Option (List ConditionSqlNode)) (o : OrderRule) :
    order_action o
      = (if o.written = [] then none else some (o.written.map order_by_entry)) ∧
    (select_stmt_action id a r w (order_action o)).order_by
      = (o.written.map order_by_entry).reverse ∧
    (∀ k rest, o.written = k :: rest →
      (select_stmt_action id a r w (order_action o)).order_by.getLast?
        = some (order_by_entry k)) ∧
    order_action sample_order
      = some [{ attrs := { attribute_name := "a" },
                orderBySequence := OrderBySequence.DESC_ORDER_BY },
              { attrs := { attribute_name := "b" },
                orderBySequence := OrderBySequence.ASC_ORDER_BY },
              { attrs := { attribute_name := "c" },
                orderBySequence := OrderBySequence.ASC_ORDER_BY }] ∧
    (select_stmt_action "t" none none none (order_action sample_order)).order_by
      = [{ attrs := { attribute_name := "c" },
           orderBySequence := OrderBySequence.ASC_ORDER_BY },
         { attrs := { attribute_name := "b" },
           orderBySequence := OrderBySequence.ASC_ORDER_BY },
         { attrs := { attribute_name := "a" },
           orderBySequence := OrderBySequence.DESC_ORDER_BY }] := by
  have h := select_order_by_written id a r w o
  refine ⟨order_action_written o, h, ?_, by decide, by decide⟩
  intro k rest hk
  rw [h, hk]
  simp

/-- C33: for every condition whose operator is below `EQUAL_TO` or at or above
`NO_OP`, `create_filter_unit` returns `INVALID_ARGUMENT` and leaves the output
`filter_unit` as the caller passed it, and it does so before it looks at an
operand: the result is the same whatever the environment, the database, the
default table, the scope map and the two sides of the condition are. -/
theorem create_filter_unit_operator_range (env : Env) (db : Db)
    (default_table : Option Table) (tables : Option (List (String × Table)))
    (c : ConditionSqlNode) (fu : Option FilterUnit)
    (h : c.comp < EQUAL_TO ∨ c.comp ≥ NO_OP) :
    create_filter_unit env db default_table tables c fu = (RC.INVALID_ARGUMENT, fu) ∧
    (∀ (env2 : Env) (db2 : Db) (default_table2 : Option Table)
        (tables2 : Option (List (String × Table))) (c2 : ConditionSqlNode),
      c2.comp = c.comp →
      create_filter_unit env2 db2 default_table2 tables2 c2 fu
        = create_filter_unit env db default_table tables c fu) := by
  have key : ∀ (env2 : Env) (db2 : Db) (default_table2 : Option Table)
      (tables2 : Option (List (String × Table))) (c2 : ConditionSqlNode),
      c2.comp = c.comp →
      create_filter_unit env2 db2 default_table2 tables2 c2 fu = (RC.INVALID_ARGUMENT, fu) := by
    intro env2 db2 dt2 tables2 c2 hc
    have h2 : c2.comp < EQUAL_TO ∨ c2.comp ≥ NO_OP := by rw [hc]; exact h
    simp only [create_filter_unit, h2, if_true]
  refine ⟨key env db default_table tables c rfl, ?_⟩
  intro env2 db2 dt2 tables2 c2 hc
  rw [key env2 db2 dt2 tables2 c2 hc, key env db default_table tables c rfl]

/-- Worked instance of C33: `zz = 3` with the operator `NO_OP` over the table
`t`, which has no column `zz`, returns `INVALID_ARGUMENT`, not the code of the
failed lookup, and the output stays the unit the caller passed; so does a
condition with the operator code -1. -/
theorem create_filter_unit_operator_range_witness :
    (sample_cond_no_op.comp < EQUAL_TO ∨ sample_cond_no_op.comp ≥ NO_OP) ∧
    (create_filter_unit sample_env sample_db (some sample_table) none sample_cond_no_op
        (some { comp := LIKE })
      = (RC.INVALID_ARGUMENT, some { comp := LIKE }) ∧
     (∀ (env2 : Env) (db2 : Db) (default_table2 : Option Table)
        (tables2 : Option (List (String × Table))) (c2 : ConditionSqlNode),
      c2.comp = sample_cond_no_op.comp →
      create_filter_unit env2 db2 default_table2 tables2 c2 (some { comp := LIKE })
        = create_filter_unit sample_env sample_db (some sample_table) none sample_cond_no_op
            (some { comp := LIKE }))) ∧
    create_filter_unit sample_env sample_db (some sample_table) none sample_cond_negative_op
        none
      = (RC.INVALID_ARGUMENT, none) ∧
    (create_filter_unit sample_env sample_db (some sample_table) none
        { sample_cond_no_op with comp := EQUAL_TO } none).1 = RC.SCHEMA_FIELD_NOT_EXIST :=
  ⟨by decide,
    create_filter_unit_operator_range sample_env sample_db (some sample_table) none
      sample_cond_no_op (some { comp := LIKE }) (by decide),
    by decide, by decide⟩

/-- The left block stores, with `set_left`, what `bind_operand` computes from
the left side. -/
theorem create_filter_unit_left_bind (env : Env) (db : Db) (default_table : Option Table)
    (tables : Option (List (String × Table))) (c : ConditionSqlNode) (rc : RC)
    (u : FilterUnit) :
    create_filter_unit_left env db default_table tables c rc u
      = match bind_operand env db default_table tables c.left_is_attr c.left_attr
          c.left_value rc with
        | Except.error e => Except.error e
        | Except.ok (rc1, obj) => Except.ok (rc1, u.set_left obj) := by
  unfold create_filter_unit_left bind_operand
  dsimp only
  split_ifs <;> first | rfl | (split <;> rfl)

/-- The right block stores, with `set_right`, what `bind_operand` computes from
the right side. -/
theorem create_filter_unit_right_bind (env : Env) (db : Db) (default_table : Option Table)
    (tables : Option (List (String × Table))) (c : ConditionSqlNode) (rc : RC)
    (u : FilterUnit) :
    create_filter_unit_right env db default_table tables c rc u
      = match bind_operand env db default_table tables c.right_is_attr c.right_attr
          c.right_value rc with
        | Except.error e => Except.error e
        | Except.ok (rc1, obj) => Except.ok (rc1, u.set_right obj) := by
  unfold create_filter_unit_right bind_operand
  dsimp only
  split_ifs <;> first | rfl | (split <;> rfl)

/-- What `bind_operand` gives does not depend on the code passed in, except
for the code it hands back: either it fails with one code that is not
`SUCCESS`, or started with `SUCCESS` it gives an operand with `SUCCESS`. -/
theorem bind_operand_cases (env : Env) (db : Db) (default_table : Option Table)
    (tables : Option (List (String × Table))) (is_attr : Bool) (attr : RelAttrSqlNode)
    (value : Value) :
    (∃ e, e ≠ RC.SUCCESS ∧
      bind_operand env db default_table tables is_attr attr value RC.SUCCESS = Except.error e) ∨
    (∃ obj,
      bind_operand env db default_table tables is_attr attr value RC.SUCCESS
        = Except.ok (RC.SUCCESS, obj)) := by
  unfold bind_operand
  dsimp only
  split_ifs with h1 h2 h3 h4 h5 h6
  · exact Or.inl ⟨_, h3, rfl⟩
  · exact Or.inr ⟨_, by rw [not_not.mp h3]⟩
  · exact Or.inl ⟨_, h4, rfl⟩
  · split
    · exact Or.inr ⟨_, by rw [not_not.mp h4]⟩
    · exact Or.inr ⟨_, by rw [not_not.mp h4]⟩
    · exact Or.inr ⟨_, by rw [not_not.mp h4]⟩
    · exact Or.inl ⟨_, by decide, rfl⟩
  · exact Or.inr ⟨_, by rw [not_not.mp h4]⟩
  · exact Or.inl ⟨_, by decide, rfl⟩
  · exact Or.inr ⟨_, rfl⟩

/-- With an accepted operator, `create_filter_unit` in terms of the operands
of the two sides: the code of the first side that fails, and otherwise
`SUCCESS` with the unit holding the left operand, the right operand and the
operator. -/
theorem create_filter_unit_bind (env : Env) (db : Db) (default_table : Option Table)
    (tables : Option (List (String × Table))) (c : ConditionSqlNode) (fu : Option FilterUnit)
    (hc : ¬ (c.comp < EQUAL_TO ∨ c.comp ≥ NO_OP)) :
    create_filter_unit env db default_table tables c fu
      = match bind_operand env db default_table tables c.left_is_attr c.left_attr
          c.left_value RC.SUCCESS with
        | Except.error e => (e, some {})
        | Except.ok (rc1, lobj) =>
          match bind_operand env db default_table tables c.right_is_attr c.right_attr
              c.right_value rc1 with
          | Except.error e => (e, some { left := some lobj })
          | Except.ok (rc2, robj) =>
            (rc2, some { comp := c.comp, left := some lobj, right := some robj }) := by
  simp only [create_filter_unit, hc, if_false, create_filter_unit_left_bind,
    create_filter_unit_right_bind]
  cases bind_operand env db default_table tables c.left_is_attr c.left_attr
      c.left_value RC.SUCCESS with
  | error e => rfl
  | ok p =>
    obtain ⟨rc1, lobj⟩ := p
    dsimp only
    cases bind_operand env db default_table tables c.right_is_attr c.right_attr
        c.right_value rc1 with
    | error e => rfl
    | ok p2 => rfl

/-- C34: for every condition `c` and the condition obtained by exchanging its
two sides (attribute flag, attribute reference and literal value) with the
operator kept, `create_filter_unit` succeeds on the one exactly when it
succeeds on the other, and on success the unit of the exchanged condition has
the left operand of the unit of `c` as its right operand, the right operand as
its left operand, and the same operator. The last part is `t.a = 3` and its
exchange `3 = t.a`. -/
theorem create_filter_unit_symmetry (env : Env) (db : Db) (default_table : Option Table)
    (tables : Option (List (String × Table))) (c : ConditionSqlNode)
    (fu fu2 : Option FilterUnit) :
    ((create_filter_unit env db default_table tables c fu).1 = RC.SUCCESS ↔
      (create_filter_unit env db default_table tables c.swap_sides fu2).1 = RC.SUCCESS) ∧
    ((create_filter_unit env db default_table tables c fu).1 = RC.SUCCESS →
      ∃ lobj robj,
        (create_filter_unit env db default_table tables c fu).2
          = some { comp := c.comp, left := some lobj, right := some robj } ∧
        (create_filter_unit env db default_table tables c.swap_sides fu2).2
          = some { comp := c.comp, left := some robj, right := some lobj }) ∧
    (create_filter_unit sample_env sample_db none (some sample_tables) sample_cond_t_a none
        = (RC.SUCCESS, some
            { comp := EQUAL_TO,
              left := some (FilterObj.attr
                (Field.mk (some sample_table) (sample_table.table_meta.field "a"))),
              right := some (FilterObj.value (Value.of_int 3)) }) ∧
      create_filter_unit sample_env sample_db none (some sample_tables)
          sample_cond_t_a.swap_sides none
        = (RC.SUCCESS, some
            { comp := EQUAL_TO,
              left := some (FilterObj.value (Value.of_int 3)),
              right := some (FilterObj.attr
                (Field.mk (some sample_table) (sample_table.table_meta.field "a"))) })) := by
  refine ⟨?_, ?_, by decide, by decide⟩
  all_goals
    by_cases hc : c.comp < EQUAL_TO ∨ c.comp ≥ NO_OP
    · have hc2 : c.swap_sides.comp < EQUAL_TO ∨ c.swap_sides.comp ≥ NO_OP := hc
      simp [create_filter_unit, hc, hc2]
    · have hc2 : ¬ (c.swap_sides.comp < EQUAL_TO ∨ c.swap_sides.comp ≥ NO_OP) := hc
      rw [create_filter_unit_bind _ _ _ _ c fu hc,
        create_filter_unit_bind _ _ _ _ c.swap_sides fu2 hc2]
      simp only [ConditionSqlNode.swap_sides]
      rcases bind_operand_cases env db default_table tables c.left_is_attr c.left_attr
          c.left_value with ⟨e, he, hl⟩ | ⟨lobj, hl⟩
      · rcases bind_operand_cases env db default_table tables c.right_is_attr c.right_attr
            c.right_value with ⟨e2, he2, hr⟩ | ⟨robj, hr⟩
        · simp [hl, hr, he, he2]
        · simp [hl, hr, he]
      · rcases bind_operand_cases env db default_table tables c.right_is_attr c.right_attr
            c.right_value with ⟨e2, he2, hr⟩ | ⟨robj, hr⟩
        · simp [hl, hr, he2]
        · first
            | (simp only [hl, hr]; exact fun _ => ⟨lobj, robj, rfl, rfl⟩)
            | simp [hl, hr]

/-- The node of an `INSERT` statement holds the table name and the values of
all rows in one sequence, in the order written. -/
theorem parse_insert_flat (id : String) (first : InsertValueRule) (rest : InsertValues) :
    parse_insert id first rest
      = { relation_name := id, values := (first.row :: rest.rows).flatten } := by
  have hr := insert_values_action_rows rest
  cases h : insert_values_action rest with
  | none =>
    rw [h] at hr
    have hnil : rest.rows.flatten = [] := by simpa using hr.symm
    simp [parse_insert, insert_stmt_action, h, insert_value_action_row, hnil]
  | some l =>
    rw [h] at hr
    have hl : l = rest.rows.flatten.reverse := hr
    simp [parse_insert, insert_stmt_action, h, insert_value_action_row, hl]

/-- C35: two `INSERT` statements into the same table whose rows, concatenated
in the order written, give the same value sequence have equal `insertion`
nodes: the node is the table name and that one sequence, with no arity of a
row in it. -/
theorem insert_loses_row_boundaries (id : String) (first first2 : InsertValueRule)
    (rest rest2 : InsertValues)
    (h : (first.row :: rest.rows).flatten = (first2.row :: rest2.rows).flatten) :
    parse_insert id first rest = parse_insert id first2 rest2 ∧
    parse_insert id first rest
      = { relation_name := id, values := (first.row :: rest.rows).flatten } := by
  refine ⟨?_, parse_insert_flat id first rest⟩
  rw [parse_insert_flat, parse_insert_flat, h]

/-- Worked instance of C35: `VALUES (1,2),(3,4)` and `VALUES (1,2,3,4)` into
`t` are written with rows of different arity and give the same node, holding
`[1,2,3,4]`. -/
theorem insert_loses_row_boundaries_witness :
    (sample_rows_two.1.row :: sample_rows_two.2.rows)
        ≠ (sample_rows_one.1.row :: sample_rows_one.2.rows) ∧
    (sample_rows_two.1.row :: sample_rows_two.2.rows).flatten
        = (sample_rows_one.1.row :: sample_rows_one.2.rows).flatten ∧
    (parse_insert "t" sample_rows_two.1 sample_rows_two.2
        = parse_insert "t" sample_rows_one.1 sample_rows_one.2 ∧
      parse_insert "t" sample_rows_two.1 sample_rows_two.2
        = { relation_name := "t",
            values := (sample_rows_two.1.row :: sample_rows_two.2.rows).flatten }) ∧
    parse_insert "t" sample_rows_one.1 sample_rows_one.2
      = { relation_name := "t",
          values := [Value.of_int 1, Value.of_int 2, Value.of_int 3, Value.of_int 4] } :=
  ⟨by decide, by decide,
    insert_loses_row_boundaries "t" sample_rows_two.1 sample_rows_one.1 sample_rows_two.2
      sample_rows_one.2 (by decide),
    by decide⟩

/-- C38: the `attr_def` and `nullable` actions. A definition without a length
gets the length 10 for `DATES`, 8 for `TEXTS` and 4 for every other type,
`CHARS` among them; a definition with `(n)` gets the length `n` whatever the
type; and `is_null` is true when nothing or `NULL` is written and false when
`NOT NULL` is, so it is false exactly for `NOT NULL`. -/
theorem attr_def_defaults (id : String) (type : TypeRule) (number : Int)
    (nullable : NullableRule) :
    (attr_def_action (AttrDef.plain id type nullable)).length
      = (if type_action type = AttrType.DATES then 10
         else if type_action type = AttrType.TEXTS then 8 else 4) ∧
    (attr_def_action (AttrDef.plain id TypeRule.DATE_T nullable)).length = 10 ∧
    (attr_def_action (AttrDef.plain id TypeRule.TEXT_T nullable)).length = 8 ∧
    (attr_def_action (AttrDef.plain id TypeRule.INT_T nullable)).length = 4 ∧
    (attr_def_action (AttrDef.plain id TypeRule.FLOAT_T nullable)).length = 4 ∧
    (attr_def_action (AttrDef.plain id TypeRule.STRING_T nullable)).length = 4 ∧
    (attr_def_action (AttrDef.sized id type number nullable)).length = number ∧
    (attr_def_action (AttrDef.plain id type nullable)).is_null = nullable_action nullable ∧
    (attr_def_action (AttrDef.sized id type number nullable)).is_null
      = nullable_action nullable ∧
    nullable_action NullableRule.empty = true ∧
    nullable_action NullableRule.NULLABLE = true ∧
    nullable_action NullableRule.NOT_NULLABLE = false ∧
    (nullable_action nullable = false ↔ nullable = NullableRule.NOT_NULLABLE) ∧
    (attr_def_action (AttrDef.plain id type nullable)).name = id ∧
    (attr_def_action (AttrDef.plain id type nullable)).type = type_action type ∧
    (attr_def_action (AttrDef.sized id type number nullable)).name = id ∧
    (attr_def_action (AttrDef.sized id type number nullable)).type = type_action type := by
  refine ⟨?_, rfl, rfl, rfl, rfl, rfl, rfl, ?_, rfl, rfl, rfl, rfl, ?_, ?_, ?_, rfl, rfl⟩
  · cases type <;> rfl
  · cases type <;> rfl
  · cases nullable <;> simp [nullable_action]
  · cases type <;> rfl
  · cases type <;> rfl

/-- Every derivation of `update_list` but the empty one gives a vector with at
least one assignment. -/
theorem update_list_action_nonempty (l : UpdateList) (h : l ≠ UpdateList.empty) :
    ∃ v, update_list_action l = some v ∧ v ≠ [] := by
  cases l with
  | empty => exact absurd rfl h
  | value id v => exact ⟨_, rfl, by simp⟩
  | value_comma id v rest => exact ⟨_, rfl, by simp⟩
  | select id s => exact ⟨_, rfl, by simp⟩
  | select_comma id s rest => exact ⟨_, rfl, by simp⟩

/-- C32: the value of `update_list` in a reduction of `update_stmt`. The rule
`update_list: %empty` gives a null pointer, and for it the action of
`update_stmt`, which swaps with `*$4` without a test, is undefined:
`UPDATE t SET` and `UPDATE t SET WHERE a = 1` have no node. Every other
derivation of `update_list` gives a vector with at least one assignment, and
with it the action is defined (here with any value of `where`). -/
theorem update_list_null_dereferenced :
    update_list_action UpdateList.empty = none ∧
    parse_update "t" UpdateList.empty WhereRule.empty = none ∧
    parse_update "t" UpdateList.empty
        (WhereRule.WHERE (ConditionList.single sample_parsed_a_1)) = none ∧
    (∀ (id : String) (where_list : Option (List ConditionSqlNode)),
      update_stmt_action id (update_list_action UpdateList.empty) where_list = none) ∧
    (∀ l : UpdateList, l ≠ UpdateList.empty →
      ∃ v, update_list_action l = some v ∧ v ≠ [] ∧
        ∀ (id : String) (where_list : Option (List ConditionSqlNode)),
          ∃ u, update_stmt_action id (update_list_action l) where_list = some u ∧
            u.updateValue_list = v) ∧
    update_list_action sample_update_list
      = some [{ is_select := false, value := Value.of_int 6, attribute_name := "b" },
              { is_select := false, value := Value.of_int 5, attribute_name := "a" }] := by
  refine ⟨rfl, rfl, rfl, fun _ _ => rfl, ?_, by decide⟩
  intro l hl
  obtain ⟨v, hv, hne⟩ := update_list_action_nonempty l hl
  refine ⟨v, hv, hne, ?_⟩
  intro id where_list
  rw [hv]
  cases where_list with
  | none => exact ⟨_, rfl, rfl⟩
  | some w => exact ⟨_, rfl, rfl⟩

/-- The vector the `id_list` actions build, or the empty vector for a null
pointer, is the written names in reverse order. -/
theorem id_list_action_ids (rest : IdList) :
    (match id_list_action rest with | some l => l | none => []) = rest.ids.reverse := by
  induction rest with
  | empty => rfl
  | comma id rest ih =>
    simp only [id_list_action, IdList.ids, List.reverse_cons]
    rw [ih]

/-- C39: for every `CREATE [UNIQUE] INDEX i ON t (c1, ..., cn)` with `n >= 1`
(`id` is `c1`, `rest` the derivation of `, c2, ..., cn`),
`create_index.attribute_name` is `[c1, ..., cn]` in the order written, `n`
names, `is_unique` is true exactly when `UNIQUE` is written, whatever the new
node held, and the index and table names are the ones written. The last part
is `CREATE UNIQUE INDEX i ON t (a, b, c)`. -/
theorem create_index_columns (new_is_unique unique : Bool) (index relation id : String)
    (rest : IdList) :
    (parse_create_index new_is_unique unique index relation id rest).attribute_name
      = id :: rest.ids ∧
    (parse_create_index new_is_unique unique index relation id rest).attribute_name.length
      = rest.ids.length + 1 ∧
    (parse_create_index new_is_unique unique index relation id rest).is_unique = unique ∧
    (parse_create_index new_is_unique unique index relation id rest).index_name = index ∧
    (parse_create_index new_is_unique unique index relation id rest).relation_name
      = relation ∧
    parse_create_index false true "i" "t" "a"
        (IdList.comma "b" (IdList.comma "c" IdList.empty))
      = { index_name := "i", relation_name := "t", is_unique := true,
          attribute_name := ["a", "b", "c"] } := by
  have hr := id_list_action_ids rest
  have hv : (parse_create_index new_is_unique unique index relation id rest).attribute_name
      = id :: rest.ids := by
    cases h : id_list_action rest with
    | none =>
      rw [h] at hr
      have hnil : rest.ids = [] := by simpa using hr.symm
      cases unique <;>
        simp [parse_create_index, create_index_stmt_action, create_unique_index_stmt_action,
          h, hnil]
    | some l =>
      rw [h] at hr
      have hl : l = rest.ids.reverse := hr
      cases unique <;>
        simp [parse_create_index, create_index_stmt_action, create_unique_index_stmt_action,
          h, hl]
  refine ⟨hv, by rw [hv]; simp, ?_, ?_, ?_, by decide⟩
  all_goals
    cases h : id_list_action rest <;> cases unique <;>
      simp [parse_create_index, create_index_stmt_action, create_unique_index_stmt_action, h]

/-- An arithmetic action on operands with one expression object each is
defined and gives one expression object. -/
theorem expression_arithmetic_action_one (type : ArithmeticType) (l r : ExpressionSqlNode)
    (name : String) (hl : l.expression.length = 1) (hr : r.expression.length = 1) :
    ∃ e, expression_arithmetic_action type l r name = some e ∧ e.expression.length = 1 := by
  cases hl0 : l.expression with
  | nil => rw [hl0] at hl; cases hl
  | cons l0 lrest =>
    cases hr0 : r.expression with
    | nil => rw [hr0] at hr; cases hr
    | cons r0 rrest =>
      simp only [expression_arithmetic_action, hl0, hr0, List.head?_cons]
      exact ⟨_, rfl, rfl⟩

/-- The parenthesis action on a node with one expression object is defined and
gives one expression object. -/
theorem expression_paren_action_one (inner : ExpressionSqlNode) (name : String)
    (h : inner.expression.length = 1) :
    ∃ e, expression_paren_action inner name = some e ∧ e.expression.length = 1 := by
  cases h0 : inner.expression with
  | nil => rw [h0] at h; cases h
  | cons e0 rest =>
    rw [h0] at h
    simp only [expression_paren_action, h0]
    exact ⟨_, rfl, h⟩

/-- The action of unary minus on a node with one expression object is defined
and gives one expression object. -/
theorem expression_negative_action_one (operand : ExpressionSqlNode) (name : String)
    (h : operand.expression.length = 1) :
    ∃ e, expression_negative_action operand name = some e ∧ e.expression.length = 1 := by
  cases h0 : operand.expression with
  | nil => rw [h0] at h; cases h
  | cons e0 rest =>
    simp only [expression_negative_action, h0, List.head?_cons]
    exact ⟨_, rfl, rfl⟩

/-- On a derivation without a function call every action is defined, and the
node holds exactly one expression object. -/
theorem expression_action_function_free (new_is_right : Bool) (r : ExpressionRule)
    (h : r.function_free = true) :
    ∃ e, expression_action new_is_right r = some e ∧ e.expression.length = 1 := by
  induction r with
  | add l r name ihl ihr | sub l r name ihl ihr | mul l r name ihl ihr
  | div l r name ihl ihr =>
    simp only [ExpressionRule.function_free, Bool.and_eq_true] at h
    obtain ⟨a, ha, hla⟩ := ihl h.1
    obtain ⟨b, hb, hlb⟩ := ihr h.2
    obtain ⟨e, he, hle⟩ := expression_arithmetic_action_one _ a b name hla hlb
    exact ⟨e, by simp only [expression_action, ha, hb]; exact he, hle⟩
  | paren inner name ih =>
    obtain ⟨a, ha, hla⟩ := ih h
    obtain ⟨e, he, hle⟩ := expression_paren_action_one a name hla
    exact ⟨e, by simp only [expression_action, ha]; exact he, hle⟩
  | negative operand name ih =>
    obtain ⟨a, ha, hla⟩ := ih h
    obtain ⟨e, he, hle⟩ := expression_negative_action_one a name hla
    exact ⟨e, by simp only [expression_action, ha]; exact he, hle⟩
  | value v name => exact ⟨_, rfl, rfl⟩
  | ID id name => exact ⟨_, rfl, rfl⟩
  | agg a args name => exact ⟨_, rfl, rfl⟩
  | ID_DOT_ID rel attr name => exact ⟨_, rfl, rfl⟩
  | agg_ID_DOT_ID a rel attr name => exact ⟨_, rfl, rfl⟩
  | star name => exact ⟨_, rfl, rfl⟩
  | ID_DOT_star rel name => exact ⟨_, rfl, rfl⟩
  | LENGTH_func p name => cases h
  | ROUND_func p name => cases h
  | FORMAT_func p name => cases h

/-- A node the actions mark as a compound expression holds an expression
object: the arithmetic, unary minus and parenthesis actions, the only ones that
set `is_expression`, leave one in `expression` whenever they are defined. -/
theorem expression_action_compound_nonempty (new_is_right : Bool) (r : ExpressionRule)
    (e : ExpressionSqlNode) (h : expression_action new_is_right r = some e)
    (hc : e.is_expression = true) : e.expression ≠ [] := by
  cases r with
  | add l r name | sub l r name | mul l r name | div l r name =>
    simp only [expression_action] at h
    cases ha : expression_action new_is_right l with
    | none => simp [ha] at h
    | some a =>
      cases hb : expression_action new_is_right r with
      | none => simp [ha, hb] at h
      | some b =>
        simp only [ha, hb, expression_arithmetic_action] at h
        cases hl0 : a.expression.head? with
        | none => simp [hl0] at h
        | some l0 =>
          cases hr0 : b.expression.head? with
          | none => simp [hl0, hr0] at h
          | some r0 =>
            simp only [hl0, hr0, Option.some.injEq] at h
            rw [← h]
            simp
  | paren inner name =>
    simp only [expression_action] at h
    cases ha : expression_action new_is_right inner with
    | none => simp [ha] at h
    | some a =>
      simp only [ha, expression_paren_action] at h
      cases h0 : a.expression with
      | nil => simp [h0] at h
      | cons e0 rest =>
        simp only [h0, Option.some.injEq] at h
        rw [← h]
        simp
  | negative operand name =>
    simp only [expression_action] at h
    cases ha : expression_action new_is_right operand with
    | none => simp [ha] at h
    | some a =>
      simp only [ha, expression_negative_action] at h
      cases h0 : a.expression.head? with
      | none => simp [h0] at h
      | some e0 =>
        simp only [h0, Option.some.injEq] at h
        rw [← h]
        simp
  | value v name =>
    simp only [expression_action, Option.some.injEq] at h
    rw [← h]; simp [expression_value_action]
  | ID id name =>
    simp only [expression_action, Option.some.injEq] at h
    rw [← h]; simp [expression_id_action]
  | agg a args name =>
    simp only [expression_action, Option.some.injEq] at h
    rw [← h]; simp [expression_agg_action]
  | ID_DOT_ID rel attr name =>
    simp only [expression_action, Option.some.injEq] at h
    rw [← h]; simp [expression_id_dot_id_action]
  | agg_ID_DOT_ID a rel attr name =>
    simp only [expression_action, Option.some.injEq] at h
    rw [← h]; simp [expression_agg_id_dot_id_action]
  | star name =>
    simp only [expression_action, Option.some.injEq] at h
    rw [← h]; simp [expression_star_action]
  | ID_DOT_star rel name =>
    simp only [expression_action, Option.some.injEq] at h
    rw [← h]; simp [expression_id_dot_star_action]
  | LENGTH_func p name =>
    simp only [expression_action, Option.some.injEq] at h
    rw [← h] at hc
    simp [expression_length_action] at hc
  | ROUND_func p name =>
    simp only [expression_action, Option.some.injEq] at h
    rw [← h] at hc
    simp [expression_round_action] at hc
  | FORMAT_func p name =>
    simp only [expression_action, Option.some.injEq] at h
    rw [← h] at hc
    simp [expression_format_action] at hc

/-- C31: the `expression` vector of the nodes of the non-terminal
`expression`. The actions of `LENGTH`, `ROUND` and `DATE_FORMAT` push nothing
into it, so their node has an empty vector, and an arithmetic, unary minus or
parenthesis action on such a node reads element 0 of an empty vector:
`LENGTH(name) + 1` and `(ROUND(a))` have no defined node. For a derivation
without a function call every action is defined and the vector holds exactly
one object, and a node marked as a compound expression, the only kind the
alias actions index, always holds one. -/
theorem expression_vector_function_call_empty :
    (∀ (init : Bool) (p : LengthParam) (name : String),
      ∃ e, expression_action init (ExpressionRule.LENGTH_func p name) = some e ∧
        e.expression = []) ∧
    (∀ (init : Bool) (p : RoundParam) (name : String),
      ∃ e, expression_action init (ExpressionRule.ROUND_func p name) = some e ∧
        e.expression = []) ∧
    (∀ (init : Bool) (p : FormatParam) (name : String),
      ∃ e, expression_action init (ExpressionRule.FORMAT_func p name) = some e ∧
        e.expression = []) ∧
    (∀ (init : Bool) (p : LengthParam) (name name2 : String) (r : ExpressionRule),
      expression_action init
          (ExpressionRule.add (ExpressionRule.LENGTH_func p name) r name2) = none ∧
      expression_action init
          (ExpressionRule.add r (ExpressionRule.LENGTH_func p name) name2) = none ∧
      expression_action init
          (ExpressionRule.paren (ExpressionRule.LENGTH_func p name) name2) = none ∧
      expression_action init
          (ExpressionRule.negative (ExpressionRule.LENGTH_func p name) name2) = none) ∧
    expression_action true sample_expr_length_plus = none ∧
    expression_action true sample_expr_paren_round = none ∧
    (∀ (init : Bool) (r : ExpressionRule), r.function_free = true →
      ∃ e, expression_action init r = some e ∧ e.expression.length = 1) ∧
    (∀ (init : Bool) (r : ExpressionRule) (e : ExpressionSqlNode),
      expression_action init r = some e → e.is_expression = true → e.expression ≠ []) ∧
    Option.map (fun e : ExpressionSqlNode => e.expression.length)
        (expression_action true sample_expr_compound) = some 1 := by
  refine ⟨fun _ _ _ => ⟨_, rfl, rfl⟩, fun _ _ _ => ⟨_, rfl, rfl⟩, fun _ _ _ => ⟨_, rfl, rfl⟩,
    ?_, by decide, by decide, expression_action_function_free,
    expression_action_compound_nonempty, by decide⟩
  intro init p name name2 r
  refine ⟨?_, ?_, rfl, rfl⟩
  · cases hr : expression_action init r with
    | none => simp [expression_action, hr]
    | some b =>
      simp [expression_action, hr, expression_arithmetic_action, expression_length_action]
  · cases hr : expression_action init r with
    | none => simp [expression_action, hr]
    | some b =>
      simp only [expression_action, hr, expression_arithmetic_action,
        expression_length_action]
      cases b.expression.head? <;> rfl

/-- The value of `arg_list`: a null pointer when no argument is written, and
otherwise the vector of the written arguments in reverse order. -/
theorem arg_list_action_eq (a : ArgList) :
    arg_list_action a = if a.elements = [] then none else some a.elements.reverse := by
  induction a with
  | empty => rfl
  | star => rfl
  | star_comma rest ih =>
    simp only [arg_list_action, ArgList.elements, ih]
    by_cases h : rest.elements = [] <;> simp [h]
  | ID arg => rfl
  | ID_comma arg rest ih =>
    simp only [arg_list_action, ArgList.elements, ih]
    by_cases h : rest.elements = [] <;> simp [h]

/-- The attribute reference the action of `expression: agg(arg_list)` pushes:
for one argument the reference to it with the aggregate, marked right, and
otherwise a reference marked not right. -/
theorem expression_agg_action_node (agg : AggOp) (args : ArgList) (name : String) :
    (expression_agg_action agg (arg_list_action args) name).relAttrSqlNodes
      = [match args.elements with
         | [x] =>
           { attribute_name := x, is_right := true, agg := agg, func := FuncOp.NO_FUNC,
             sqlString := name }
         | _ => { is_right := false, sqlString := name }] ∧
    (expression_agg_action agg (arg_list_action args) name).is_expression = false := by
  rw [arg_list_action_eq]
  cases h : args.elements with
  | nil => exact ⟨rfl, rfl⟩
  | cons x rest =>
    cases rest with
    | nil => exact ⟨rfl, rfl⟩
    | cons y rest2 =>
      refine ⟨?_, by simp [expression_agg_action]⟩
      simp [expression_agg_action]

/-- The attribute reference the action of `rel_attr: agg(arg_list) as` builds,
before the alias is stored. -/
theorem rel_attr_agg_action_node (agg : AggOp) (args : ArgList) (as_name : Option String) :
    rel_attr_agg_action agg (arg_list_action args) as_name
      = match as_name with
        | some a =>
          { (match args.elements with
             | [x] => ({ attribute_name := x, is_right := true, agg := agg } : RelAttrSqlNode)
             | _ => { is_right := false }) with alias_name := a }
        | none =>
          match args.elements with
          | [x] => { attribute_name := x, is_right := true, agg := agg }
          | _ => { is_right := false } := by
  rw [arg_list_action_eq]
  cases h : args.elements with
  | nil => cases as_name <;> rfl
  | cons x rest =>
    cases rest with
    | nil => cases as_name <;> rfl
    | cons y rest2 => cases as_name <;> simp [rel_attr_agg_action]

/-- The opening statement of the `expression_list` actions on a node that is no
compound expression and holds one attribute reference: with an alias the
reference gets the alias and, when it is a `*` without aggregate, is marked not
right; without an alias a `*` is marked right. -/
theorem expression_list_as_block_one (e : ExpressionSqlNode) (n : RelAttrSqlNode)
    (as_name : Option String) (he : e.is_expression = false) (hn : e.relAttrSqlNodes = [n]) :
    expression_list_as_block e as_name
      = some { e with
          relAttrSqlNodes :=
            [match as_name with
             | some a =>
               if n.attribute_name = "*" ∧ n.agg = AggOp.NO_AGG then
                 { n with is_right := false, alias_name := a }
               else { n with alias_name := a }
             | none =>
               if n.attribute_name = "*" then { n with is_right := true } else n] } := by
  cases as_name with
  | some a =>
    by_cases hs : n.attribute_name = "*" ∧ n.agg = AggOp.NO_AGG
    · simp [expression_list_as_block, he, hn, vec0, hs]
    · simp [expression_list_as_block, he, hn, vec0, hs]
  | none =>
    by_cases hs : n.attribute_name = "*"
    · simp [expression_list_as_block, hn, vec0, hs]
    · simp only [expression_list_as_block, hn, vec0, List.headD_cons, hs, and_false, if_false]
      rw [← hn]

/-- C36: for every aggregate call `agg(args)`, as the rule
`expression: agg(arg_list)` of a select item and as the rule
`rel_attr: agg(arg_list) as` build it. With exactly one argument `x` (a name or
`*`) the attribute reference has `is_right = true`, `attribute_name = x` and
the aggregate written; with none or with two or more it has
`is_right = false`. The opening statement of the `expression_list` actions,
which handles the alias of the select item, keeps `is_right` as the rule left
it. Each of the five rules of `agg` gives its own enumerator (`MAX` gives
`MAX_AGG`, `MIN` gives `MIN_AGG`, `AVG` gives `AVG_AGG`, `COUNT` gives
`COUNT_AGG`, `SUM` gives `SUM_AGG`), none of them `NO_AGG` and no two rules
the same one. The last parts are `COUNT(*)`, `COUNT()`, `COUNT(a, b)`,
`MAX(a)` as a select item and `SUM(b)`, `MIN(*)`, `AVG(a, b)` as a
`rel_attr`. -/
theorem aggregate_argument_count (agg : AggRule) (args : ArgList) (name : String)
    (as_rule : AsRule) :
    (∀ x, args.elements = [x] →
      (∃ n, (expression_agg_action (agg_action agg) (arg_list_action args)
            name).relAttrSqlNodes = [n] ∧
          n.is_right = true ∧ n.attribute_name = x ∧ n.agg = agg_action agg) ∧
      (rel_attr_agg_action (agg_action agg) (arg_list_action args)
          (as_action as_rule)).is_right = true ∧
      (rel_attr_agg_action (agg_action agg) (arg_list_action args)
          (as_action as_rule)).attribute_name = x ∧
      (rel_attr_agg_action (agg_action agg) (arg_list_action args)
          (as_action as_rule)).agg = agg_action agg) ∧
    (args.elements.length ≠ 1 →
      (∃ n, (expression_agg_action (agg_action agg) (arg_list_action args)
            name).relAttrSqlNodes = [n] ∧ n.is_right = false) ∧
      (rel_attr_agg_action (agg_action agg) (arg_list_action args)
          (as_action as_rule)).is_right = false) ∧
    (∃ e n m,
      (expression_agg_action (agg_action agg) (arg_list_action args) name).relAttrSqlNodes
        = [n] ∧
      expression_list_as_block
          (expression_agg_action (agg_action agg) (arg_list_action args) name)
          (as_action as_rule) = some e ∧
      e.relAttrSqlNodes = [m] ∧ m.is_right = n.is_right ∧
      m.attribute_name = n.attribute_name ∧ m.agg = n.agg) ∧
    (expression_agg_action (agg_action AggRule.COUNT_agg) (arg_list_action ArgList.star)
        "COUNT(*)").relAttrSqlNodes
      = [{ attribute_name := "*", is_right := true, agg := AggOp.COUNT_AGG,
           sqlString := "COUNT(*)" }] ∧
    (expression_agg_action (agg_action AggRule.COUNT_agg) (arg_list_action ArgList.empty)
        "COUNT()").relAttrSqlNodes
      = [{ is_right := false, sqlString := "COUNT()" }] ∧
    (rel_attr_agg_action (agg_action AggRule.COUNT_agg)
        (arg_list_action (ArgList.ID_comma "a" (ArgList.ID "b"))) none).is_right = false ∧
    (agg_action AggRule.MAX_agg = AggOp.MAX_AGG ∧ agg_action AggRule.MIN_agg = AggOp.MIN_AGG ∧
      agg_action AggRule.AVG_agg = AggOp.AVG_AGG ∧
      agg_action AggRule.COUNT_agg = AggOp.COUNT_AGG ∧
      agg_action AggRule.SUM_agg = AggOp.SUM_AGG) ∧
    (∀ a : AggRule, agg_action a ≠ AggOp.NO_AGG) ∧
    (∀ a1 a2 : AggRule, agg_action a1 = agg_action a2 → a1 = a2) ∧
    (expression_agg_action (agg_action AggRule.MAX_agg) (arg_list_action (ArgList.ID "a"))
        "MAX(a)").relAttrSqlNodes
      = [{ attribute_name := "a", is_right := true, agg := AggOp.MAX_AGG,
           sqlString := "MAX(a)" }] ∧
    rel_attr_agg_action (agg_action AggRule.SUM_agg) (arg_list_action (ArgList.ID "b"))
        (as_action AsRule.empty)
      = { attribute_name := "b", is_right := true, agg := AggOp.SUM_AGG } ∧
    rel_attr_agg_action (agg_action AggRule.MIN_agg) (arg_list_action ArgList.star)
        (as_action AsRule.empty)
      = { attribute_name := "*", is_right := true, agg := AggOp.MIN_AGG } ∧
    (rel_attr_agg_action (agg_action AggRule.AVG_agg)
        (arg_list_action (ArgList.ID_comma "a" (ArgList.ID "b")))
        (as_action AsRule.empty)).is_right = false := by
  obtain ⟨hnode, hexp⟩ := expression_agg_action_node (agg_action agg) args name
  have hrel := rel_attr_agg_action_node (agg_action agg) args (as_action as_rule)
  refine ⟨?_, ?_, ?_, by decide, by decide, by decide, by decide,
    (fun a => by cases a <;> decide),
    (fun a1 a2 => by cases a1 <;> cases a2 <;> decide), by decide, by decide, by decide,
    by decide⟩
  · intro x hx
    rw [hx] at hnode hrel
    refine ⟨⟨_, hnode, rfl, rfl, rfl⟩, ?_⟩
    rw [hrel]
    cases as_action as_rule <;> exact ⟨rfl, rfl, rfl⟩
  · intro hlen
    have hmatch : ∀ (α : Type) (f : String → α) (d : α),
        (match args.elements with | [x] => f x | _ => d) = d := by
      intro α f d
      cases h : args.elements with
      | nil => rfl
      | cons x rest =>
        cases rest with
        | nil => rw [h] at hlen; exact absurd rfl hlen
        | cons y rest2 => rfl
    rw [hmatch] at hnode
    refine ⟨⟨_, hnode, rfl⟩, ?_⟩
    rw [hrel]
    cases as_action as_rule
    · simp only [hmatch]
    · simp only [hmatch]
  · have key : ∀ (n : RelAttrSqlNode) (as_name : Option String),
        ¬ (n.attribute_name = "*" ∧ n.agg = AggOp.NO_AGG) →
        (n.attribute_name = "*" → n.is_right = true) →
        (match as_name with
          | some a =>
            if n.attribute_name = "*" ∧ n.agg = AggOp.NO_AGG then
              { n with is_right := false, alias_name := a }
            else { n with alias_name := a }
          | none =>
            if n.attribute_name = "*" then { n with is_right := true } else n).is_right
          = n.is_right ∧
        (match as_name with
          | some a =>
            if n.attribute_name = "*" ∧ n.agg = AggOp.NO_AGG then
              { n with is_right := false, alias_name := a }
            else { n with alias_name := a }
          | none =>
            if n.attribute_name = "*" then { n with is_right := true } else n).attribute_name
          = n.attribute_name ∧
        (match as_name with
          | some a =>
            if n.attribute_name = "*" ∧ n.agg = AggOp.NO_AGG then
              { n with is_right := false, alias_name := a }
            else { n with alias_name := a }
          | none =>
            if n.attribute_name = "*" then { n with is_right := true } else n).agg
          = n.agg := by
      intro n as_name h1 h2
      cases as_name with
      | some a => simp only [h1, if_false, and_self]
      | none =>
        by_cases hs : n.attribute_name = "*"
        · simp only [hs, if_true, and_self, and_true]
          exact (h2 hs).symm
        · simp only [hs, if_false, and_self]
    refine ⟨_, _, _, hnode, expression_list_as_block_one _ _ _ hexp hnode, rfl, ?_⟩
    apply key
    · cases h : args.elements with
      | nil => simp; decide
      | cons x rest =>
        cases rest with
        | nil => cases agg <;> simp [agg_action]
        | cons y rest2 => simp; decide
    · cases h : args.elements with
      | nil => simp; decide
      | cons x rest =>
        cases rest with
        | nil => simp
        | cons y rest2 => simp; decide

/-- The opening statement of the `expression_list` actions on the node of
`relation.*`: whatever the new reference held in `is_right`, the reference is
the one of `star_item_node`. -/
theorem expression_list_as_block_star (init : Bool) (relation name : String)
    (as_name : Option String) :
    expression_list_as_block (expression_id_dot_star_action init relation name) as_name
      = some { expression_id_dot_star_action init relation name with
          relAttrSqlNodes := [star_item_node relation name as_name] } := by
  rw [expression_list_as_block_one _
    { is_right := init, relation_name := relation, attribute_name := "*", sqlString := name }
    as_name rfl rfl]
  cases as_name <;> simp [star_item_node]

/-- The action of `'*'` is the action of `ID DOT '*'` with an empty relation
name. -/
theorem expression_star_action_eq (init : Bool) (name : String) :
    expression_star_action init name = expression_id_dot_star_action init "" name := rfl

/-- The references of a list after the rule
`expression as COMMA expression_list` on an item that is no compound
expression: those of the rest of the list, then those the opening statement
left in the item. -/
theorem expression_list_comma_action_nodes (e e2 l : ExpressionSqlNode)
    (as_name : Option String) (h : expression_list_as_block e as_name = some e2) :
    ∃ r, expression_list_comma_action e as_name (some l) = some r ∧
      r.relAttrSqlNodes = l.relAttrSqlNodes ++ e2.relAttrSqlNodes := by
  cases hb : e2.is_expression
  · simp only [expression_list_comma_action, h, hb]
    exact ⟨_, rfl, rfl⟩
  · simp only [expression_list_comma_action, h, hb]
    exact ⟨_, rfl, rfl⟩

/-- C37: a select item `*` or `t.*` without an aggregate, at the end of the
select list (rule `expression as`) or before a comma (rule
`expression as COMMA expression_list`, where the references of the item come
after those of the rest of the list). Its attribute reference has
`is_right = false` and the alias when an alias follows, and `is_right = true`
when none follows, whatever `new RelAttrSqlNode` left in `is_right`. An
aggregate over `*` with an alias, such as `COUNT(*) AS c`, keeps
`is_right = true` and gets `alias_name = c`. The last part is the select list
`* x, COUNT(*) AS c`. -/
theorem star_alias_is_right (init : Bool) (relation name : String) (as_rule : AsRule)
    (agg : AggRule) (c : String) :
    (∃ e n,
      expression_list_action init (ExpressionList.single (ExpressionRule.star name) as_rule)
        = some e ∧
      e.relAttrSqlNodes = [n] ∧ n.relation_name = "" ∧ n.attribute_name = "*" ∧
      n.agg = AggOp.NO_AGG ∧
      (as_action as_rule = none → n.is_right = true) ∧
      (∀ a, as_action as_rule = some a → n.is_right = false ∧ n.alias_name = a)) ∧
    (∃ e n,
      expression_list_action init
          (ExpressionList.single (ExpressionRule.ID_DOT_star relation name) as_rule)
        = some e ∧
      e.relAttrSqlNodes = [n] ∧ n.relation_name = relation ∧ n.attribute_name = "*" ∧
      n.agg = AggOp.NO_AGG ∧
      (as_action as_rule = none → n.is_right = true) ∧
      (∀ a, as_action as_rule = some a → n.is_right = false ∧ n.alias_name = a)) ∧
    (∀ (rest : ExpressionList) (l : ExpressionSqlNode),
      expression_list_action init rest = some l →
      (∃ e n,
        expression_list_action init
            (ExpressionList.comma (ExpressionRule.star name) as_rule rest) = some e ∧
        e.relAttrSqlNodes = l.relAttrSqlNodes ++ [n] ∧ n.relation_name = "" ∧
        n.attribute_name = "*" ∧ n.agg = AggOp.NO_AGG ∧
        (as_action as_rule = none → n.is_right = true) ∧
        (∀ a, as_action as_rule = some a → n.is_right = false ∧ n.alias_name = a)) ∧
      (∃ e n,
        expression_list_action init
            (ExpressionList.comma (ExpressionRule.ID_DOT_star relation name) as_rule rest)
          = some e ∧
        e.relAttrSqlNodes = l.relAttrSqlNodes ++ [n] ∧ n.relation_name = relation ∧
        n.attribute_name = "*" ∧ n.agg = AggOp.NO_AGG ∧
        (as_action as_rule = none → n.is_right = true) ∧
        (∀ a, as_action as_rule = some a → n.is_right = false ∧ n.alias_name = a))) ∧
    (∃ e n,
      expression_list_action init
          (ExpressionList.single (ExpressionRule.agg agg ArgList.star name) (AsRule.AS_ID c))
        = some e ∧
      e.relAttrSqlNodes = [n] ∧ n.attribute_name = "*" ∧ n.agg = agg_action agg ∧
      n.is_right = true ∧ n.alias_name = c) ∧
    Option.map ExpressionSqlNode.relAttrSqlNodes (expression_list_action init sample_select_list)
      = some [{ attribute_name := "*", agg := AggOp.COUNT_AGG, is_right := true,
                alias_name := "c", sqlString := "COUNT(*)" },
              { attribute_name := "*", agg := AggOp.NO_AGG, is_right := false,
                alias_name := "x", sqlString := "*" }] := by
  have hnode : ∀ rel : String,
      (star_item_node rel name (as_action as_rule)).relation_name = rel ∧
      (star_item_node rel name (as_action as_rule)).attribute_name = "*" ∧
      (star_item_node rel name (as_action as_rule)).agg = AggOp.NO_AGG ∧
      (as_action as_rule = none →
        (star_item_node rel name (as_action as_rule)).is_right = true) ∧
      (∀ a, as_action as_rule = some a →
        (star_item_node rel name (as_action as_rule)).is_right = false ∧
        (star_item_node rel name (as_action as_rule)).alias_name = a) := by
    intro rel
    cases h : as_action as_rule with
    | none => exact ⟨rfl, rfl, rfl, fun _ => rfl, fun a ha => by cases ha⟩
    | some a =>
      refine ⟨rfl, rfl, rfl, fun ha => (by cases ha), fun b hb => ?_⟩
      cases hb
      exact ⟨rfl, rfl⟩
  have hblock := expression_list_as_block_star init relation name (as_action as_rule)
  have hblock0 := expression_list_as_block_star init "" name (as_action as_rule)
  refine ⟨?_, ?_, ?_, ?_, ?_⟩
  · have h1 : expression_list_action init
        (ExpressionList.single (ExpressionRule.star name) as_rule)
        = expression_list_as_block (expression_id_dot_star_action init "" name)
            (as_action as_rule) := rfl
    rw [hblock0] at h1
    exact ⟨_, _, h1, rfl, hnode ""⟩
  · have h1 : expression_list_action init
        (ExpressionList.single (ExpressionRule.ID_DOT_star relation name) as_rule)
        = expression_list_as_block (expression_id_dot_star_action init relation name)
            (as_action as_rule) := rfl
    rw [hblock] at h1
    exact ⟨_, _, h1, rfl, hnode relation⟩
  · intro rest l hl
    constructor
    · obtain ⟨r, hr, hrn⟩ := expression_list_comma_action_nodes _ _ l _ hblock0
      have h1 : expression_list_action init
          (ExpressionList.comma (ExpressionRule.star name) as_rule rest) = some r := by
        simp only [expression_list_action, expression_action, hl, expression_star_action_eq]
        exact hr
      exact ⟨r, _, h1, hrn, hnode ""⟩
    · obtain ⟨r, hr, hrn⟩ := expression_list_comma_action_nodes _ _ l _ hblock
      have h1 : expression_list_action init
          (ExpressionList.comma (ExpressionRule.ID_DOT_star relation name) as_rule rest)
          = some r := by
        simp only [expression_list_action, expression_action, hl]
        exact hr
      exact ⟨r, _, h1, hrn, hnode relation⟩
  · have hb := expression_list_as_block_one
      (expression_agg_action (agg_action agg) (arg_list_action ArgList.star) name)
      { attribute_name := "*", is_right := true, agg := agg_action agg,
        func := FuncOp.NO_FUNC, sqlString := name } (some c) rfl rfl
    have h1 : expression_list_action init
        (ExpressionList.single (ExpressionRule.agg agg ArgList.star name) (AsRule.AS_ID c))
        = expression_list_as_block
            (expression_agg_action (agg_action agg) (arg_list_action ArgList.star) name)
            (some c) := rfl
    rw [hb] at h1
    refine ⟨_, _, h1, rfl, ?_⟩
    cases agg <;> simp [agg_action]
  · cases init <;> decide

end Miniob
